import Mathlib

/-!
# Reservation consistency engine of the hotel-booking backend

A shallow embedding of the booking routes (`src/routes/bookingRoutes.js`), of the
discount, reward and VNPay routes (`discountRoutes.js`, `rewardsRoutes.js`,
`vnpayRoutes.js`) and of the Mongoose models they use (`src/models/booking.js`,
`room.js`, `user.js`, `transaction.js`, `discount.js`, `userVouchers.js`).

Conventions of the embedding
* A `Date` is its millisecond timestamp, an `Int`; JavaScript compares dates by that value.
* A collection is a list and the `_id` of a document is its position in the list, so
  `findById` is a lookup by position and a freshly inserted document gets the length of
  the list as its identifier. An identifier that Mongoose casts (`findById`, a query
  filter, `ObjectId.equals`) is that `Nat`, and the guards
  `mongoose.Types.ObjectId.isValid(...)` and `mongoose.connection.readyState` always
  pass. The path parameter `:id` of the cancel, assign-room, extend and payment-deadline
  handlers is also compared as text with `bookingId.toString()`, so it is a `PathId`:
  the identifier it denotes and whether its text is the lower-case hexadecimal form
  that `toString()` prints.
* A handler that runs inside `session.startTransaction()` / `commitTransaction()` /
  `abortTransaction()` is a body of type `Except Error State`; `withTransaction` keeps
  the old state when the body throws.
* Request values that the handlers pass through `Number(...)` are modelled by `JsVal`
  (absent, `null`, an integer number, or a truthy value that is not a number); head
  counts, daily rates and points are integers, amounts of money are rationals and the
  arithmetic on them is exact.
* Stored documents satisfy their schema, so saving one again does not fail.
* `document.save()` sends the modified paths only: a `push` on `currentbookings`
  appends to the stored list, an assignment replaces the stored list.
-/

namespace HotelBooking

/-! ## Data model -/

/-- Values of `availabilityStatus` in `roomSchema`. -/
inductive AvailabilityStatus where
  | available
  | maintenance
  | busy
deriving DecidableEq

/-- Values of `status` in `bookingSchema`. -/
inductive BookingStatus where
  | pending
  | confirmed
  | canceled
deriving DecidableEq

/-- Values of `paymentStatus` in `bookingSchema`. -/
inductive PaymentStatus where
  | pending
  | paid
  | canceled
deriving DecidableEq

/-- One element of `room.currentbookings`; `bookingId` is not required by the schema. -/
structure CurrentBooking where
  bookingId : Option Nat
  checkin : Int
  checkout : Int
deriving DecidableEq

/-- The fields of a `Room` document that the booking routes read or write. -/
structure Room where
  maxcount : Int
  rentperday : Int
  currentbookings : List CurrentBooking
  availabilityStatus : AvailabilityStatus
  type : String
deriving DecidableEq

/-- The `code` of an entry of `appliedVouchers`: the discount's code, or its identifier
when it has no code (`d.code || d.id`). -/
inductive VoucherRef where
  | code (c : String)
  | id (n : Nat)
deriving DecidableEq

/-- One element of `booking.appliedVouchers`. -/
structure AppliedVoucher where
  code : VoucherRef
  discount : ℚ
deriving DecidableEq

/-- The fields of a `Booking` document (gateway request and transaction identifiers,
`specialRequest` and `diningServices` are carried through unchanged and left out). -/
structure Booking where
  roomid : Nat
  name : String
  email : String
  phone : String
  checkin : Int
  checkout : Int
  adults : Int
  children : Int
  roomType : String
  status : BookingStatus
  paymentMethod : String
  paymentStatus : PaymentStatus
  paymentDeadline : Option Int
  cancelReason : Option String
  voucherDiscount : ℚ
  appliedVouchers : List AppliedVoucher
  momoOrderId : Option String
  vnpOrderId : Option String
deriving DecidableEq

/-- The fields of a `users` document used by the accrual code. -/
structure User where
  email : String
  points : Int
deriving DecidableEq

/-- Values of `type` in `transactionSchema`. -/
inductive TransactionType where
  | earn
  | redeem
  | reward_redemption
deriving DecidableEq

/-- Values of `status` in `transactionSchema`. -/
inductive TransactionStatus where
  | pending
  | completed
  | failed
deriving DecidableEq

/-- A `Transaction` document (loyalty ledger entry); `bookingId` and `amount` are
required for the type `earn` only. -/
structure Transaction where
  userId : Nat
  bookingId : Option Nat
  amount : Option ℚ
  points : Int
  type : TransactionType
  status : TransactionStatus
deriving DecidableEq

/-- Values of `type` in `discountSchema`. -/
inductive DiscountKind where
  | voucher
  | festival
  | member
  | accumulated
deriving DecidableEq

/-- Values of `discountType` in `discountSchema`. -/
inductive DiscountType where
  | percentage
  | fixed
deriving DecidableEq

/-- Values of `membershipLevel`. -/
inductive MembershipLevel where
  | Bronze
  | Silver
  | Gold
  | Platinum
  | Diamond
deriving DecidableEq

/-- One element of `discount.usedBy`: the per-user usage counter. -/
structure UsedBy where
  userId : Nat
  count : Int
deriving DecidableEq

/-- A `Discount` document (`name` and `description` are left out); `code`,
`maxDiscount`, `membershipLevel` and `minSpending` may be `null`. -/
structure Discount where
  code : Option String
  type : DiscountKind
  discountType : DiscountType
  discountValue : ℚ
  applicableHotels : List Nat
  startDate : Int
  endDate : Int
  minBookingAmount : ℚ
  maxDiscount : Option ℚ
  isStackable : Bool
  membershipLevel : Option MembershipLevel
  minSpending : Option ℚ
  usedBy : List UsedBy
  isDeleted : Bool
deriving DecidableEq

/-- A `UserVoucher` document: the personal instance of a voucher (`rewardId` is left
out). -/
structure UserVoucher where
  userId : Nat
  voucherCode : String
  isUsed : Bool
  expiryDate : Int
deriving DecidableEq

/-- A `Reward` document of `rewardsRoutes.js` (`name` and `description` are left out). -/
structure Reward where
  membershipLevel : MembershipLevel
  pointsRequired : Int
  voucherCode : String
deriving DecidableEq

/-- The database: one list per collection, indexed by identifier. -/
structure State where
  rooms : List Room
  bookings : List Booking
  users : List User
  transactions : List Transaction
  discounts : List Discount
  userVouchers : List UserVoucher
  rewards : List Reward
deriving DecidableEq

/-! ## Availability check -/

/-- The callback of `room.currentbookings.some(...)` in `POST /`, `POST /bookroom`,
`POST /validate` and `POST /:id/assign-room`: the three-clause overlap test. -/
def overlapTest (checkinDate checkoutDate existingCheckin existingCheckout : Int) : Bool :=
  (decide (checkinDate ≥ existingCheckin) && decide (checkinDate < existingCheckout)) ||
  (decide (checkoutDate > existingCheckin) && decide (checkoutDate ≤ existingCheckout)) ||
  (decide (checkinDate ≤ existingCheckin) && decide (checkoutDate ≥ existingCheckout))

/-- The value `isRoomBooked` (`isNewRoomBooked` in `assign-room`). -/
def isRoomBooked (room : Room) (checkinDate checkoutDate : Int) : Bool :=
  room.currentbookings.any
    (fun booking => overlapTest checkinDate checkoutDate booking.checkin booking.checkout)

/-- Half-open overlap of `[checkin, checkout)` with `[existingCheckin, existingCheckout)`,
in the words of the specification (§4.1). -/
def overlaps (checkin checkout existingCheckin existingCheckout : Int) : Prop :=
  checkin < existingCheckout ∧ existingCheckin < checkout

instance (a b c d : Int) : Decidable (overlaps a b c d) := by
  unfold overlaps; infer_instance

/-! ## Request values and errors -/

/-- A request value that a handler passes through `Number(...)`: absent, `null`, an
integer number, or a truthy value that `Number` maps to `NaN` (for instance the
string `"abc"`). -/
inductive JsVal where
  | undefined
  | null
  | num (n : Int)
  | nonNumeric
deriving DecidableEq

/-- JavaScript `Number(v)`; `none` stands for `NaN`. -/
def Number : JsVal → Option Int
  | .undefined => none
  | .null => some 0
  | .num n => some n
  | .nonNumeric => none

/-- JavaScript truthiness, as tested by `!v`. -/
def truthy : JsVal → Bool
  | .undefined => false
  | .null => false
  | .num n => decide (n ≠ 0)
  | .nonNumeric => true

/-- JavaScript `v == null`. -/
def looseNull : JsVal → Bool
  | .undefined => true
  | .null => true
  | _ => false

/-- JavaScript `a + b` on numbers; `NaN` is absorbing. -/
def jsAdd : Option Int → Option Int → Option Int
  | some a, some b => some (a + b)
  | _, _ => none

/-- JavaScript `a < b` with a finite left operand; false when `b` is `NaN`. -/
def jsLt (a : Int) : Option Int → Bool
  | some b => decide (a < b)
  | none => false

/-- A date taken from the request body: absent (falsy), not parsable
(`isNaN(date.getTime())`), or a timestamp. -/
inductive DateInput where
  | missing
  | invalid
  | date (t : Int)
deriving DecidableEq

/-- The errors thrown by the booking handlers, one per message. -/
inductive Error where
  | missingFields
  | invalidPaymentMethod
  | invalidDates
  | roomNotFound
  | roomUnavailable
  | capacityExceeded
  | slotConflict
  | validationFailed
  | bankPaymentFailed
  | missingCancelReason
  | bookingNotFound
  | alreadyCanceled
  | alreadyConfirmed
  | newRoomNotFound
  | newRoomUnavailable
  | roomTypeMismatch
  | newRoomBooked
  | missingNewCheckout
  | invalidNewCheckout
  | newCheckoutNotLater
  | extensionUnavailable
  | userNotFound
  | discountsNotFound
  | discountInvalid
  | transactionExists
  | notConfirmedOrPaid
  | forbidden
  | rewardNotFound
  | tierMismatch
  | insufficientPoints
  | alreadyRedeemed
  | voucherNotFound
deriving DecidableEq

/-- A booking identifier as it arrives in the path parameter `:id`: the `ObjectId` that
Mongoose casts it to, and whether the text is the lower-case hexadecimal form printed
by `ObjectId.toString()`. A valid identifier written with upper-case digits denotes the
same booking and is not canonical. -/
structure PathId where
  id : Nat
  canonical : Bool
deriving DecidableEq

/-- An identifier written in canonical form. -/
instance : Coe Nat PathId := ⟨fun n => { id := n, canonical := true }⟩

/-- A numeral stands for the identifier written in canonical form. -/
instance (n : Nat) : OfNat PathId n := ⟨{ id := n, canonical := true }⟩

/-- The body of `POST /` and `POST /bookroom` (`orderId` is read by `/bookroom` only). -/
structure BookingRequest where
  roomid : Nat
  name : String
  email : String
  phone : String
  checkin : DateInput
  checkout : DateInput
  adults : JsVal
  children : JsVal
  roomType : String
  paymentMethod : String
  orderId : Option String
deriving DecidableEq

instance {ε α : Type} [DecidableEq ε] [DecidableEq α] : DecidableEq (Except ε α) :=
  fun x y =>
    match x, y with
    | .ok a, .ok b => if h : a = b then isTrue (by rw [h]) else isFalse (by simpa using h)
    | .error a, .error b => if h : a = b then isTrue (by rw [h]) else isFalse (by simpa using h)
    | .ok _, .error _ => isFalse (by simp)
    | .error _, .ok _ => isFalse (by simp)

/-- Commit or abort: the writes of a handler body are kept when it returns and
discarded when it throws. -/
def withTransaction (s : State) (body : Except Error State) : State × Except Error Unit :=
  match body with
  | .ok s' => (s', .ok ())
  | .error e => (s, .error e)

/-! ## Schema validation of a new booking -/

/-- The characters matched by `\s` in a JavaScript regular expression, which are also
the characters removed by `String.prototype.trim`. -/
def isWhiteSpace (c : Char) : Bool :=
  let n := c.toNat
  n == 0x20 || (decide (0x09 ≤ n) && decide (n ≤ 0x0d)) || n == 0xa0 || n == 0x1680 ||
  (decide (0x2000 ≤ n) && decide (n ≤ 0x200a)) || n == 0x2028 || n == 0x2029 ||
  n == 0x202f || n == 0x205f || n == 0x3000 || n == 0xfeff

/-- The validator of `email` in `bookingSchema`: the string has the shape
`local@name.suffix`, with three non-empty parts free of blanks and of further `@`. -/
def emailMatches (email : String) : Bool :=
  let cs := email.toList
  let localPart := cs.takeWhile (fun c => c != '@')
  match cs.dropWhile (fun c => c != '@') with
  | [] => false
  | _ :: domain =>
    !cs.any isWhiteSpace && !domain.contains '@' && !localPart.isEmpty &&
    ((domain.drop 1).dropLast).contains '.'

/-- JavaScript `toLowerCase` on the letters A to Z. -/
def toLowerCase (s : String) : String :=
  String.mk (s.toList.map Char.toLower)

/-- The list accepted by the handlers and by the `paymentMethod` enum. -/
def paymentMethods : List String :=
  ["cash", "credit_card", "bank_transfer", "mobile_payment", "vnpay"]

/-- Number of nights: `Math.ceil((checkoutDate - checkinDate) / (1000 * 60 * 60 * 24))`. -/
def days (checkinDate checkoutDate : Int) : Int :=
  -((checkinDate - checkoutDate) / (1000 * 60 * 60 * 24))

/-- The function `processBankPayment`: it throws when the room is missing or not
available, and otherwise returns the amount to transfer. -/
def processBankPayment (s : State) (bookingData : Booking) : Except Error Int :=
  match s.rooms[bookingData.roomid]? with
  | none => .error .bankPaymentFailed
  | some room =>
    if room.availabilityStatus ≠ .available then .error .bankPaymentFailed
    else .ok (room.rentperday * days bookingData.checkin bookingData.checkout)

/-- The update sent by `room.currentbookings.push(entry); room.save()`: the entry is
appended to the stored list of the room. -/
def pushCurrentBooking (rooms : List Room) (roomId : Nat) (entry : CurrentBooking) : List Room :=
  match rooms[roomId]? with
  | none => rooms
  | some room =>
    rooms.set roomId { room with currentbookings := room.currentbookings ++ [entry] }

/-! ## CreateBooking: `POST /` and `POST /bookroom` -/

/-- The validators of `bookingSchema` that `newBooking.save` runs: required strings,
the email pattern, `adults >= 1`, `children >= 0` and the `paymentMethod` enum. -/
def validateBooking (b : Booking) : Bool :=
  b.name != "" && b.email != "" && b.phone != "" && b.roomType != "" &&
  emailMatches b.email && decide (1 ≤ b.adults) && decide (0 ≤ b.children) &&
  paymentMethods.contains b.paymentMethod

/-- The document built by `new Booking({...})`; `none` when a count is `NaN`, which
Mongoose refuses to cast, so that `save` fails. `status` takes the schema default. -/
def newBooking (req : BookingRequest) (checkinDate checkoutDate : Int)
    (adults children : Option Int) (now : Int) (momoOrderId vnpOrderId : Option String) :
    Option Booking :=
  match adults, children with
  | some a, some c =>
    some
      { roomid := req.roomid
        name := req.name
        email := toLowerCase req.email
        phone := req.phone
        checkin := checkinDate
        checkout := checkoutDate
        adults := a
        children := c
        roomType := req.roomType
        status := .pending
        paymentMethod := req.paymentMethod
        paymentStatus := .pending
        paymentDeadline :=
          if req.paymentMethod = "bank_transfer" then some (now + 5 * 60 * 1000) else none
        cancelReason := none
        voucherDiscount := 0
        appliedVouchers := []
        momoOrderId := momoOrderId
        vnpOrderId := vnpOrderId }
  | _, _ => none

/-- The writes shared by both creation handlers, from `newBooking.save` to
`room.save`: insert the booking, run `processBankPayment` for a bank transfer, append
the interval to the room. -/
def persistBooking (s : State) (req : BookingRequest) (checkinDate checkoutDate : Int)
    (doc : Option Booking) : Except Error State :=
  match doc with
  | none => .error .validationFailed
  | some b =>
    if validateBooking b = false then .error .validationFailed
    else
      let id := s.bookings.length
      let s1 : State := { s with bookings := s.bookings ++ [b] }
      let entry : CurrentBooking :=
        { bookingId := some id, checkin := checkinDate, checkout := checkoutDate }
      let s2 : State := { s1 with rooms := pushCurrentBooking s1.rooms req.roomid entry }
      if req.paymentMethod = "bank_transfer" then
        match processBankPayment s1 b with
        | .error e => .error e
        | .ok _ => .ok s2
      else .ok s2

/-- The `try` block of `POST /`. -/
def createBookingTx (s : State) (req : BookingRequest) (now : Int) : Except Error State :=
  if req.name = "" ∨ req.email = "" ∨ req.phone = "" ∨ req.checkin = .missing ∨
      req.checkout = .missing ∨ truthy req.adults = false ∨ req.roomType = "" ∨
      req.paymentMethod = "" then .error .missingFields
  else if paymentMethods.contains req.paymentMethod = false then .error .invalidPaymentMethod
  else
    match req.checkin, req.checkout with
    | .date checkinDate, .date checkoutDate =>
      if checkinDate ≥ checkoutDate then .error .invalidDates
      else
        match s.rooms[req.roomid]? with
        | none => .error .roomNotFound
        | some room =>
          if room.availabilityStatus ≠ .available then .error .roomUnavailable
          else if jsLt room.maxcount (jsAdd (Number req.adults) (Number req.children)) then
            .error .capacityExceeded
          else if isRoomBooked room checkinDate checkoutDate then .error .slotConflict
          else
            persistBooking s req checkinDate checkoutDate
              (newBooking req checkinDate checkoutDate (Number req.adults)
                (some ((Number req.children).getD 0)) now none none)
    | _, _ => .error .invalidDates

/-- The handler `POST /api/bookings`. -/
def createBooking (s : State) (req : BookingRequest) (now : Int) : State × Except Error Unit :=
  withTransaction s (createBookingTx s req now)

/-- The `try` block of `POST /bookroom`. -/
def bookRoomTx (s : State) (req : BookingRequest) (now : Int) : Except Error State :=
  if req.name = "" ∨ req.email = "" ∨ req.phone = "" ∨ req.checkin = .missing ∨
      req.checkout = .missing ∨ truthy req.adults = false ∨ looseNull req.children = true ∨
      req.roomType = "" ∨ req.paymentMethod = "" then .error .missingFields
  else if paymentMethods.contains req.paymentMethod = false then .error .invalidPaymentMethod
  else
    match req.checkin, req.checkout with
    | .date checkinDate, .date checkoutDate =>
      if checkinDate ≥ checkoutDate then .error .invalidDates
      else
        match s.rooms[req.roomid]? with
        | none => .error .roomNotFound
        | some room =>
          if room.availabilityStatus ≠ .available then .error .roomUnavailable
          else if jsLt room.maxcount (jsAdd (Number req.adults) (Number req.children)) then
            .error .capacityExceeded
          else if isRoomBooked room checkinDate checkoutDate then .error .slotConflict
          else
            persistBooking s req checkinDate checkoutDate
              (newBooking req checkinDate checkoutDate (Number req.adults)
                (Number req.children) now
                (if req.paymentMethod = "mobile_payment" then req.orderId else none)
                (if req.paymentMethod = "vnpay" then req.orderId else none))
    | _, _ => .error .invalidDates

/-- The handler `POST /api/bookings/bookroom`. -/
def bookRoom (s : State) (req : BookingRequest) (now : Int) : State × Except Error Unit :=
  withTransaction s (bookRoomTx s req now)

/-! ## CancelBooking: `PUT /:id/cancel` -/

/-- The test `b.bookingId.toString() === id` for an entry whose `bookingId` is set: the
printed identifier equals the text of the path parameter when both denote the same
booking and the parameter is written in canonical form. -/
def sameText (id : PathId) (bookingId : Option Nat) : Bool :=
  bookingId == some id.id && id.canonical

/-- The callback of the `filter` that releases a booking's interval:
`b.bookingId && b.bookingId.toString() !== id`. -/
def keepOther (id : PathId) (b : CurrentBooking) : Bool :=
  b.bookingId.isSome && !sameText id b.bookingId

/-- The update sent by `room.currentbookings = room.currentbookings.filter(...)` and
`room.save()`, guarded by `if (room)`. -/
def releaseInterval (rooms : List Room) (roomId : Nat) (id : PathId) : List Room :=
  match rooms[roomId]? with
  | none => rooms
  | some room =>
    rooms.set roomId { room with currentbookings := room.currentbookings.filter (keepOther id) }

/-- The test `!cancelReason || cancelReason.trim() === ""`. -/
def isBlank (reason : String) : Bool :=
  reason.toList.all isWhiteSpace

/-- The `try` block of `PUT /:id/cancel`. -/
def cancelBookingTx (s : State) (id : PathId) (cancelReason : String) :
    Except Error State :=
  if isBlank cancelReason then .error .missingCancelReason
  else
    match s.bookings[id.id]? with
    | none => .error .bookingNotFound
    | some booking =>
      if booking.status = .canceled then .error .alreadyCanceled
      else if booking.status = .confirmed then .error .alreadyConfirmed
      else
        let booking1 : Booking :=
          { booking with
            status := .canceled, paymentStatus := .canceled, cancelReason := some cancelReason }
        .ok { s with
              bookings := s.bookings.set id.id booking1
              rooms := releaseInterval s.rooms booking.roomid id }

/-- The handler `PUT /api/bookings/:id/cancel`. -/
def cancelBooking (s : State) (id : PathId) (cancelReason : String) :
    State × Except Error Unit :=
  withTransaction s (cancelBookingTx s id cancelReason)

/-! ## Confirm: `PUT /:id/confirm` -/

/-- The accrual block of the confirm handler. Nothing is written when no user has the
booking's email, when the room is missing (the property access throws and the error
is only logged), or when a transaction already refers to the booking. The points are
`Math.floor(totalAmount * 0.01)`, the floor of a hundredth of the amount. -/
def accrueOnConfirm (s : State) (id : Nat) (booking : Booking) : State :=
  match s.users.findIdx? (fun u => u.email == toLowerCase booking.email) with
  | none => s
  | some userId =>
    match s.users[userId]?, s.rooms[booking.roomid]? with
    | some user, some room =>
      let totalAmount : ℚ :=
        ((room.rentperday * days booking.checkin booking.checkout : Int) : ℚ) -
          booking.voucherDiscount
      let pointsEarned := Rat.floor (totalAmount / 100)
      if s.transactions.any (fun t => t.bookingId == some id) then s
      else
        { s with
          transactions := s.transactions ++
            [{ userId := userId, bookingId := some id, amount := some totalAmount,
               points := pointsEarned, type := .earn, status := .completed }]
          users := s.users.set userId { user with points := user.points + pointsEarned } }
    | _, _ => s

/-- The `try` block of `PUT /:id/confirm`. -/
def confirmBookingTx (s : State) (id : Nat) : Except Error State :=
  match s.bookings[id]? with
  | none => .error .bookingNotFound
  | some booking =>
    if booking.status = .confirmed then .error .alreadyConfirmed
    else if booking.status = .canceled then .error .alreadyCanceled
    else
      let booking1 : Booking := { booking with status := .confirmed, paymentStatus := .paid }
      .ok (accrueOnConfirm { s with bookings := s.bookings.set id booking1 } id booking1)

/-- The handler `PUT /api/bookings/:id/confirm`. -/
def confirmBooking (s : State) (id : Nat) : State × Except Error Unit :=
  withTransaction s (confirmBookingTx s id)

/-! ## ReassignRoom: `POST /:id/assign-room` -/

/-- The `try` block of `POST /:id/assign-room`. -/
def assignRoomTx (s : State) (id : PathId) (newRoomId : Nat) : Except Error State :=
  match s.bookings[id.id]? with
  | none => .error .bookingNotFound
  | some booking =>
    if booking.status = .canceled then .error .alreadyCanceled
    else
      match s.rooms[newRoomId]? with
      | none => .error .newRoomNotFound
      | some newRoom =>
        if newRoom.availabilityStatus ≠ .available then .error .newRoomUnavailable
        else if newRoom.type ≠ booking.roomType then .error .roomTypeMismatch
        else if isRoomBooked newRoom booking.checkin booking.checkout then .error .newRoomBooked
        else
          let rooms1 := releaseInterval s.rooms booking.roomid id
          let bookings1 := s.bookings.set id.id { booking with roomid := newRoomId }
          let entry : CurrentBooking :=
            { bookingId := some id.id, checkin := booking.checkin,
              checkout := booking.checkout }
          .ok { s with bookings := bookings1, rooms := pushCurrentBooking rooms1 newRoomId entry }

/-- The handler `POST /api/bookings/:id/assign-room`. -/
def assignRoom (s : State) (id : PathId) (newRoomId : Nat) : State × Except Error Unit :=
  withTransaction s (assignRoomTx s id newRoomId)

/-! ## ExtendStay: `PATCH /:id/extend` -/

/-- The callback of `room.currentbookings.some(...)` in the extend handler: the entry
whose printed identifier is the text of the path parameter is skipped, another entry
conflicts when its checkin or its checkout lies strictly between the old and the new
checkout. -/
def extendConflict (id : PathId) (oldCheckoutDate newCheckoutDate : Int)
    (b : CurrentBooking) : Bool :=
  if sameText id b.bookingId then false
  else
    (decide (oldCheckoutDate < b.checkin) && decide (newCheckoutDate > b.checkin)) ||
    (decide (oldCheckoutDate < b.checkout) && decide (newCheckoutDate > b.checkout))

/-- The effect of `bookingInRoom = room.currentbookings.find(...)` followed by
`bookingInRoom.checkout = newCheckoutDate`: the first entry whose printed identifier is
the text of the path parameter gets the new checkout. -/
def setCheckoutOfFirst (id : PathId) (newCheckoutDate : Int) :
    List CurrentBooking → List CurrentBooking
  | [] => []
  | b :: bs =>
    if sameText id b.bookingId then { b with checkout := newCheckoutDate } :: bs
    else b :: setCheckoutOfFirst id newCheckoutDate bs

/-- The `try` block of `PATCH /:id/extend`. -/
def extendStayTx (s : State) (id : PathId) (newCheckout : DateInput) :
    Except Error State :=
  match newCheckout with
  | .missing => .error .missingNewCheckout
  | .invalid => .error .invalidNewCheckout
  | .date newCheckoutDate =>
    match s.bookings[id.id]? with
    | none => .error .bookingNotFound
    | some booking =>
      if booking.status = .canceled then .error .alreadyCanceled
      else
        let oldCheckoutDate := booking.checkout
        if newCheckoutDate ≤ oldCheckoutDate then .error .newCheckoutNotLater
        else
          match s.rooms[booking.roomid]? with
          | none => .error .roomNotFound
          | some room =>
            if room.currentbookings.any (extendConflict id oldCheckoutDate newCheckoutDate) then
              .error .extensionUnavailable
            else
              .ok { s with
                    bookings := s.bookings.set id.id
                      { booking with checkout := newCheckoutDate }
                    rooms := s.rooms.set booking.roomid
                      { room with
                        currentbookings :=
                          setCheckoutOfFirst id newCheckoutDate room.currentbookings } }

/-- The handler `PATCH /api/bookings/:id/extend`. -/
def extendStay (s : State) (id : PathId) (newCheckout : DateInput) :
    State × Except Error Unit :=
  withTransaction s (extendStayTx s id newCheckout)

/-! ## Payment deadline: `GET /:id/payment-deadline` -/

/-- The answers of the payment-deadline query. -/
inductive DeadlineResponse where
  | notFound
  | notBankTransfer
  | noDeadline
  | expired
  | remaining (seconds : Int)
deriving DecidableEq

/-- The handler `GET /api/bookings/:id/payment-deadline`, asked at time `currentTime`.
An unpaid bank-transfer booking whose deadline has passed is canceled and its interval
released; every other query only reads. The booking is read with its room populated;
the write-back keeps the room reference, and a missing room is skipped by `if (room)`. -/
def paymentDeadline (s : State) (id : PathId) (currentTime : Int) :
    State × DeadlineResponse :=
  match s.bookings[id.id]? with
  | none => (s, .notFound)
  | some booking =>
    if booking.paymentMethod ≠ "bank_transfer" then (s, .notBankTransfer)
    else
      match booking.paymentDeadline with
      | none => (s, .noDeadline)
      | some deadline =>
        let timeRemaining := deadline - currentTime
        if timeRemaining ≤ 0 ∧ booking.paymentStatus = .pending then
          ({ s with
             bookings := s.bookings.set id.id
               { booking with status := .canceled, paymentStatus := .canceled }
             rooms := releaseInterval s.rooms booking.roomid id }, .expired)
        else (s, .remaining (max 0 (timeRemaining / 1000)))

/-! ## Membership tier -/

/-- The tier computed by `GET /api/users/membership/level/:userId`
(`usersRoutes.js`, lines 430-441). -/
def membershipLevel (points : Int) : MembershipLevel :=
  if points ≥ 400000 then .Diamond
  else if points ≥ 300000 then .Platinum
  else if points ≥ 200000 then .Gold
  else if points ≥ 100000 then .Silver
  else .Bronze

/-- The tier computed by `GET /api/users/membership/benefits/:userId`
(`usersRoutes.js`, lines 1169-1174). -/
def benefitsLevel (points : Int) : MembershipLevel :=
  if points ≥ 400000 then .Diamond
  else if points ≥ 300000 then .Platinum
  else if points ≥ 200000 then .Gold
  else if points ≥ 100000 then .Silver
  else .Bronze

/-- The tier computed by `GET /api/discounts/member` (`discountRoutes.js`, lines
319-324). -/
def memberDiscountLevel (points : Int) : MembershipLevel :=
  if points ≥ 400000 then .Diamond
  else if points ≥ 300000 then .Platinum
  else if points ≥ 200000 then .Gold
  else if points ≥ 100000 then .Silver
  else .Bronze

/-- The tier computed by `GET /api/rewards` (`rewardsRoutes.js`, lines 174-179). -/
def rewardListLevel (points : Int) : MembershipLevel :=
  if points ≥ 400000 then .Diamond
  else if points ≥ 300000 then .Platinum
  else if points ≥ 200000 then .Gold
  else if points ≥ 100000 then .Silver
  else .Bronze

/-- The tier `userMembershipLevel` computed by `POST /api/rewards/redeem`
(`rewardsRoutes.js`, lines 220-225). -/
def redeemLevel (points : Int) : MembershipLevel :=
  if points ≥ 400000 then .Diamond
  else if points ≥ 300000 then .Platinum
  else if points ≥ 200000 then .Gold
  else if points ≥ 100000 then .Silver
  else .Bronze

/-- The tier computed inside the loop of `POST /api/discounts/apply` when it checks a
member discount (`discountRoutes.js`, lines 530-535). -/
def applyMembershipLevel (points : Int) : MembershipLevel :=
  if points ≥ 1000000 then .Diamond
  else if points ≥ 500000 then .Platinum
  else if points ≥ 100000 then .Gold
  else if points ≥ 50000 then .Silver
  else .Bronze

/-- The position of a tier in the order Bronze, Silver, Gold, Platinum, Diamond. -/
def MembershipLevel.rank : MembershipLevel → Nat
  | .Bronze => 0
  | .Silver => 1
  | .Gold => 2
  | .Platinum => 3
  | .Diamond => 4

/-! ## Discount documents -/

/-- The hook `discountSchema.pre('save')`: the fields that do not belong to the type
are set to `null`, then the field of the type and the date order are checked. -/
def discountPreSave (d : Discount) : Except Error Discount :=
  let d1 : Discount := if d.type ≠ .voucher then { d with code := none } else d
  let d2 : Discount := if d1.type ≠ .member then { d1 with membershipLevel := none } else d1
  let d3 : Discount := if d2.type ≠ .accumulated then { d2 with minSpending := none } else d2
  if d3.type = .voucher ∧ (d3.code = none ∨ d3.code = some "") then .error .discountInvalid
  else if d3.type = .member ∧ d3.membershipLevel = none then .error .discountInvalid
  else if d3.type = .accumulated ∧ d3.minSpending = none then .error .discountInvalid
  else if d3.startDate ≥ d3.endDate then .error .discountInvalid
  else .ok d3

/-- The update of `discount.usedBy` for a user: the count of the first entry of the
user is incremented, or an entry with count 1 is pushed. -/
def bumpUsage (userId : Nat) : List UsedBy → List UsedBy
  | [] => [{ userId := userId, count := 1 }]
  | u :: us =>
    if u.userId = userId then { u with count := u.count + 1 } :: us
    else u :: bumpUsage userId us

/-- The per-user usage counter of a discount: the count of the first entry of the user
in `usedBy`, 0 when there is none. -/
def usageCount (userId : Nat) (d : Discount) : Int :=
  match d.usedBy.find? (fun u => u.userId == userId) with
  | some u => u.count
  | none => 0

/-- The test `now < discount.startDate || now > discount.endDate`. -/
def outsideWindow (now : Int) (d : Discount) : Bool :=
  decide (now < d.startDate) || decide (now > d.endDate)

/-- The test `discount.applicableHotels.length > 0 &&
!discount.applicableHotels.some((id) => id.equals(bookingData.roomid))`. -/
def outOfScope (roomid : Nat) (d : Discount) : Bool :=
  decide (d.applicableHotels.length > 0) && !d.applicableHotels.any (fun id => id == roomid)

/-! ## DiscountResolver: `POST /api/discounts/apply` -/

/-- An element of `identifiers`: a voucher code or the identifier of a discount. -/
inductive Identifier where
  | code (c : String)
  | id (n : Nat)
deriving DecidableEq

/-- The body of `POST /api/discounts/apply`: `bookingData` and `identifiers`. -/
structure ApplyRequest where
  roomid : Nat
  checkin : DateInput
  checkout : DateInput
  identifiers : List Identifier
  userId : Option Nat
  bookingId : Option Nat
deriving DecidableEq

/-- One element of `appliedDiscounts` (`name` is left out). -/
structure AppliedDiscount where
  id : Nat
  code : Option String
  type : DiscountKind
  discount : ℚ
deriving DecidableEq

/-- The answer of a successful resolution: the net amount and the applied list. -/
structure ApplyResponse where
  totalAmount : ℚ
  appliedDiscounts : List AppliedDiscount
deriving DecidableEq

/-- The loop variables of the resolution: the database as seen inside the session,
`totalDiscount` and `appliedDiscounts`. -/
structure Resolution where
  db : State
  totalDiscount : ℚ
  appliedDiscounts : List AppliedDiscount
deriving DecidableEq

/-- Commit or abort for a handler body that also computes an answer. -/
def withTransactionR {α : Type} (s : State) (body : Except Error (State × α)) :
    State × Except Error α :=
  match body with
  | .ok (s', a) => (s', .ok a)
  | .error e => (s, .error e)

/-- The candidates, `Discount.find({ $or: [{ code: { $in: identifiers } },
{ _id: { $in: ... } }], isDeleted: false })`, each with its identifier, in the order of
the collection. -/
def findCandidates (s : State) (identifiers : List Identifier) : List (Nat × Discount) :=
  s.discounts.enum.filter (fun p =>
    !p.2.isDeleted &&
    identifiers.any (fun i =>
      match i with
      | .code c => p.2.code == some c
      | .id n => p.1 == n))

/-- The amount of an accepted discount in `POST /api/discounts/apply`: for a
percentage `(totalAmount * discountValue) / 100`, replaced by `maxDiscount` when
`maxDiscount` is truthy and smaller; otherwise `discountValue`. -/
def discountAmount (totalAmount : ℚ) (d : Discount) : ℚ :=
  match d.discountType with
  | .percentage =>
    let amount := (totalAmount * d.discountValue) / 100
    match d.maxDiscount with
    | some maxDiscount => if maxDiscount ≠ 0 ∧ amount > maxDiscount then maxDiscount else amount
    | none => amount
  | .fixed => d.discountValue

/-- The query `UserVoucher.findOne({ userId, voucherCode: discount.code, isUsed: false,
expiryDate: { $gte: now } })`: the position of the first matching record. -/
def findUserVoucher (s : State) (userId : Nat) (code : Option String) (now : Int) :
    Option Nat :=
  s.userVouchers.findIdx? (fun v =>
    v.userId == userId && some v.voucherCode == code && !v.isUsed &&
      decide (v.expiryDate ≥ now))

/-- The write `userVoucher.isUsed = true; userVoucher.save()`. -/
def markUsed (s : State) (i : Nat) : State :=
  match s.userVouchers[i]? with
  | some v => { s with userVouchers := s.userVouchers.set i { v with isUsed := true } }
  | none => s

/-- The value `totalSpending`: the sum of `transaction.amount || 0` over the completed
transactions of the user. -/
def totalSpending (s : State) (userId : Nat) : ℚ :=
  (s.transactions.filter (fun t => t.userId == userId && t.status == .completed)).foldl
    (fun sum transaction => sum + transaction.amount.getD 0) 0

/-- The voucher check of the loop: with a user, a voucher needs an unused, unexpired
personal voucher record for its code. -/
def voucherBlocked (db : State) (user : Option (Nat × User)) (now : Int) (d : Discount) :
    Bool :=
  match user with
  | some (userId, _) =>
    d.type == .voucher && (findUserVoucher db userId d.code now).isNone
  | none => false

/-- The member check of the loop: with a user, a member discount that names a tier
needs the tier derived from the user's points to be that tier. -/
def memberBlocked (user : Option (Nat × User)) (d : Discount) : Bool :=
  match user with
  | some (_, u) =>
    d.type == .member &&
      (match d.membershipLevel with
       | some level => level != applyMembershipLevel u.points
       | none => false)
  | none => false

/-- The accumulated check of the loop: with a user, an accumulated discount with a
truthy `minSpending` needs `totalSpending >= minSpending`. -/
def accumulatedBlocked (db : State) (user : Option (Nat × User)) (d : Discount) : Bool :=
  match user with
  | some (userId, _) =>
    d.type == .accumulated &&
      (match d.minSpending with
       | some minSpending => decide (minSpending ≠ 0) && decide (totalSpending db userId < minSpending)
       | none => false)
  | none => false

/-- The stacking check `!discount.isStackable && appliedDiscounts.length > 0`. -/
def stackBlocked (d : Discount) (appliedDiscounts : List AppliedDiscount) : Bool :=
  !d.isStackable && decide (appliedDiscounts.length > 0)

/-- The end of one iteration, once every check has passed: the amount is added and
recorded; for a voucher and a user the personal voucher is marked used and the usage
counter of the discount is incremented and saved. -/
def acceptDiscount (totalAmount : ℚ) (user : Option (Nat × User)) (now : Int)
    (acc : Resolution) (cand : Nat × Discount) : Except Error Resolution :=
  let discount := cand.2
  let amount := discountAmount totalAmount discount
  let total := acc.totalDiscount + amount
  let applied := acc.appliedDiscounts ++
    [{ id := cand.1, code := discount.code, type := discount.type, discount := amount }]
  match user with
  | some (userId, _) =>
    if discount.type = .voucher then
      let db1 :=
        match findUserVoucher acc.db userId discount.code now with
        | some i => markUsed acc.db i
        | none => acc.db
      match discountPreSave { discount with usedBy := bumpUsage userId discount.usedBy } with
      | .error e => .error e
      | .ok saved =>
        .ok { db := { db1 with discounts := db1.discounts.set cand.1 saved }
              totalDiscount := total
              appliedDiscounts := applied }
    else .ok { acc with totalDiscount := total, appliedDiscounts := applied }
  | none => .ok { acc with totalDiscount := total, appliedDiscounts := applied }

/-- One iteration of `for (const discount of discounts)` in `POST /api/discounts/apply`;
a `continue` returns the loop variables unchanged. -/
def applyStep (roomid : Nat) (totalAmount : ℚ) (user : Option (Nat × User)) (now : Int)
    (acc : Resolution) (cand : Nat × Discount) : Except Error Resolution :=
  if outsideWindow now cand.2 then .ok acc
  else if outOfScope roomid cand.2 then .ok acc
  else if totalAmount < cand.2.minBookingAmount then .ok acc
  else if voucherBlocked acc.db user now cand.2 then .ok acc
  else if memberBlocked user cand.2 then .ok acc
  else if accumulatedBlocked acc.db user cand.2 then .ok acc
  else if stackBlocked cand.2 acc.appliedDiscounts then .ok acc
  else acceptDiscount totalAmount user now acc cand

/-- The loop over the candidates, in the order of the list. -/
def applyLoop (roomid : Nat) (totalAmount : ℚ) (user : Option (Nat × User)) (now : Int) :
    List (Nat × Discount) → Resolution → Except Error Resolution
  | [], acc => .ok acc
  | cand :: rest, acc =>
    match applyStep roomid totalAmount user now acc cand with
    | .error e => .error e
    | .ok acc1 => applyLoop roomid totalAmount user now rest acc1

/-- The `code` stored in `booking.appliedVouchers`: `d.code || d.id`. -/
def voucherRef (d : AppliedDiscount) : VoucherRef :=
  match d.code with
  | some c => if c = "" then .id d.id else .code c
  | none => .id d.id

/-- The end of the `try` block of `POST /api/discounts/apply`: the totals are written
to the booking when there is one, and the net amount is `Math.max(0, totalAmount -
totalDiscount)`. -/
def finishApply (totalAmount : ℚ) (booking : Option (Nat × Booking)) (r : Resolution) :
    State × ApplyResponse :=
  let db :=
    match booking with
    | some (bookingId, b) =>
      { r.db with
        bookings := r.db.bookings.set bookingId
          { b with
            voucherDiscount := r.totalDiscount
            appliedVouchers := r.appliedDiscounts.map
              (fun d => { code := voucherRef d, discount := d.discount }) } }
    | none => r.db
  (db, { totalAmount := max 0 (totalAmount - r.totalDiscount)
         appliedDiscounts := r.appliedDiscounts })

/-- The user of the resolution: `bookingData.userId` is optional, and a given
identifier must exist. -/
def applyUser (s : State) (userId : Option Nat) : Except Error (Option (Nat × User)) :=
  match userId with
  | none => .ok none
  | some uid =>
    match s.users[uid]? with
    | none => .error .userNotFound
    | some u => .ok (some (uid, u))

/-- The booking of the resolution: `bookingData.bookingId` is optional, and a given
identifier must exist and be pending or confirmed. -/
def applyBooking (s : State) (bookingId : Option Nat) :
    Except Error (Option (Nat × Booking)) :=
  match bookingId with
  | none => .ok none
  | some bid =>
    match s.bookings[bid]? with
    | none => .error .bookingNotFound
    | some b =>
      if b.status ≠ .pending ∧ b.status ≠ .confirmed then .error .alreadyCanceled
      else .ok (some (bid, b))

/-- The body of `POST /api/discounts/apply`, asked at time `now`. -/
def applyDiscountsTx (s : State) (req : ApplyRequest) (now : Int) :
    Except Error (State × ApplyResponse) :=
  if req.checkin = .missing ∨ req.checkout = .missing then .error .missingFields
  else
    match s.rooms[req.roomid]? with
    | none => .error .roomNotFound
    | some room =>
      match req.checkin, req.checkout with
      | .date checkinDate, .date checkoutDate =>
        if checkinDate ≥ checkoutDate then .error .invalidDates
        else
          let totalAmount : ℚ := ((room.rentperday * days checkinDate checkoutDate : Int) : ℚ)
          let discounts := findCandidates s req.identifiers
          if discounts.isEmpty then .error .discountsNotFound
          else
            match applyUser s req.userId with
            | .error e => .error e
            | .ok user =>
              match applyBooking s req.bookingId with
              | .error e => .error e
              | .ok booking =>
                match applyLoop req.roomid totalAmount user now discounts
                    { db := s, totalDiscount := 0, appliedDiscounts := [] } with
                | .error e => .error e
                | .ok r => .ok (finishApply totalAmount booking r)
      | _, _ => .error .invalidDates

/-- The handler `POST /api/discounts/apply`. -/
def applyDiscounts (s : State) (req : ApplyRequest) (now : Int) :
    State × Except Error ApplyResponse :=
  withTransactionR s (applyDiscountsTx s req now)

/-! ## DiscountResolver: `POST /api/bookings/apply-promotions` -/

/-- The body of `POST /api/bookings/apply-promotions`: `bookingData` and
`voucherCodes`. -/
structure PromotionRequest where
  roomid : Nat
  bookingId : Nat
  checkin : DateInput
  checkout : DateInput
  voucherCodes : List String
deriving DecidableEq

/-- The answer of `apply-promotions`: the net amount and `appliedVouchers`. -/
structure PromotionResponse where
  totalAmount : ℚ
  appliedVouchers : List AppliedVoucher
deriving DecidableEq

/-- The loop variables of `apply-promotions`. -/
structure Promotion where
  db : State
  totalDiscount : ℚ
  appliedVouchers : List AppliedVoucher
deriving DecidableEq

/-- The candidates of `apply-promotions`: `Discount.find({ code: { $in: voucherCodes },
type: "voucher", isDeleted: false })`, in the order of the collection. -/
def findPromotions (s : State) (voucherCodes : List String) : List (Nat × Discount) :=
  s.discounts.enum.filter (fun p =>
    voucherCodes.any (fun c => p.2.code == some c) && p.2.type == .voucher && !p.2.isDeleted)

/-- The amount of a voucher in `apply-promotions`. -/
def promotionAmount (totalAmount : ℚ) (d : Discount) : ℚ :=
  match d.discountType with
  | .percentage =>
    let amount := (totalAmount * d.discountValue) / 100
    match d.maxDiscount with
    | some maxDiscount => if maxDiscount ≠ 0 ∧ amount > maxDiscount then maxDiscount else amount
    | none => amount
  | .fixed => d.discountValue

/-- The `code` recorded for a candidate of `apply-promotions`, `discount.code`; a
candidate always has one. -/
def promotionRef (cand : Nat × Discount) : VoucherRef :=
  match cand.2.code with
  | some c => .code c
  | none => .id cand.1

/-- The end of one iteration of `apply-promotions`, once every check has passed: the
amount is added and recorded, and the usage counter of the discount is incremented and
saved. -/
def acceptPromotion (totalAmount : ℚ) (userId : Nat) (acc : Promotion)
    (cand : Nat × Discount) : Except Error Promotion :=
  let discountAmount := promotionAmount totalAmount cand.2
  match discountPreSave { cand.2 with usedBy := bumpUsage userId cand.2.usedBy } with
  | .error e => .error e
  | .ok saved =>
    .ok { db := { acc.db with discounts := acc.db.discounts.set cand.1 saved }
          totalDiscount := acc.totalDiscount + discountAmount
          appliedVouchers := acc.appliedVouchers ++
            [{ code := promotionRef cand, discount := discountAmount }] }

/-- The stacking check `!discount.isStackable && appliedVouchers.length > 0`. -/
def promotionStackBlocked (d : Discount) (appliedVouchers : List AppliedVoucher) : Bool :=
  !d.isStackable && decide (appliedVouchers.length > 0)

/-- One iteration of the loop of `apply-promotions` for the user `userId`; a voucher
whose usage counter for the user is at least 1 is skipped. -/
def promotionStep (roomid : Nat) (totalAmount : ℚ) (userId : Nat) (now : Int)
    (acc : Promotion) (cand : Nat × Discount) : Except Error Promotion :=
  if outsideWindow now cand.2 then .ok acc
  else if outOfScope roomid cand.2 then .ok acc
  else if totalAmount < cand.2.minBookingAmount then .ok acc
  else if usageCount userId cand.2 ≥ 1 then .ok acc
  else if promotionStackBlocked cand.2 acc.appliedVouchers then .ok acc
  else acceptPromotion totalAmount userId acc cand

/-- The loop of `apply-promotions` over the candidates, in the order of the list. -/
def promotionLoop (roomid : Nat) (totalAmount : ℚ) (userId : Nat) (now : Int) :
    List (Nat × Discount) → Promotion → Except Error Promotion
  | [], acc => .ok acc
  | cand :: rest, acc =>
    match promotionStep roomid totalAmount userId now acc cand with
    | .error e => .error e
    | .ok acc1 => promotionLoop roomid totalAmount userId now rest acc1

/-- The body of `POST /api/bookings/apply-promotions`, asked at time `now`. -/
def applyPromotionsTx (s : State) (req : PromotionRequest) (now : Int) :
    Except Error (State × PromotionResponse) :=
  match s.bookings[req.bookingId]? with
  | none => .error .bookingNotFound
  | some booking =>
    if booking.status ≠ .pending ∧ booking.status ≠ .confirmed then .error .alreadyCanceled
    else
      match s.users.findIdx? (fun u => u.email == toLowerCase booking.email) with
      | none => .error .userNotFound
      | some userId =>
        match req.checkin, req.checkout with
        | .date checkinDate, .date checkoutDate =>
          if checkinDate ≥ checkoutDate then .error .invalidDates
          else
            match s.rooms[req.roomid]? with
            | none => .error .roomNotFound
            | some room =>
              let totalAmount : ℚ :=
                ((room.rentperday * days checkinDate checkoutDate : Int) : ℚ)
              let discounts := findPromotions s req.voucherCodes
              if discounts.isEmpty then .error .discountsNotFound
              else
                match promotionLoop req.roomid totalAmount userId now discounts
                    { db := s, totalDiscount := 0, appliedVouchers := [] } with
                | .error e => .error e
                | .ok r =>
                  .ok ({ r.db with
                         bookings := r.db.bookings.set req.bookingId
                           { booking with
                             voucherDiscount := r.totalDiscount
                             appliedVouchers := r.appliedVouchers } },
                       { totalAmount := max 0 (totalAmount - r.totalDiscount)
                         appliedVouchers := r.appliedVouchers })
        | _, _ => .error .invalidDates

/-- The handler `POST /api/bookings/apply-promotions`. -/
def applyPromotions (s : State) (req : PromotionRequest) (now : Int) :
    State × Except Error PromotionResponse :=
  withTransactionR s (applyPromotionsTx s req now)

/-! ## Gateway confirmations -/

/-- The accrual block of `POST /momo/verify-payment`: nothing is written when no user
has the booking's email or when the room is missing; there is no test for an earlier
transaction of the booking. -/
def accrueOnMomo (s : State) (id : Nat) (booking : Booking) : State :=
  match s.users.findIdx? (fun u => u.email == toLowerCase booking.email) with
  | none => s
  | some userId =>
    match s.users[userId]?, s.rooms[booking.roomid]? with
    | some user, some room =>
      let totalAmount : ℚ :=
        ((room.rentperday * days booking.checkin booking.checkout : Int) : ℚ) -
          booking.voucherDiscount
      let pointsEarned := Rat.floor (totalAmount / 100)
      { s with
        transactions := s.transactions ++
          [{ userId := userId, bookingId := some id, amount := some totalAmount,
             points := pointsEarned, type := .earn, status := .completed }]
        users := s.users.set userId { user with points := user.points + pointsEarned } }
    | _, _ => s

/-- The answers of `POST /momo/verify-payment`. -/
inductive MomoResponse where
  | notFound
  | orderMismatch
  | success
  | notPaid
deriving DecidableEq

/-- The handler `POST /api/bookings/momo/verify-payment`; `momoSuccess` is the answer of
the MoMo service, `momoVerifyResponse.data.status === "success"`. -/
def momoVerifyPayment (s : State) (bookingId : Nat) (momoOrderId : String)
    (momoSuccess : Bool) : State × MomoResponse :=
  match s.bookings[bookingId]? with
  | none => (s, .notFound)
  | some booking =>
    if booking.momoOrderId ≠ some momoOrderId then (s, .orderMismatch)
    else if momoSuccess then
      let booking1 : Booking := { booking with paymentStatus := .paid, status := .confirmed }
      (accrueOnMomo { s with bookings := s.bookings.set bookingId booking1 } bookingId booking1,
        .success)
    else (s, .notPaid)

/-- The answers of `GET /vnpay_return`. -/
inductive VnpayResponse where
  | notFound
  | invalidSignature
  | success
  | failed
deriving DecidableEq

/-- The handler `GET /api/vnpay/vnpay_return` for the order `orderId` (`vnp_TxnRef`);
`signatureValid` is `secureHash === signed` and `responseCode` is `vnp_ResponseCode`. -/
def vnpayReturn (s : State) (orderId : String) (signatureValid : Bool)
    (responseCode : String) : State × VnpayResponse :=
  match s.bookings.findIdx? (fun b => b.vnpOrderId == some orderId) with
  | none => (s, .notFound)
  | some id =>
    match s.bookings[id]? with
    | none => (s, .notFound)
    | some booking =>
      if signatureValid then
        if responseCode = "00" then
          ({ s with
             bookings := s.bookings.set id
               { booking with paymentStatus := .paid, status := .confirmed } }, .success)
        else
          ({ s with bookings := s.bookings.set id { booking with paymentStatus := .canceled } },
            .failed)
      else (s, .invalidSignature)

/-! ## Checkout accrual: `POST /checkout` -/

/-- The `try` block of `POST /api/bookings/checkout`, requested by the user `requester`;
`privileged` tells that the requester's role is `admin` or `staff`. The booking is read
with its room populated, so a missing room makes the property access throw. -/
def checkoutTx (s : State) (bookingId requester : Nat) (privileged : Bool) :
    Except Error State :=
  if s.transactions.any (fun t => t.bookingId == some bookingId) then
    .error .transactionExists
  else
    match s.bookings[bookingId]? with
    | none => .error .bookingNotFound
    | some booking =>
      if booking.status ≠ .confirmed ∨ booking.paymentStatus ≠ .paid then
        .error .notConfirmedOrPaid
      else
        match s.users.findIdx? (fun u => u.email == toLowerCase booking.email) with
        | none => .error .userNotFound
        | some userId =>
          if requester ≠ userId ∧ privileged = false then .error .forbidden
          else
            match s.users[userId]?, s.rooms[booking.roomid]? with
            | some user, some room =>
              let totalAmount : ℚ :=
                ((room.rentperday * days booking.checkin booking.checkout : Int) : ℚ) -
                  booking.voucherDiscount
              let pointsEarned := Rat.floor (totalAmount / 100)
              .ok { s with
                    transactions := s.transactions ++
                      [{ userId := userId, bookingId := some bookingId,
                         amount := some totalAmount, points := pointsEarned, type := .earn,
                         status := .completed }]
                    users := s.users.set userId
                      { user with points := user.points + pointsEarned } }
            | _, _ => .error .roomNotFound

/-- The handler `POST /api/bookings/checkout`. -/
def checkout (s : State) (bookingId requester : Nat) (privileged : Bool) :
    State × Except Error Unit :=
  withTransaction s (checkoutTx s bookingId requester privileged)

/-! ## Redeem: `POST /api/rewards/redeem` -/

/-- The `try` block of `POST /api/rewards/redeem` for the authenticated user `userId`.
The new ledger entry has no booking and no amount and takes the schema default
`pending` as its status; the list `user.vouchers` is left out. -/
def redeemTx (s : State) (userId rewardId : Nat) : Except Error State :=
  match s.rewards[rewardId]? with
  | none => .error .rewardNotFound
  | some reward =>
    match s.users[userId]? with
    | none => .error .userNotFound
    | some user =>
      if redeemLevel user.points ≠ reward.membershipLevel then .error .tierMismatch
      else if user.points < reward.pointsRequired then .error .insufficientPoints
      else if s.userVouchers.any
          (fun v => v.userId == userId && v.voucherCode == reward.voucherCode) then
        .error .alreadyRedeemed
      else
        match s.discounts.find?
            (fun d => d.code == some reward.voucherCode && d.type == .voucher) with
        | none => .error .voucherNotFound
        | some discount =>
          .ok { s with
                users := s.users.set userId
                  { user with points := user.points - reward.pointsRequired }
                transactions := s.transactions ++
                  [{ userId := userId, bookingId := none, amount := none,
                     points := -reward.pointsRequired, type := .reward_redemption,
                     status := .pending }]
                userVouchers := s.userVouchers ++
                  [{ userId := userId, voucherCode := reward.voucherCode, isUsed := false,
                     expiryDate := discount.endDate }] }

/-- The handler `POST /api/rewards/redeem`. -/
def redeem (s : State) (userId rewardId : Nat) : State × Except Error Unit :=
  withTransaction s (redeemTx s userId rewardId)

/-! ## Operations and reachable states -/

/-- One call of a lifecycle operation. -/
inductive Op where
  | create (req : BookingRequest) (now : Int)
  | bookroom (req : BookingRequest) (now : Int)
  | cancel (id : PathId) (cancelReason : String)
  | assign (id : PathId) (newRoomId : Nat)
  | extend (id : PathId) (newCheckout : DateInput)
  | confirm (id : Nat)
  | deadline (id : PathId) (currentTime : Int)

/-- The path parameter of the operation, when it has one, is written in canonical
form. -/
def Op.canonical : Op → Prop
  | .cancel id _ => id.canonical = true
  | .assign id _ => id.canonical = true
  | .extend id _ => id.canonical = true
  | .deadline id _ => id.canonical = true
  | _ => True

instance (op : Op) : Decidable op.canonical := by
  cases op <;> unfold Op.canonical <;> infer_instance

/-- The state after one operation, accepted or rejected. -/
def step (s : State) : Op → State
  | .create req now => (createBooking s req now).1
  | .bookroom req now => (bookRoom s req now).1
  | .cancel id cancelReason => (cancelBooking s id cancelReason).1
  | .assign id newRoomId => (assignRoom s id newRoomId).1
  | .extend id newCheckout => (extendStay s id newCheckout).1
  | .confirm id => (confirmBooking s id).1
  | .deadline id currentTime => (paymentDeadline s id currentTime).1

/-- The state after a sequence of operations, executed one after the other. -/
def run (s : State) (ops : List Op) : State :=
  ops.foldl step s

/-! ## Specification predicates -/

/-- Every stored interval is well-formed: `checkin < checkout`. -/
def wellFormedIntervals (l : List CurrentBooking) : Prop :=
  ∀ e ∈ l, e.checkin < e.checkout

/-- No two stored intervals overlap in the half-open sense. -/
def nonOverlapping (l : List CurrentBooking) : Prop :=
  l.Pairwise (fun a b => ¬ overlaps a.checkin a.checkout b.checkin b.checkout)

instance (l : List CurrentBooking) : Decidable (wellFormedIntervals l) := by
  unfold wellFormedIntervals; infer_instance

instance (l : List CurrentBooking) : Decidable (nonOverlapping l) := by
  unfold nonOverlapping; infer_instance

/-- The room invariant of the specification (§3): an available room has pairwise
non-overlapping reserved intervals. -/
def roomsNonOverlapping (s : State) : Prop :=
  ∀ r ∈ s.rooms, r.availabilityStatus = .available → nonOverlapping r.currentbookings

instance (s : State) : Decidable (roomsNonOverlapping s) := by
  unfold roomsNonOverlapping; infer_instance

/-- The intervals of booking `id` in a reserved list. -/
def entriesOf (id : Nat) (l : List CurrentBooking) : List CurrentBooking :=
  l.filter (fun e => e.bookingId = some id)

/-- Booking/room consistency: a booking that is not canceled has exactly one interval
in the room it references, with its identifier and its current dates, and a canceled
booking has no interval in any room. -/
def consistent (s : State) : Prop :=
  (∀ id b, s.bookings[id]? = some b → b.status ≠ .canceled →
    ∃ r, s.rooms[b.roomid]? = some r ∧
      entriesOf id r.currentbookings = [⟨some id, b.checkin, b.checkout⟩]) ∧
  (∀ id b, s.bookings[id]? = some b → b.status = .canceled →
    ∀ r ∈ s.rooms, entriesOf id r.currentbookings = [])

/-- The empty state: no booking yet, and no room holds an interval. -/
def emptyState (s : State) : Prop :=
  s.bookings = [] ∧ ∀ r ∈ s.rooms, r.currentbookings = []

instance (s : State) : Decidable (emptyState s) := by
  unfold emptyState; infer_instance

/-- Every stored interval belongs to a booking of that room which is not canceled,
and carries the booking's dates. -/
def intervalsOwned (s : State) : Prop :=
  ∀ (rid : Nat) (r : Room) (e : CurrentBooking), s.rooms[rid]? = some r →
    e ∈ r.currentbookings →
    ∃ id b, e.bookingId = some id ∧ s.bookings[id]? = some b ∧ b.roomid = rid ∧
      b.status ≠ .canceled ∧ e.checkin = b.checkin ∧ e.checkout = b.checkout

/-- Every booking that is not canceled has exactly one interval in its room. -/
def bookingsRecorded (s : State) : Prop :=
  ∀ id b, s.bookings[id]? = some b → b.status ≠ .canceled →
    ∃ r, s.rooms[b.roomid]? = some r ∧ (entriesOf id r.currentbookings).length = 1

/-- Every booking has `checkin < checkout`. -/
def bookingsWellFormed (s : State) : Prop :=
  ∀ b ∈ s.bookings, b.checkin < b.checkout

/-- The input struct that the routing layer hands to CreateBooking (§6 of the
specification): the guest fields are present, the email is well-formed, the payment
method is an accepted one and the party is `a >= 1` adults and `c >= 0` children. -/
def sanitized (req : BookingRequest) (a c : Int) : Prop :=
  req.name ≠ "" ∧ req.phone ≠ "" ∧ req.roomType ≠ "" ∧
  emailMatches (toLowerCase req.email) = true ∧ req.paymentMethod ∈ paymentMethods ∧
  req.adults = .num a ∧ 1 ≤ a ∧ req.children = .num c ∧ 0 ≤ c

/-- The amount rule for an accepted discount on a booking of `bookingAmount`: a
percentage of value `v` with a stored cap `c` other than 0 gives
`min (bookingAmount * v / 100) c`, a percentage with no stored cap or with the cap 0
gives `bookingAmount * v / 100`, and a fixed discount gives its value. -/
def amountRule (bookingAmount : ℚ) (d : Discount) (amount : ℚ) : Prop :=
  (d.discountType = .percentage → ∀ c, d.maxDiscount = some c → c ≠ 0 →
    amount = min (bookingAmount * d.discountValue / 100) c) ∧
  (d.discountType = .percentage → d.maxDiscount = none ∨ d.maxDiscount = some 0 →
    amount = bookingAmount * d.discountValue / 100) ∧
  (d.discountType = .fixed → amount = d.discountValue)

/-- Every check of an iteration of `POST /api/discounts/apply` other than the stacking
check lets the discount `d` pass. -/
def otherChecksPass (roomid : Nat) (totalAmount : ℚ) (user : Option (Nat × User))
    (now : Int) (db : State) (d : Discount) : Prop :=
  outsideWindow now d = false ∧ outOfScope roomid d = false ∧
  d.minBookingAmount ≤ totalAmount ∧ voucherBlocked db user now d = false ∧
  memberBlocked user d = false ∧ accumulatedBlocked db user d = false

instance (roomid : Nat) (totalAmount : ℚ) (user : Option (Nat × User)) (now : Int)
    (db : State) (d : Discount) :
    Decidable (otherChecksPass roomid totalAmount user now db d) := by
  unfold otherChecksPass; infer_instance

/-- Every check of an iteration of `apply-promotions` other than the stacking check
lets the voucher `d` pass. -/
def otherPromotionChecksPass (roomid : Nat) (totalAmount : ℚ) (userId : Nat) (now : Int)
    (d : Discount) : Prop :=
  outsideWindow now d = false ∧ outOfScope roomid d = false ∧
  d.minBookingAmount ≤ totalAmount ∧ usageCount userId d < 1

instance (roomid : Nat) (totalAmount : ℚ) (userId : Nat) (now : Int) (d : Discount) :
    Decidable (otherPromotionChecksPass roomid totalAmount userId now d) := by
  unfold otherPromotionChecksPass; infer_instance

/-- The amount of an accrual as the specification words it: the nightly rate times the
number of nights, the ceiling of the stay in whole days, minus the voucher discount. -/
def accrualAmount (room : Room) (b : Booking) : ℚ :=
  (room.rentperday : ℚ) * (Int.ceil (((b.checkout - b.checkin : Int) : ℚ) / 86400000) : ℚ) -
    b.voucherDiscount

/-- The earn entry of the specification for booking `id` of user `userId`: the accrual
amount and the floor of a hundredth of it as points. -/
def earnEntry (userId id : Nat) (room : Room) (b : Booking) : Transaction :=
  { userId := userId, bookingId := some id, amount := some (accrualAmount room b),
    points := Int.floor (accrualAmount room b / 100), type := .earn, status := .completed }

/-! ## Example data -/

/-- An available double room with no reservation. -/
def exampleRoom : Room :=
  { maxcount := 2, rentperday := 1000000, currentbookings := [],
    availabilityStatus := .available, type := "deluxe" }

/-- A database with `exampleRoom` as room 0, a second room of the same type as room 1,
one registered user and no booking. -/
def exampleState : State :=
  { rooms := [exampleRoom, exampleRoom]
    bookings := []
    users := [{ email := "an@example.com", points := 0 }]
    transactions := []
    discounts := []
    userVouchers := []
    rewards := [] }

/-- A request for room 0, one adult, for the stay from timestamp 1 to timestamp 3. -/
def requestA : BookingRequest :=
  { roomid := 0, name := "An", email := "an@example.com", phone := "0123456789",
    checkin := .date 1, checkout := .date 3, adults := .num 1, children := .num 0,
    roomType := "deluxe", paymentMethod := "cash", orderId := none }

/-- The same guest asks for the stay that starts when the first one ends. -/
def requestB : BookingRequest :=
  { requestA with checkin := .date 3, checkout := .date 5 }

/-- The request of `requestB`, paid by bank transfer. -/
def requestBank : BookingRequest :=
  { requestB with paymentMethod := "bank_transfer" }

/-- Room 0 once the stay of `requestA` is reserved. -/
def roomWithA : Room :=
  { exampleRoom with currentbookings := [⟨some 0, 1, 3⟩] }

/-- Room 0 of `backToBackState`. -/
def roomWithAB : Room :=
  { exampleRoom with currentbookings := [⟨some 0, 1, 3⟩, ⟨some 1, 3, 5⟩] }

/-- Five adults and no `children` field, for a room whose `maxcount` is 2. -/
def requestFiveAdults : BookingRequest :=
  { requestA with adults := .num 5, children := .undefined }

/-- The booking document that `requestA` creates. -/
def bookingA : Booking :=
  { roomid := 0, name := "An", email := "an@example.com", phone := "0123456789",
    checkin := 1, checkout := 3, adults := 1, children := 0, roomType := "deluxe",
    status := .pending, paymentMethod := "cash", paymentStatus := .pending,
    paymentDeadline := none, cancelReason := none, voucherDiscount := 0,
    appliedVouchers := [], momoOrderId := none, vnpOrderId := none }

/-- Two nights in room 0: from timestamp 0 to two days later. -/
def requestTwoNights : BookingRequest :=
  { requestA with checkin := .date 0, checkout := .date 172800000 }

/-- The voucher `SALE10`: 10 percent, capped at 150000, not stackable, valid from
timestamp 0 to 1000. -/
def voucherSale10 : Discount :=
  { code := some "SALE10", type := .voucher, discountType := .percentage,
    discountValue := 10, applicableHotels := [], startDate := 0, endDate := 1000,
    minBookingAmount := 0, maxDiscount := some 150000, isStackable := false,
    membershipLevel := none, minSpending := none, usedBy := [], isDeleted := false }

/-- A festival discount of the fixed amount `value`. -/
def festival (value : ℚ) (isStackable : Bool) : Discount :=
  { code := none, type := .festival, discountType := .fixed, discountValue := value,
    applicableHotels := [], startDate := 0, endDate := 1000, minBookingAmount := 0,
    maxDiscount := none, isStackable := isStackable, membershipLevel := none,
    minSpending := none, usedBy := [], isDeleted := false }

/-- A member discount of 5 percent for the tier `level`. -/
def memberDiscount (level : MembershipLevel) : Discount :=
  { code := none, type := .member, discountType := .percentage, discountValue := 5,
    applicableHotels := [], startDate := 0, endDate := 1000, minBookingAmount := 0,
    maxDiscount := none, isStackable := true, membershipLevel := some level,
    minSpending := none, usedBy := [], isDeleted := false }

/-- A voucher of the fixed amount `value` with the code `code`. -/
def voucher (code : String) (value : ℚ) (isStackable : Bool) : Discount :=
  { festival value isStackable with code := some code, type := .voucher }

/-- A festival discount of 10 percent with a stored cap of 0. -/
def festivalCapZero : Discount :=
  { festival 0 true with
    discountType := .percentage, discountValue := 10, maxDiscount := some 0 }

/-- A database with the discounts 0 `SALE10`, 1 to 3 the festival discounts A (100000,
not stackable), B (50000, not stackable) and C (20000, stackable), 4 and 5 the member
discounts for Silver and Gold, 6 the festival discount with cap 0, 7 to 9 the vouchers
`A`, `B` and `C` with the amounts and stacking flags of the festival discounts; user 0
has 100000 points and holds an unused personal voucher for `SALE10`; booking 0 is the
stay of two nights of user 0 in room 0. -/
def discountState : State :=
  run
    { exampleState with
      users := [{ email := "an@example.com", points := 100000 }]
      discounts :=
        [voucherSale10, festival 100000 false, festival 50000 false, festival 20000 true,
         memberDiscount .Silver, memberDiscount .Gold, festivalCapZero,
         voucher "A" 100000 false, voucher "B" 50000 false, voucher "C" 20000 true]
      userVouchers :=
        [{ userId := 0, voucherCode := "SALE10", isUsed := false, expiryDate := 1000 }] }
    [.create requestTwoNights 0]

/-- The request to `POST /api/discounts/apply` of user 0 for booking 0 with the given
identifiers. -/
def applyRequest (identifiers : List Identifier) : ApplyRequest :=
  { roomid := 0, checkin := .date 0, checkout := .date 172800000,
    identifiers := identifiers, userId := some 0, bookingId := some 0 }

/-- The request to `POST /api/bookings/apply-promotions` for booking 0 with the code
`SALE10`. -/
def promotionRequest : PromotionRequest :=
  { roomid := 0, bookingId := 0, checkin := .date 0, checkout := .date 172800000,
    voucherCodes := ["SALE10"] }

/-- The booking `bookingA` once it is canceled with the reason "change". -/
def canceledA : Booking :=
  { bookingA with
    status := .canceled, paymentStatus := .canceled, cancelReason := some "change" }

/-- The database after the two back-to-back stays were booked. -/
def backToBackState : State :=
  run exampleState [.create requestA 0, .create requestB 0]

/-- A request to `POST /bookroom` paid through VNPay with the order `ORD1`. -/
def requestVnpay : BookingRequest :=
  { requestA with paymentMethod := "vnpay", orderId := some "ORD1" }

/-- A request to `POST /bookroom` paid through MoMo with the order `M1`. -/
def requestMomo : BookingRequest :=
  { requestA with paymentMethod := "mobile_payment", orderId := some "M1" }

/-- The booking stored by `requestBank` at time 1000: its deadline is five minutes
later. -/
def bookingBank : Booking :=
  { bookingA with
    checkin := 3, checkout := 5, paymentMethod := "bank_transfer",
    paymentDeadline := some 301000 }

/-- Room 0 of `discountState`: the example room with the stay of two nights reserved. -/
def roomTwoNights : Room :=
  { exampleRoom with currentbookings := [⟨some 0, 0, 172800000⟩] }

/-- The answer of `POST /api/discounts/apply` to the code `SALE10` in `discountState`. -/
def responseSale10 : ApplyResponse :=
  { totalAmount := 1850000,
    appliedDiscounts := [{ id := 0, code := some "SALE10", type := .voucher, discount := 150000 }] }

/-- The answer of `apply-promotions` to the code `SALE10` in `discountState`. -/
def promotionSale10 : PromotionResponse :=
  { totalAmount := 1850000,
    appliedVouchers := [{ code := .code "SALE10", discount := 150000 }] }

/-- User 0 of `discountState`. -/
def userAn : User :=
  { email := "an@example.com", points := 100000 }

/-- The loop variables of `POST /api/discounts/apply` in `discountState` once the
festival discount A is accepted. -/
def afterA : Resolution :=
  { db := discountState, totalDiscount := 100000,
    appliedDiscounts := [{ id := 1, code := none, type := .festival, discount := 100000 }] }

/-- The loop variables of `apply-promotions` in `discountState` once the voucher `A` is
recorded. -/
def promotionAfterA : Promotion :=
  { db := discountState, totalDiscount := 100000,
    appliedVouchers := [{ code := .code "A", discount := 100000 }] }

/-- The database `discountState` without any personal voucher record. -/
def noVoucherState : State :=
  { discountState with userVouchers := [] }

/-- The booking stored by `requestTwoNights`. -/
def bookingTwoNights : Booking :=
  { bookingA with checkin := 0, checkout := 172800000 }

/-- The database `exampleState` with the stay of two nights booked as booking 0. -/
def twoNightsState : State :=
  run exampleState [.create requestTwoNights 0]

/-- The database `twoNightsState` with one stackable festival discount of the fixed
amount 3000000, more than the 2000000 of booking 0. -/
def overDiscountState : State :=
  { twoNightsState with discounts := [festival 3000000 true] }

/-- The database `discountState` with one reward: 50000 points buy the voucher `A` at
the tier Silver. -/
def rewardState : State :=
  { discountState with
    rewards := [{ membershipLevel := .Silver, pointsRequired := 50000, voucherCode := "A" }] }

/-! ## Theorems -/

/-! ### Transactions and inversion of the creation handlers -/

theorem withTransaction_ok (s s' : State) : withTransaction s (.ok s') = (s', .ok ()) := rfl

theorem persistBooking_ok_inv {s s' : State} {req : BookingRequest} {ci co : Int} {doc : Option Booking}
    (h : persistBooking s req ci co doc = .ok s') :
    ∃ b, doc = some b ∧ validateBooking b = true ∧
      s' = { s with bookings := s.bookings ++ [b]
                    rooms := pushCurrentBooking s.rooms req.roomid ⟨some s.bookings.length, ci, co⟩ } := by
  unfold persistBooking at h
  split at h
  · exact absurd h (by simp)
  · rename_i b
    split at h
    · exact absurd h (by simp)
    · rename_i hv
      refine ⟨b, rfl, by simpa using hv, ?_⟩
      dsimp only at h
      split at h
      · split at h
        · exact absurd h (by simp)
        · simpa using h.symm
      · simpa using h.symm

theorem createBookingTx_ok_inv {s s' : State} {req : BookingRequest} {now : Int}
    (h : createBookingTx s req now = .ok s') :
    ∃ ci co room, req.checkin = .date ci ∧ req.checkout = .date co ∧ ci < co ∧
      s.rooms[req.roomid]? = some room ∧ room.availabilityStatus = .available ∧
      jsLt room.maxcount (jsAdd (Number req.adults) (Number req.children)) = false ∧
      isRoomBooked room ci co = false ∧
      persistBooking s req ci co (newBooking req ci co (Number req.adults)
                (some ((Number req.children).getD 0)) now none none) = .ok s' := by
  unfold createBookingTx at h
  split at h
  · exact absurd h (by simp)
  · split at h
    · exact absurd h (by simp)
    · split at h
      · rename_i ci co hci hco
        split at h
        · exact absurd h (by simp)
        · rename_i hlt
          split at h
          · exact absurd h (by simp)
          · rename_i room hroom
            split at h
            · exact absurd h (by simp)
            · rename_i hav
              split at h
              · exact absurd h (by simp)
              · rename_i hcap
                split at h
                · exact absurd h (by simp)
                · rename_i hbk
                  exact ⟨ci, co, room, hci, hco, by omega, hroom, by simpa using hav, by simpa using hcap, by simpa using hbk, h⟩
      · exact absurd h (by simp)

theorem bookRoomTx_ok_inv {s s' : State} {req : BookingRequest} {now : Int}
    (h : bookRoomTx s req now = .ok s') :
    ∃ ci co room, req.checkin = .date ci ∧ req.checkout = .date co ∧ ci < co ∧
      s.rooms[req.roomid]? = some room ∧ room.availabilityStatus = .available ∧
      jsLt room.maxcount (jsAdd (Number req.adults) (Number req.children)) = false ∧
      isRoomBooked room ci co = false ∧
      persistBooking s req ci co (newBooking req ci co (Number req.adults)
        (Number req.children) now
        (if req.paymentMethod = "mobile_payment" then req.orderId else none)
        (if req.paymentMethod = "vnpay" then req.orderId else none)) = .ok s' := by
  unfold bookRoomTx at h
  split at h
  · exact absurd h (by simp)
  · split at h
    · exact absurd h (by simp)
    · split at h
      · rename_i ci co hci hco
        split at h
        · exact absurd h (by simp)
        · rename_i hlt
          split at h
          · exact absurd h (by simp)
          · rename_i room hroom
            split at h
            · exact absurd h (by simp)
            · rename_i hav
              split at h
              · exact absurd h (by simp)
              · rename_i hcap
                split at h
                · exact absurd h (by simp)
                · rename_i hbk
                  exact ⟨ci, co, room, hci, hco, by omega, hroom, by simpa using hav,
                    by simpa using hcap, by simpa using hbk, h⟩
      · exact absurd h (by simp)

theorem withTransaction_rejected {s : State} {body : Except Error State}
    (h : ∀ s', body ≠ .ok s') :
    (withTransaction s body).1 = s ∧ ∃ e, (withTransaction s body).2 = .error e := by
  cases body with
  | ok a => exact absurd rfl (h a)
  | error e => exact ⟨rfl, e, rfl⟩

theorem withTransaction_snd_ok {s : State} {body : Except Error State} :
    (withTransaction s body).2 = .ok () ↔ ∃ s', body = .ok s' := by
  cases body with
  | ok a => simp [withTransaction]
  | error e => simp [withTransaction]

/-- The three-clause test reports every half-open overlap, whatever the stored
interval. -/
theorem overlapTest_of_overlaps {ci co eci eco : Int} (h : overlaps ci co eci eco) :
    overlapTest ci co eci eco = true := by
  obtain ⟨h1, h2⟩ := h
  simp only [overlapTest, Bool.or_eq_true, Bool.and_eq_true, decide_eq_true_eq]
  omega

/-- For well-formed intervals the three-clause test reports only half-open overlaps. -/
theorem overlaps_of_overlapTest {ci co eci eco : Int} (hc : ci < co) (he : eci < eco)
    (h : overlapTest ci co eci eco = true) : overlaps ci co eci eco := by
  simp only [overlapTest, Bool.or_eq_true, Bool.and_eq_true, decide_eq_true_eq] at h
  constructor <;> omega

theorem isRoomBooked_eq_false_iff {room : Room} {ci co : Int} (hc : ci < co)
    (hwf : wellFormedIntervals room.currentbookings) :
    isRoomBooked room ci co = false ↔
      ∀ e ∈ room.currentbookings, ¬ overlaps ci co e.checkin e.checkout := by
  unfold isRoomBooked
  rw [List.any_eq_false]
  constructor
  · intro h e he hov
    exact h e he (overlapTest_of_overlaps hov)
  · intro h e he ht
    exact h e he (overlaps_of_overlapTest hc (hwf e he) ht)

theorem isRoomBooked_of_overlaps {room : Room} {ci co : Int} {e : CurrentBooking}
    (he : e ∈ room.currentbookings) (hov : overlaps ci co e.checkin e.checkout) :
    isRoomBooked room ci co = true := by
  unfold isRoomBooked
  rw [List.any_eq_true]
  exact ⟨e, he, overlapTest_of_overlaps hov⟩

/-- The capacity check of `POST /bookroom` bounds the stored party size: an accepted
request stores `adults + children` no larger than the room's `maxcount`. -/
theorem bookRoom_respects_capacity (s : State) (req : BookingRequest) (now : Int)
    (h : (bookRoom s req now).2 = .ok ()) :
    ∃ room b, s.rooms[req.roomid]? = some room ∧
      (bookRoom s req now).1.bookings = s.bookings ++ [b] ∧
      b.adults + b.children ≤ room.maxcount := by
  unfold bookRoom at h ⊢
  obtain ⟨s', hok⟩ := withTransaction_snd_ok.mp h
  obtain ⟨ci, co, room, -, -, -, hroom, -, hcap, -, hp⟩ := bookRoomTx_ok_inv hok
  obtain ⟨b, hdoc, -, hs'⟩ := persistBooking_ok_inv hp
  refine ⟨room, b, hroom, ?_, ?_⟩
  · rw [hok, withTransaction_ok, hs']
  · unfold newBooking at hdoc
    split at hdoc
    · rename_i a c ha hc
      rw [ha, hc] at hcap
      simp only [jsAdd, jsLt, decide_eq_false_iff_not] at hcap
      cases hdoc
      simpa using hcap
    · exact absurd hdoc (by simp)

theorem emailMatches_ne_empty {e : String} (h : emailMatches e = true) : e ≠ "" := by
  intro he
  rw [he] at h
  exact absurd h (by decide)

theorem toLowerCase_ne_empty {e : String} (h : toLowerCase e ≠ "") : e ≠ "" := by
  intro he
  rw [he] at h
  exact h (by decide)

theorem processBankPayment_ok {s : State} {b : Booking} {room : Room}
    (hroom : s.rooms[b.roomid]? = some room) (hav : room.availabilityStatus = .available) :
    ∃ amount, processBankPayment s b = .ok amount := by
  unfold processBankPayment
  rw [hroom]
  simp [hav]

theorem persistBooking_ok {s : State} {req : BookingRequest} {ci co : Int} {b : Booking}
    {room : Room} (hv : validateBooking b = true) (hb : b.roomid = req.roomid)
    (hroom : s.rooms[req.roomid]? = some room) (hav : room.availabilityStatus = .available) :
    persistBooking s req ci co (some b) =
      .ok { s with bookings := s.bookings ++ [b]
                   rooms := pushCurrentBooking s.rooms req.roomid
                     ⟨some s.bookings.length, ci, co⟩ } := by
  unfold persistBooking
  simp only [hv, Bool.true_eq_false, if_false]
  split
  · have hroom' : ({ s with bookings := s.bookings ++ [b] } : State).rooms[b.roomid]? =
        some room := by rw [hb]; exact hroom
    obtain ⟨amount, hp⟩ := processBankPayment_ok (b := b) hroom' hav
    rw [hp]
  · rfl

theorem newBooking_valid {req : BookingRequest} {a c : Int} (hreq : sanitized req a c)
    (ci co now : Int) (m v : Option String) :
    ∃ b, newBooking req ci co (some a) (some c) now m v = some b ∧
      validateBooking b = true ∧ b.roomid = req.roomid ∧ b.status = .pending ∧
      b.paymentStatus = .pending ∧
      b.paymentDeadline =
        (if req.paymentMethod = "bank_transfer" then some (now + 5 * 60 * 1000) else none) ∧
      b.checkin = ci ∧ b.checkout = co ∧ b.adults = a ∧ b.children = c := by
  obtain ⟨hn, hp, ht, he, hm, -, ha, -, hc⟩ := hreq
  refine ⟨_, rfl, ?_, rfl, rfl, rfl, rfl, rfl, rfl, rfl, rfl⟩
  have he' := emailMatches_ne_empty he
  simp only [validateBooking, Bool.and_eq_true, bne_iff_ne, ne_eq, decide_eq_true_eq,
    List.contains_eq_any_beq, List.any_eq_true, beq_iff_eq]
  exact ⟨⟨⟨⟨⟨⟨⟨hn, he'⟩, hp⟩, ht⟩, he⟩, ha⟩, hc⟩, _, hm, rfl⟩

theorem paymentMethods_contains {m : String} (hm : m ∈ paymentMethods) :
    paymentMethods.contains m = true := by
  simp only [List.contains_eq_any_beq, List.any_eq_true, beq_iff_eq]
  exact ⟨_, hm, rfl⟩

theorem paymentMethods_ne_empty {m : String} (hm : m ∈ paymentMethods) : m ≠ "" := by
  intro h
  rw [h] at hm
  exact absurd hm (by decide)

theorem createBookingTx_ok (s : State) {req : BookingRequest} (now : Int) {ci co a c : Int}
    {room : Room} (hreq : sanitized req a c) (hci : req.checkin = .date ci)
    (hco : req.checkout = .date co) (hlt : ci < co)
    (hroom : s.rooms[req.roomid]? = some room) (hav : room.availabilityStatus = .available)
    (hcap : a + c ≤ room.maxcount) (hbk : isRoomBooked room ci co = false) :
    ∃ b, newBooking req ci co (some a) (some c) now none none = some b ∧
      createBookingTx s req now =
        .ok { s with bookings := s.bookings ++ [b]
                     rooms := pushCurrentBooking s.rooms req.roomid
                       ⟨some s.bookings.length, ci, co⟩ } := by
  obtain ⟨b, hb, hv, hrid, -⟩ := newBooking_valid hreq ci co now none none
  refine ⟨b, hb, ?_⟩
  have hreq' := hreq
  obtain ⟨hn, hp, ht, he, hm, hadults, ha, hchildren, hc⟩ := hreq'
  have hemail := toLowerCase_ne_empty (emailMatches_ne_empty he)
  have hmne := paymentMethods_ne_empty hm
  have hmc := paymentMethods_contains hm
  have htr : truthy req.adults = true := by
    rw [hadults]; simp only [truthy, decide_eq_true_eq]; omega
  have hcap' : jsLt room.maxcount (jsAdd (Number req.adults) (Number req.children)) = false := by
    rw [hadults, hchildren]
    simp only [Number, jsAdd, jsLt, decide_eq_false_iff_not]
    omega
  unfold createBookingTx
  rw [if_neg (by simp [hn, hp, ht, hemail, hmne, htr, hci, hco])]
  rw [if_neg (by rw [hmc]; simp)]
  simp only [hci, hco]
  rw [if_neg (by omega)]
  simp only [hroom]
  rw [if_neg (by simp [hav]), if_neg (by simp [hcap']), if_neg (by simp [hbk])]
  have hdoc : newBooking req ci co (Number req.adults) (some ((Number req.children).getD 0))
      now none none = some b := by
    rw [hadults, hchildren]; exact hb
  rw [hdoc]
  exact persistBooking_ok hv hrid hroom hav

theorem bookRoomTx_ok (s : State) {req : BookingRequest} (now : Int) {ci co a c : Int}
    {room : Room} (hreq : sanitized req a c) (hci : req.checkin = .date ci)
    (hco : req.checkout = .date co) (hlt : ci < co)
    (hroom : s.rooms[req.roomid]? = some room) (hav : room.availabilityStatus = .available)
    (hcap : a + c ≤ room.maxcount) (hbk : isRoomBooked room ci co = false) :
    ∃ b, newBooking req ci co (some a) (some c) now
        (if req.paymentMethod = "mobile_payment" then req.orderId else none)
        (if req.paymentMethod = "vnpay" then req.orderId else none) = some b ∧
      bookRoomTx s req now =
        .ok { s with bookings := s.bookings ++ [b]
                     rooms := pushCurrentBooking s.rooms req.roomid
                       ⟨some s.bookings.length, ci, co⟩ } := by
  obtain ⟨b, hb, hv, hrid, -⟩ := newBooking_valid hreq ci co now
    (if req.paymentMethod = "mobile_payment" then req.orderId else none)
    (if req.paymentMethod = "vnpay" then req.orderId else none)
  refine ⟨b, hb, ?_⟩
  have hreq' := hreq
  obtain ⟨hn, hp, ht, he, hm, hadults, ha, hchildren, hc⟩ := hreq'
  have hemail := toLowerCase_ne_empty (emailMatches_ne_empty he)
  have hmne := paymentMethods_ne_empty hm
  have hmc := paymentMethods_contains hm
  have htr : truthy req.adults = true := by
    rw [hadults]; simp only [truthy, decide_eq_true_eq]; omega
  have hln : looseNull req.children = false := by rw [hchildren]; rfl
  have hcap' : jsLt room.maxcount (jsAdd (Number req.adults) (Number req.children)) = false := by
    rw [hadults, hchildren]
    simp only [Number, jsAdd, jsLt, decide_eq_false_iff_not]
    omega
  unfold bookRoomTx
  rw [if_neg (by simp [hn, hp, ht, hemail, hmne, htr, hln, hci, hco])]
  rw [if_neg (by rw [hmc]; simp)]
  simp only [hci, hco]
  rw [if_neg (by omega)]
  simp only [hroom]
  rw [if_neg (by simp [hav]), if_neg (by simp [hcap']), if_neg (by simp [hbk])]
  have hdoc : newBooking req ci co (Number req.adults) (Number req.children) now
      (if req.paymentMethod = "mobile_payment" then req.orderId else none)
      (if req.paymentMethod = "vnpay" then req.orderId else none) = some b := by
    rw [hadults, hchildren]; exact hb
  rw [hdoc]
  exact persistBooking_ok hv hrid hroom hav

theorem pushCurrentBooking_of_some {rooms : List Room} {roomId : Nat} {room : Room}
    (h : rooms[roomId]? = some room) (entry : CurrentBooking) :
    pushCurrentBooking rooms roomId entry =
      rooms.set roomId { room with currentbookings := room.currentbookings ++ [entry] } := by
  unfold pushCurrentBooking
  rw [h]

theorem sameText_canonical {n : Nat} {bookingId : Option Nat} :
    sameText { id := n, canonical := true } bookingId = true ↔ bookingId = some n := by
  simp [sameText]

theorem releaseInterval_of_some {rooms : List Room} {roomId : Nat} {room : Room}
    (h : rooms[roomId]? = some room) (id : PathId) :
    releaseInterval rooms roomId id =
      rooms.set roomId
        { room with currentbookings := room.currentbookings.filter (keepOther id) } := by
  unfold releaseInterval
  rw [h]

theorem filter_keepOther {l : List CurrentBooking} (id : Nat)
    (hids : ∀ e ∈ l, e.bookingId ≠ none) :
    l.filter (keepOther id) = l.filter (fun e => e.bookingId ≠ some id) := by
  apply List.filter_congr
  intro e he
  have h := hids e he
  cases hid : e.bookingId with
  | none => exact absurd hid h
  | some k => by_cases hk : k = id <;> simp [keepOther, sameText, hid, hk]

theorem cancelBookingTx_ok_inv {s s' : State} {id : PathId} {cancelReason : String}
    (h : cancelBookingTx s id cancelReason = .ok s') :
    ∃ b, s.bookings[id.id]? = some b ∧ b.status = .pending ∧ isBlank cancelReason = false ∧
      s' = { s with
             bookings := s.bookings.set id.id
               { b with
                 status := .canceled, paymentStatus := .canceled,
                 cancelReason := some cancelReason }
             rooms := releaseInterval s.rooms b.roomid id } := by
  unfold cancelBookingTx at h
  split at h
  · exact absurd h (by simp)
  · rename_i hr
    split at h
    · exact absurd h (by simp)
    · rename_i b hb
      split at h
      · exact absurd h (by simp)
      · rename_i h1
        split at h
        · exact absurd h (by simp)
        · rename_i h2
          refine ⟨b, hb, ?_, by simpa using hr, ?_⟩
          · cases hst : b.status <;> simp_all
          · simpa using h.symm

theorem getElem?_lt_length {α : Type} {l : List α} {i : Nat} {a : α} (h : l[i]? = some a) :
    i < l.length := by
  rcases Nat.lt_or_ge i l.length with h1 | h1
  · exact h1
  · rw [List.getElem?_eq_none h1] at h
    exact absurd h (by simp)

theorem overlapTest_self (ci co : Int) : overlapTest ci co ci co = true := by
  simp [overlapTest]

theorem releaseInterval_getElem?_ne {rooms : List Room} {roomId : Nat} {id : PathId} {j : Nat}
    (h : roomId ≠ j) :
    (releaseInterval rooms roomId id)[j]? = rooms[j]? := by
  unfold releaseInterval
  split
  · rfl
  · rw [List.getElem?_set_ne h]

theorem releaseInterval_getElem?_self {rooms : List Room} {roomId : Nat} {id : PathId}
    {room : Room}
    (h : rooms[roomId]? = some room) :
    (releaseInterval rooms roomId id)[roomId]? =
      some { room with currentbookings := room.currentbookings.filter (keepOther id) } := by
  rw [releaseInterval_of_some h, List.getElem?_set_self (getElem?_lt_length h)]

theorem pushCurrentBooking_getElem?_ne {rooms : List Room} {roomId j : Nat}
    {entry : CurrentBooking} (h : roomId ≠ j) :
    (pushCurrentBooking rooms roomId entry)[j]? = rooms[j]? := by
  unfold pushCurrentBooking
  split
  · rfl
  · rw [List.getElem?_set_ne h]

theorem pushCurrentBooking_getElem?_self {rooms : List Room} {roomId : Nat} {room : Room}
    (h : rooms[roomId]? = some room) (entry : CurrentBooking) :
    (pushCurrentBooking rooms roomId entry)[roomId]? =
      some { room with currentbookings := room.currentbookings ++ [entry] } := by
  rw [pushCurrentBooking_of_some h, List.getElem?_set_self (getElem?_lt_length h)]

theorem keepOther_bookingId {id : Nat} {e : CurrentBooking} (h : keepOther id e = true) :
    e.bookingId ≠ some id := by
  unfold keepOther sameText at h
  intro he
  rw [he] at h
  simp at h

theorem assignRoomTx_ok_iff {s : State} {id : PathId} {newRoomId : Nat} {b : Booking}
    (s' : State) (hb : s.bookings[id.id]? = some b) :
    assignRoomTx s id newRoomId = .ok s' ↔
      b.status ≠ .canceled ∧ ∃ newRoom, s.rooms[newRoomId]? = some newRoom ∧
        newRoom.availabilityStatus = .available ∧ newRoom.type = b.roomType ∧
        isRoomBooked newRoom b.checkin b.checkout = false ∧
        s' = { s with
               bookings := s.bookings.set id.id { b with roomid := newRoomId }
               rooms := pushCurrentBooking (releaseInterval s.rooms b.roomid id) newRoomId
                 ⟨some id.id, b.checkin, b.checkout⟩ } := by
  unfold assignRoomTx
  simp only [hb]
  by_cases hc : b.status = .canceled
  · simp [hc]
  · rw [if_neg hc]
    cases hroom : s.rooms[newRoomId]? with
    | none => simp
    | some newRoom =>
      simp only
      by_cases hav : newRoom.availabilityStatus = .available
      · rw [if_neg (by simp [hav])]
        by_cases hty : newRoom.type = b.roomType
        · rw [if_neg (by simp [hty])]
          cases hbk : isRoomBooked newRoom b.checkin b.checkout with
          | true => simp [hc, hbk]
          | false =>
            simp only [Bool.false_eq_true, if_false, Except.ok.injEq, ne_eq, hc,
              not_false_eq_true, Option.some.injEq, true_and, exists_eq_left', hav, hty, hbk]
            exact eq_comm
        · simp [hc, hty]
      · simp [hc, hav]

/-- The reassignment of the witness is accepted. -/
theorem assignRoom_example :
    (assignRoom backToBackState 0 1).2 = .ok () ∧
    (assignRoom backToBackState 0 1).1.rooms.map (fun r => r.currentbookings) =
      [[⟨some 1, 3, 5⟩], [⟨some 0, 1, 3⟩]] := by
  decide

/-! ### Booking/room consistency -/

theorem mem_entriesOf {id : Nat} {l : List CurrentBooking} {e : CurrentBooking} :
    e ∈ entriesOf id l ↔ e ∈ l ∧ e.bookingId = some id := by
  unfold entriesOf
  rw [List.mem_filter]
  simp

theorem entriesOf_eq_nil {id : Nat} {l : List CurrentBooking}
    (h : ∀ e ∈ l, e.bookingId ≠ some id) : entriesOf id l = [] := by
  unfold entriesOf
  rw [List.filter_eq_nil_iff]
  intro e he
  simpa using h e he

theorem entriesOf_append (id : Nat) (l₁ l₂ : List CurrentBooking) :
    entriesOf id (l₁ ++ l₂) = entriesOf id l₁ ++ entriesOf id l₂ := by
  unfold entriesOf
  exact List.filter_append _ _

theorem entriesOf_singleton_ne {id k : Nat} {ci co : Int} (h : k ≠ id) :
    entriesOf id [⟨some k, ci, co⟩] = [] := by
  apply entriesOf_eq_nil
  intro e he
  rw [List.mem_singleton] at he
  subst he
  simpa using h

theorem entriesOf_singleton_self (id : Nat) (ci co : Int) :
    entriesOf id [⟨some id, ci, co⟩] = [⟨some id, ci, co⟩] := by
  simp [entriesOf]

theorem entriesOf_filter_keepOther {id k : Nat} (h : k ≠ id) (l : List CurrentBooking) :
    entriesOf k (l.filter (keepOther id)) = entriesOf k l := by
  unfold entriesOf
  rw [List.filter_filter]
  apply List.filter_congr
  intro e _
  cases hid : e.bookingId with
  | none => simp
  | some j =>
    by_cases hj : j = k
    · subst hj
      simp [keepOther, sameText, hid, h]
    · simp [hj]

theorem consistent_of_invariant {s : State} (h1 : intervalsOwned s) (h2 : bookingsRecorded s) :
    consistent s := by
  constructor
  · intro id b hb hlive
    obtain ⟨r, hr, hlen⟩ := h2 id b hb hlive
    refine ⟨r, hr, ?_⟩
    obtain ⟨e, he⟩ := List.length_eq_one.mp hlen
    rw [he]
    have hmem : e ∈ entriesOf id r.currentbookings := by rw [he]; exact List.mem_singleton.mpr rfl
    obtain ⟨hmem1, hid⟩ := mem_entriesOf.mp hmem
    obtain ⟨id', b', hid', hb', -, -, hci, hco⟩ := h1 b.roomid r e hr hmem1
    rw [hid] at hid'
    cases hid'
    rw [hb] at hb'
    cases hb'
    cases e
    simp_all
  · intro id b hb hcanceled r hr
    obtain ⟨rid, hrid⟩ := List.mem_iff_getElem?.mp hr
    apply entriesOf_eq_nil
    intro e he hid
    obtain ⟨id', b', hid', hb', -, hlive, -, -⟩ := h1 rid r e hrid he
    rw [hid] at hid'
    cases hid'
    rw [hb] at hb'
    cases hb'
    exact hlive hcanceled

theorem invariant_of_emptyState {s : State} (h : emptyState s) :
    intervalsOwned s ∧ bookingsRecorded s := by
  obtain ⟨hb, hr⟩ := h
  constructor
  · intro rid r e hrid he
    rw [hr r (List.getElem?_mem hrid)] at he
    exact absurd he (List.not_mem_nil e)
  · intro id b hid
    rw [hb] at hid
    exact absurd hid (by simp)

theorem invariant_insert {s s' : State} {b : Booking} {room : Room}
    (h1 : intervalsOwned s) (h2 : bookingsRecorded s)
    (hroom : s.rooms[b.roomid]? = some room) (hlive : b.status ≠ .canceled)
    (hbs : s'.bookings = s.bookings ++ [b])
    (hrs : s'.rooms = pushCurrentBooking s.rooms b.roomid
      ⟨some s.bookings.length, b.checkin, b.checkout⟩) :
    intervalsOwned s' ∧ bookingsRecorded s' := by
  have hold : ∀ (id : Nat) (b' : Booking), s.bookings[id]? = some b' →
      s'.bookings[id]? = some b' := by
    intro id b' h
    rw [hbs, List.getElem?_append_left (getElem?_lt_length h)]
    exact h
  have hnew : s'.bookings[s.bookings.length]? = some b := by
    rw [hbs]
    exact List.getElem?_concat_length _ _
  have hfresh : ∀ (rid : Nat) (r : Room) (e : CurrentBooking), s.rooms[rid]? = some r →
      e ∈ r.currentbookings →
      e.bookingId ≠ some s.bookings.length := by
    intro rid r e hr he hid
    obtain ⟨id', b', hid', hb', -⟩ := h1 rid r e hr he
    rw [hid] at hid'
    cases hid'
    exact absurd (getElem?_lt_length hb') (Nat.lt_irrefl _)
  constructor
  · intro rid r e hr he
    rw [hrs] at hr
    by_cases hrid : b.roomid = rid
    · subst hrid
      rw [pushCurrentBooking_getElem?_self hroom] at hr
      cases hr
      rcases List.mem_append.mp he with he | he
      · obtain ⟨id', b', hid', hb', hr', hl', hci, hco⟩ := h1 _ room e hroom he
        exact ⟨id', b', hid', hold id' b' hb', hr', hl', hci, hco⟩
      · rw [List.mem_singleton] at he
        subst he
        exact ⟨s.bookings.length, b, rfl, hnew, rfl, hlive, rfl, rfl⟩
    · rw [pushCurrentBooking_getElem?_ne hrid] at hr
      obtain ⟨id', b', hid', hb', hr', hl', hci, hco⟩ := h1 rid r e hr he
      exact ⟨id', b', hid', hold id' b' hb', hr', hl', hci, hco⟩
  · intro id b' hb' hl'
    rw [hbs] at hb'
    rw [hrs]
    by_cases hlt : id < s.bookings.length
    · rw [List.getElem?_append_left hlt] at hb'
      obtain ⟨r, hr, hlen⟩ := h2 id b' hb' hl'
      by_cases hrid : b.roomid = b'.roomid
      · rw [← hrid] at hr ⊢
        rw [hroom] at hr
        cases hr
        refine ⟨_, pushCurrentBooking_getElem?_self hroom _, ?_⟩
        show (entriesOf id (room.currentbookings ++ _)).length = 1
        rw [entriesOf_append, entriesOf_singleton_ne (Nat.ne_of_gt hlt), List.append_nil]
        exact hlen
      · exact ⟨r, by rw [pushCurrentBooking_getElem?_ne hrid]; exact hr, hlen⟩
    · have hid : id = s.bookings.length := by
        have := getElem?_lt_length hb'
        rw [List.length_append, List.length_singleton] at this
        omega
      subst hid
      rw [List.getElem?_concat_length] at hb'
      cases hb'
      refine ⟨_, pushCurrentBooking_getElem?_self hroom _, ?_⟩
      show (entriesOf _ (room.currentbookings ++ _)).length = 1
      rw [entriesOf_append, entriesOf_singleton_self,
        entriesOf_eq_nil (fun e he => hfresh _ room e hroom he)]
      rfl

theorem invariant_release {s s' : State} {id : Nat} {b b' : Booking}
    (h1 : intervalsOwned s) (h2 : bookingsRecorded s)
    (hb : s.bookings[id]? = some b) (hc : b'.status = .canceled)
    (hbs : s'.bookings = s.bookings.set id b')
    (hrs : s'.rooms = releaseInterval s.rooms b.roomid id) :
    intervalsOwned s' ∧ bookingsRecorded s' := by
  have hother : ∀ (k : Nat), k ≠ id → s'.bookings[k]? = s.bookings[k]? := by
    intro k hk
    rw [hbs, List.getElem?_set_ne (Ne.symm hk)]
  constructor
  · intro rid r e hr he
    rw [hrs] at hr
    by_cases hrid : b.roomid = rid
    · subst hrid
      cases hold : s.rooms[b.roomid]? with
      | none =>
        have : releaseInterval s.rooms b.roomid id = s.rooms := by
          unfold releaseInterval; rw [hold]
        rw [this, hold] at hr
        exact absurd hr (by simp)
      | some oldRoom =>
        rw [releaseInterval_getElem?_self hold] at hr
        cases hr
        obtain ⟨he1, he2⟩ := List.mem_filter.mp he
        obtain ⟨id', b0, hid', hb0, hr0, hl0, hci, hco⟩ := h1 _ oldRoom e hold he1
        have hne : id' ≠ id := by
          intro h
          subst h
          exact keepOther_bookingId he2 hid'
        exact ⟨id', b0, hid', by rw [hother id' hne]; exact hb0, hr0, hl0, hci, hco⟩
    · rw [releaseInterval_getElem?_ne hrid] at hr
      obtain ⟨id', b0, hid', hb0, hr0, hl0, hci, hco⟩ := h1 rid r e hr he
      have hne : id' ≠ id := by
        intro h
        subst h
        rw [hb] at hb0
        cases hb0
        exact hrid hr0
      exact ⟨id', b0, hid', by rw [hother id' hne]; exact hb0, hr0, hl0, hci, hco⟩
  · intro k bk hbk hlk
    have hne : k ≠ id := by
      intro h
      subst h
      rw [hbs, List.getElem?_set_self (getElem?_lt_length hb)] at hbk
      cases hbk
      exact hlk hc
    rw [hother k hne] at hbk
    obtain ⟨r, hr, hlen⟩ := h2 k bk hbk hlk
    rw [hrs]
    by_cases hrid : b.roomid = bk.roomid
    · rw [← hrid] at hr ⊢
      refine ⟨_, releaseInterval_getElem?_self hr, ?_⟩
      show (entriesOf k (r.currentbookings.filter (keepOther id))).length = 1
      rw [entriesOf_filter_keepOther hne]
      exact hlen
    · exact ⟨r, by rw [releaseInterval_getElem?_ne hrid]; exact hr, hlen⟩

theorem invariant_update {s s' : State} {id : Nat} {b : Booking} (b' : Booking)
    (h1 : intervalsOwned s) (h2 : bookingsRecorded s)
    (hb : s.bookings[id]? = some b) (hroomid : b'.roomid = b.roomid)
    (hci : b'.checkin = b.checkin) (hco : b'.checkout = b.checkout)
    (hlive : b.status ≠ .canceled) (hlive' : b'.status ≠ .canceled)
    (hbs : s'.bookings = s.bookings.set id b') (hrs : s'.rooms = s.rooms) :
    intervalsOwned s' ∧ bookingsRecorded s' := by
  have hother : ∀ (k : Nat), k ≠ id → s'.bookings[k]? = s.bookings[k]? := by
    intro k hk
    rw [hbs, List.getElem?_set_ne (Ne.symm hk)]
  have hself : s'.bookings[id]? = some b' := by
    rw [hbs, List.getElem?_set_self (getElem?_lt_length hb)]
  constructor
  · intro rid r e hr he
    rw [hrs] at hr
    obtain ⟨id', b0, hid', hb0, hr0, hl0, hci0, hco0⟩ := h1 rid r e hr he
    by_cases hne : id' = id
    · subst hne
      rw [hb] at hb0
      cases hb0
      exact ⟨id', b', hid', hself, by rw [hroomid]; exact hr0, hlive', by rw [hci]; exact hci0,
        by rw [hco]; exact hco0⟩
    · exact ⟨id', b0, hid', by rw [hother id' hne]; exact hb0, hr0, hl0, hci0, hco0⟩
  · intro k bk hbk hlk
    rw [hrs]
    by_cases hne : k = id
    · subst hne
      rw [hself] at hbk
      cases hbk
      rw [hroomid]
      exact h2 k b hb hlive
    · rw [hother k hne] at hbk
      exact h2 k bk hbk hlk

theorem invariant_reinsert {s s' : State} {id : Nat} {b0 b : Booking} {room : Room}
    (h1 : intervalsOwned s) (h2 : bookingsRecorded s)
    (hb0 : s.bookings[id]? = some b0) (hc : b0.status = .canceled)
    (hroom : s.rooms[b.roomid]? = some room) (hlive : b.status ≠ .canceled)
    (hbs : s'.bookings = s.bookings.set id b)
    (hrs : s'.rooms = pushCurrentBooking s.rooms b.roomid ⟨some id, b.checkin, b.checkout⟩) :
    intervalsOwned s' ∧ bookingsRecorded s' := by
  have hother : ∀ (k : Nat), k ≠ id → s'.bookings[k]? = s.bookings[k]? := by
    intro k hk
    rw [hbs, List.getElem?_set_ne (Ne.symm hk)]
  have hself : s'.bookings[id]? = some b := by
    rw [hbs, List.getElem?_set_self (getElem?_lt_length hb0)]
  have hfresh : ∀ (rid : Nat) (r : Room) (e : CurrentBooking), s.rooms[rid]? = some r →
      e ∈ r.currentbookings → e.bookingId ≠ some id := by
    intro rid r e hr he hid
    obtain ⟨id', b', hid', hb', -, hl', -⟩ := h1 rid r e hr he
    rw [hid] at hid'
    cases hid'
    rw [hb0] at hb'
    cases hb'
    exact hl' hc
  have hkeep : ∀ (rid : Nat) (r : Room) (e : CurrentBooking), s.rooms[rid]? = some r →
      e ∈ r.currentbookings →
      ∃ id' b', e.bookingId = some id' ∧ s'.bookings[id']? = some b' ∧ b'.roomid = rid ∧
        b'.status ≠ .canceled ∧ e.checkin = b'.checkin ∧ e.checkout = b'.checkout := by
    intro rid r e hr he
    obtain ⟨id', b', hid', hb', hr', hl', hci, hco⟩ := h1 rid r e hr he
    have hne : id' ≠ id := by
      intro h
      subst h
      exact hfresh rid r e hr he hid'
    exact ⟨id', b', hid', by rw [hother id' hne]; exact hb', hr', hl', hci, hco⟩
  constructor
  · intro rid r e hr he
    rw [hrs] at hr
    by_cases hrid : b.roomid = rid
    · subst hrid
      rw [pushCurrentBooking_getElem?_self hroom] at hr
      cases hr
      rcases List.mem_append.mp he with he | he
      · exact hkeep _ room e hroom he
      · rw [List.mem_singleton] at he
        subst he
        exact ⟨id, b, rfl, hself, rfl, hlive, rfl, rfl⟩
    · rw [pushCurrentBooking_getElem?_ne hrid] at hr
      exact hkeep rid r e hr he
  · intro k bk hbk hlk
    rw [hrs]
    by_cases hk : k = id
    · subst hk
      rw [hself] at hbk
      cases hbk
      refine ⟨_, pushCurrentBooking_getElem?_self hroom _, ?_⟩
      show (entriesOf _ (room.currentbookings ++ _)).length = 1
      rw [entriesOf_append, entriesOf_singleton_self,
        entriesOf_eq_nil (fun e he => hfresh _ room e hroom he)]
      rfl
    · rw [hother k hk] at hbk
      obtain ⟨r, hr, hlen⟩ := h2 k bk hbk hlk
      by_cases hrid : b.roomid = bk.roomid
      · rw [← hrid] at hr ⊢
        rw [hroom] at hr
        cases hr
        refine ⟨_, pushCurrentBooking_getElem?_self hroom _, ?_⟩
        show (entriesOf k (room.currentbookings ++ _)).length = 1
        rw [entriesOf_append, entriesOf_singleton_ne (Ne.symm hk), List.append_nil]
        exact hlen
      · exact ⟨r, by rw [pushCurrentBooking_getElem?_ne hrid]; exact hr, hlen⟩

theorem releaseInterval_isSome {rooms : List Room} (roomId : Nat) (id : PathId) {j : Nat}
    {room : Room}
    (h : rooms[j]? = some room) : ∃ r, (releaseInterval rooms roomId id)[j]? = some r := by
  by_cases hj : roomId = j
  · subst hj
    exact ⟨_, releaseInterval_getElem?_self h⟩
  · exact ⟨room, by rw [releaseInterval_getElem?_ne hj]; exact h⟩

theorem invariant_assign {s s' : State} {id newRoomId : Nat} {b : Booking} {newRoom : Room}
    (h1 : intervalsOwned s) (h2 : bookingsRecorded s)
    (hb : s.bookings[id]? = some b) (hlive : b.status ≠ .canceled)
    (hroom : s.rooms[newRoomId]? = some newRoom)
    (hbs : s'.bookings = s.bookings.set id { b with roomid := newRoomId })
    (hrs : s'.rooms = pushCurrentBooking (releaseInterval s.rooms b.roomid id) newRoomId
      ⟨some id, b.checkin, b.checkout⟩) :
    intervalsOwned s' ∧ bookingsRecorded s' := by
  have hcanceled : ({ b with status := .canceled } : Booking).status = .canceled := rfl
  have hstep : intervalsOwned
        { s with
          bookings := s.bookings.set id { b with status := .canceled }
          rooms := releaseInterval s.rooms b.roomid id } ∧
      bookingsRecorded
        { s with
          bookings := s.bookings.set id { b with status := .canceled }
          rooms := releaseInterval s.rooms b.roomid id } :=
    invariant_release h1 h2 hb hcanceled rfl rfl
  obtain ⟨g1, g2⟩ := hstep
  obtain ⟨r1, hr1⟩ := releaseInterval_isSome b.roomid id hroom
  have hb1 : (s.bookings.set id { b with status := .canceled })[id]? =
      some { b with status := .canceled } :=
    List.getElem?_set_self (getElem?_lt_length hb)
  have hlive' : ({ b with roomid := newRoomId } : Booking).status ≠ .canceled := hlive
  exact invariant_reinsert g1 g2 hb1 hcanceled hr1 hlive'
    (by rw [hbs]; exact (List.set_set _ _ _ _).symm) hrs

theorem setCheckoutOfFirst_mem {id : Nat} {n : Int} {l : List CurrentBooking}
    {e : CurrentBooking} (hlen : (entriesOf id l).length ≤ 1)
    (he : e ∈ setCheckoutOfFirst id n l) :
    (e ∈ l ∧ e.bookingId ≠ some id) ∨
      ∃ e0 ∈ l, e0.bookingId = some id ∧ e = { e0 with checkout := n } := by
  induction l with
  | nil => exact absurd he (List.not_mem_nil e)
  | cons a l ih =>
    unfold setCheckoutOfFirst at he
    by_cases ha : a.bookingId = some id
    · rw [if_pos (sameText_canonical.mpr ha)] at he
      have hnil : entriesOf id l = [] := by
        have h : entriesOf id (a :: l) = a :: entriesOf id l := by
          simp [entriesOf, ha]
        rw [h, List.length_cons] at hlen
        exact List.length_eq_zero.mp (by omega)
      rcases List.mem_cons.mp he with he | he
      · exact Or.inr ⟨a, List.mem_cons_self a l, ha, he⟩
      · refine Or.inl ⟨List.mem_cons_of_mem a he, ?_⟩
        intro hid
        have : e ∈ entriesOf id l := mem_entriesOf.mpr ⟨he, hid⟩
        rw [hnil] at this
        exact absurd this (List.not_mem_nil e)
    · rw [if_neg (fun h => ha (sameText_canonical.mp h))] at he
      rcases List.mem_cons.mp he with he | he
      · subst he
        exact Or.inl ⟨List.mem_cons_self _ l, ha⟩
      · have hlen' : (entriesOf id l).length ≤ 1 := by
          have h : entriesOf id (a :: l) = entriesOf id l := by
            simp [entriesOf, ha]
          rw [h] at hlen
          exact hlen
        rcases ih hlen' he with ⟨h1, h2⟩ | ⟨e0, h1, h2, h3⟩
        · exact Or.inl ⟨List.mem_cons_of_mem a h1, h2⟩
        · exact Or.inr ⟨e0, List.mem_cons_of_mem a h1, h2, h3⟩

theorem entriesOf_setCheckoutOfFirst_length (k id : Nat) (n : Int) (l : List CurrentBooking) :
    (entriesOf k (setCheckoutOfFirst id n l)).length = (entriesOf k l).length := by
  induction l with
  | nil => rfl
  | cons a l ih =>
    unfold setCheckoutOfFirst
    by_cases ha : a.bookingId = some id
    · rw [if_pos (sameText_canonical.mpr ha)]
      by_cases hk : a.bookingId = some k
      · simp [entriesOf, hk]
      · simp [entriesOf, hk]
    · rw [if_neg (fun h => ha (sameText_canonical.mp h))]
      by_cases hk : a.bookingId = some k
      · have h1 : entriesOf k (a :: setCheckoutOfFirst id n l) =
            a :: entriesOf k (setCheckoutOfFirst id n l) := by simp [entriesOf, hk]
        have h2 : entriesOf k (a :: l) = a :: entriesOf k l := by simp [entriesOf, hk]
        rw [h1, h2, List.length_cons, List.length_cons, ih]
      · have h1 : entriesOf k (a :: setCheckoutOfFirst id n l) =
            entriesOf k (setCheckoutOfFirst id n l) := by simp [entriesOf, hk]
        have h2 : entriesOf k (a :: l) = entriesOf k l := by simp [entriesOf, hk]
        rw [h1, h2, ih]

theorem invariant_extend {s s' : State} {id : Nat} {b : Booking} {room : Room} {n : Int}
    (h1 : intervalsOwned s) (h2 : bookingsRecorded s)
    (hb : s.bookings[id]? = some b) (hlive : b.status ≠ .canceled)
    (hroom : s.rooms[b.roomid]? = some room)
    (hbs : s'.bookings = s.bookings.set id { b with checkout := n })
    (hrs : s'.rooms = s.rooms.set b.roomid
      { room with currentbookings := setCheckoutOfFirst id n room.currentbookings }) :
    intervalsOwned s' ∧ bookingsRecorded s' := by
  have hother : ∀ (k : Nat), k ≠ id → s'.bookings[k]? = s.bookings[k]? := by
    intro k hk
    rw [hbs, List.getElem?_set_ne (Ne.symm hk)]
  have hself : s'.bookings[id]? = some { b with checkout := n } := by
    rw [hbs, List.getElem?_set_self (getElem?_lt_length hb)]
  have hnew : s'.rooms[b.roomid]? =
      some { room with currentbookings := setCheckoutOfFirst id n room.currentbookings } := by
    rw [hrs, List.getElem?_set_self (getElem?_lt_length hroom)]
  have hone : (entriesOf id room.currentbookings).length = 1 := by
    obtain ⟨r, hr, hlen⟩ := h2 id b hb hlive
    rw [hroom] at hr
    cases hr
    exact hlen
  constructor
  · intro rid r e hr he
    by_cases hrid : b.roomid = rid
    · subst hrid
      rw [hnew] at hr
      cases hr
      rcases setCheckoutOfFirst_mem (Nat.le_of_eq hone) he with ⟨he1, he2⟩ | ⟨e0, he1, he2, he3⟩
      · obtain ⟨id', b0, hid', hb0, hr0, hl0, hci, hco⟩ := h1 _ room e hroom he1
        have hne : id' ≠ id := by
          intro h
          subst h
          exact he2 hid'
        exact ⟨id', b0, hid', by rw [hother id' hne]; exact hb0, hr0, hl0, hci, hco⟩
      · obtain ⟨id', b0, hid', hb0, hr0, hl0, hci, hco⟩ := h1 _ room e0 hroom he1
        rw [he2] at hid'
        cases hid'
        rw [hb] at hb0
        cases hb0
        subst he3
        exact ⟨id, { b with checkout := n }, he2, hself, rfl, hlive, hci, rfl⟩
    · rw [hrs, List.getElem?_set_ne hrid] at hr
      obtain ⟨id', b0, hid', hb0, hr0, hl0, hci, hco⟩ := h1 rid r e hr he
      have hne : id' ≠ id := by
        intro h
        subst h
        rw [hb] at hb0
        cases hb0
        exact hrid hr0
      exact ⟨id', b0, hid', by rw [hother id' hne]; exact hb0, hr0, hl0, hci, hco⟩
  · intro k bk hbk hlk
    by_cases hk : k = id
    · subst hk
      rw [hself] at hbk
      cases hbk
      refine ⟨_, hnew, ?_⟩
      show (entriesOf k (setCheckoutOfFirst k n room.currentbookings)).length = 1
      rw [entriesOf_setCheckoutOfFirst_length]
      exact hone
    · rw [hother k hk] at hbk
      obtain ⟨r, hr, hlen⟩ := h2 k bk hbk hlk
      by_cases hrid : b.roomid = bk.roomid
      · rw [← hrid] at hr ⊢
        rw [hroom] at hr
        cases hr
        refine ⟨_, hnew, ?_⟩
        show (entriesOf k (setCheckoutOfFirst id n room.currentbookings)).length = 1
        rw [entriesOf_setCheckoutOfFirst_length]
        exact hlen
      · exact ⟨r, by rw [hrs, List.getElem?_set_ne hrid]; exact hr, hlen⟩

theorem newBooking_some_inv {req : BookingRequest} {ci co now : Int} {a c : Option Int}
    {m v : Option String} {b : Booking} (h : newBooking req ci co a c now m v = some b) :
    b.roomid = req.roomid ∧ b.checkin = ci ∧ b.checkout = co ∧ b.status = .pending := by
  unfold newBooking at h
  split at h
  · cases h
    exact ⟨rfl, rfl, rfl, rfl⟩
  · exact absurd h (by simp)

theorem extendStayTx_ok_inv {s s' : State} {id : PathId} {newCheckout : DateInput}
    (h : extendStayTx s id newCheckout = .ok s') :
    ∃ n b room, newCheckout = .date n ∧ s.bookings[id.id]? = some b ∧
      b.status ≠ .canceled ∧
      b.checkout < n ∧ s.rooms[b.roomid]? = some room ∧
      room.currentbookings.any (extendConflict id b.checkout n) = false ∧
      s' = { s with
             bookings := s.bookings.set id.id { b with checkout := n }
             rooms := s.rooms.set b.roomid
               { room with
                 currentbookings := setCheckoutOfFirst id n room.currentbookings } } := by
  unfold extendStayTx at h
  split at h
  · exact absurd h (by simp)
  · exact absurd h (by simp)
  · rename_i n
    split at h
    · exact absurd h (by simp)
    · rename_i b hb
      split at h
      · exact absurd h (by simp)
      · rename_i hc
        dsimp only at h
        split at h
        · exact absurd h (by simp)
        · rename_i hlt
          split at h
          · exact absurd h (by simp)
          · rename_i room hroom
            split at h
            · exact absurd h (by simp)
            · rename_i hconf
              refine ⟨n, b, room, rfl, hb, hc, by omega, hroom, by simpa using hconf, ?_⟩
              simpa using h.symm

theorem accrueOnConfirm_rooms (s : State) (id : Nat) (booking : Booking) :
    (accrueOnConfirm s id booking).rooms = s.rooms ∧
    (accrueOnConfirm s id booking).bookings = s.bookings := by
  unfold accrueOnConfirm
  split
  · exact ⟨rfl, rfl⟩
  · split
    · dsimp only
      split
      · exact ⟨rfl, rfl⟩
      · exact ⟨rfl, rfl⟩
    · exact ⟨rfl, rfl⟩

theorem confirmBookingTx_ok_inv {s s' : State} {id : Nat}
    (h : confirmBookingTx s id = .ok s') :
    ∃ b, s.bookings[id]? = some b ∧ b.status = .pending ∧
      s' = accrueOnConfirm
        { s with
          bookings := s.bookings.set id { b with status := .confirmed, paymentStatus := .paid } }
        id { b with status := .confirmed, paymentStatus := .paid } := by
  unfold confirmBookingTx at h
  split at h
  · exact absurd h (by simp)
  · rename_i b hb
    split at h
    · exact absurd h (by simp)
    · rename_i h1
      split at h
      · exact absurd h (by simp)
      · rename_i h2
        refine ⟨b, hb, ?_, ?_⟩
        · cases hst : b.status <;> simp_all
        · simpa using h.symm

theorem withTransaction_fst (s : State) (body : Except Error State) :
    (withTransaction s body).1 = s ∨ body = .ok (withTransaction s body).1 := by
  cases body with
  | ok a => exact Or.inr rfl
  | error e => exact Or.inl rfl

theorem paymentDeadline_fst (s : State) (id : PathId) (currentTime : Int) :
    (paymentDeadline s id currentTime).1 = s ∨
      ∃ b deadline, s.bookings[id.id]? = some b ∧ b.paymentMethod = "bank_transfer" ∧
        b.paymentDeadline = some deadline ∧ deadline - currentTime ≤ 0 ∧
        b.paymentStatus = .pending ∧
        (paymentDeadline s id currentTime).1 =
          { s with
            bookings := s.bookings.set id.id
              { b with status := .canceled, paymentStatus := .canceled }
            rooms := releaseInterval s.rooms b.roomid id } := by
  unfold paymentDeadline
  split
  · exact Or.inl rfl
  · rename_i b hb
    split
    · exact Or.inl rfl
    · rename_i hm
      split
      · exact Or.inl rfl
      · rename_i deadline hd
        dsimp only
        split
        · rename_i hexp
          exact Or.inr ⟨b, deadline, hb, by simpa using hm, hd, hexp.1, hexp.2, rfl⟩
        · exact Or.inl rfl

theorem invariant_persistBooking {s s' : State} {req : BookingRequest} {ci co now : Int}
    {a c : Option Int} {m v : Option String} {room : Room}
    (h1 : intervalsOwned s) (h2 : bookingsRecorded s)
    (hroom : s.rooms[req.roomid]? = some room)
    (h : persistBooking s req ci co (newBooking req ci co a c now m v) = .ok s') :
    intervalsOwned s' ∧ bookingsRecorded s' := by
  obtain ⟨b, hdoc, -, hs'⟩ := persistBooking_ok_inv h
  obtain ⟨hrid, hci, hco, hst⟩ := newBooking_some_inv hdoc
  have hlive : b.status ≠ .canceled := by rw [hst]; decide
  have hroom' : s.rooms[b.roomid]? = some room := by rw [hrid]; exact hroom
  refine invariant_insert h1 h2 hroom' hlive ?_ ?_
  · rw [hs']
  · rw [hs', hrid, hci, hco]

theorem invariant_step {s : State} (h1 : intervalsOwned s) (h2 : bookingsRecorded s)
    (op : Op) (hop : op.canonical) :
    intervalsOwned (step s op) ∧ bookingsRecorded (step s op) := by
  cases op with
  | create req now =>
    show intervalsOwned (createBooking s req now).1 ∧ bookingsRecorded (createBooking s req now).1
    unfold createBooking
    rcases withTransaction_fst s (createBookingTx s req now) with h | h
    · rw [h]; exact ⟨h1, h2⟩
    · obtain ⟨ci, co, room, -, -, -, hroom, -, -, -, hp⟩ := createBookingTx_ok_inv h
      exact invariant_persistBooking h1 h2 hroom hp
  | bookroom req now =>
    show intervalsOwned (bookRoom s req now).1 ∧ bookingsRecorded (bookRoom s req now).1
    unfold bookRoom
    rcases withTransaction_fst s (bookRoomTx s req now) with h | h
    · rw [h]; exact ⟨h1, h2⟩
    · obtain ⟨ci, co, room, -, -, -, hroom, -, -, -, hp⟩ := bookRoomTx_ok_inv h
      exact invariant_persistBooking h1 h2 hroom hp
  | cancel id cancelReason =>
    obtain ⟨id, c⟩ := id
    have hc : c = true := hop
    subst hc
    show intervalsOwned (cancelBooking s id cancelReason).1 ∧
      bookingsRecorded (cancelBooking s id cancelReason).1
    unfold cancelBooking
    rcases withTransaction_fst s (cancelBookingTx s id cancelReason) with h | h
    · rw [h]; exact ⟨h1, h2⟩
    · obtain ⟨b, hb, -, -, hs'⟩ := cancelBookingTx_ok_inv h
      rw [hs']
      exact invariant_release h1 h2 hb rfl rfl rfl
  | assign id newRoomId =>
    obtain ⟨id, c⟩ := id
    have hc : c = true := hop
    subst hc
    show intervalsOwned (assignRoom s id newRoomId).1 ∧
      bookingsRecorded (assignRoom s id newRoomId).1
    unfold assignRoom
    rcases withTransaction_fst s (assignRoomTx s id newRoomId) with h | h
    · rw [h]; exact ⟨h1, h2⟩
    · cases hb : s.bookings[id]? with
      | none =>
        unfold assignRoomTx at h
        rw [hb] at h
        exact absurd h (by simp)
      | some b =>
        obtain ⟨hlive, newRoom, hroom, -, -, -, hs'⟩ := (assignRoomTx_ok_iff _ hb).mp h
        rw [hs']
        exact invariant_assign h1 h2 hb hlive hroom rfl rfl
  | extend id newCheckout =>
    obtain ⟨id, c⟩ := id
    have hc : c = true := hop
    subst hc
    show intervalsOwned (extendStay s id newCheckout).1 ∧
      bookingsRecorded (extendStay s id newCheckout).1
    unfold extendStay
    rcases withTransaction_fst s (extendStayTx s id newCheckout) with h | h
    · rw [h]; exact ⟨h1, h2⟩
    · obtain ⟨n, b, room, -, hb, hlive, -, hroom, -, hs'⟩ := extendStayTx_ok_inv h
      rw [hs']
      exact invariant_extend h1 h2 hb hlive hroom rfl rfl
  | confirm id =>
    show intervalsOwned (confirmBooking s id).1 ∧ bookingsRecorded (confirmBooking s id).1
    unfold confirmBooking
    rcases withTransaction_fst s (confirmBookingTx s id) with h | h
    · rw [h]; exact ⟨h1, h2⟩
    · obtain ⟨b, hb, hst, hs'⟩ := confirmBookingTx_ok_inv h
      rw [hs']
      have hacc := accrueOnConfirm_rooms
        { s with
          bookings := s.bookings.set id { b with status := .confirmed, paymentStatus := .paid } }
        id { b with status := .confirmed, paymentStatus := .paid }
      have hlive : b.status ≠ .canceled := by rw [hst]; decide
      have hlive' : ({ b with status := .confirmed, paymentStatus := .paid } : Booking).status ≠
          .canceled := fun hne => BookingStatus.noConfusion hne
      exact invariant_update { b with status := .confirmed, paymentStatus := .paid } h1 h2 hb
        rfl rfl rfl hlive hlive' hacc.2 hacc.1
  | deadline id currentTime =>
    obtain ⟨id, c⟩ := id
    have hc : c = true := hop
    subst hc
    show intervalsOwned (paymentDeadline s id currentTime).1 ∧
      bookingsRecorded (paymentDeadline s id currentTime).1
    rcases paymentDeadline_fst s id currentTime with h | ⟨b, d, hb, -, -, -, -, hs'⟩
    · rw [h]; exact ⟨h1, h2⟩
    · rw [hs']
      exact invariant_release h1 h2 hb rfl rfl rfl

theorem invariant_run (ops : List Op) :
    ∀ s : State, (∀ op ∈ ops, op.canonical) → intervalsOwned s → bookingsRecorded s →
      intervalsOwned (run s ops) ∧ bookingsRecorded (run s ops) := by
  induction ops with
  | nil => intro s _ h1 h2; exact ⟨h1, h2⟩
  | cons op ops ih =>
    intro s hops h1 h2
    obtain ⟨g1, g2⟩ := invariant_step h1 h2 op (hops op (List.mem_cons_self _ _))
    exact ih (step s op) (fun o ho => hops o (List.mem_cons_of_mem _ ho)) g1 g2

/-- The run of the witness ends with booking 0 confirmed in room 1 and booking 1
expired and released. -/
theorem run_example :
    (run exampleState
      [.create requestA 0, .bookroom requestBank 0, .extend 0 (.date 4), .assign 0 1,
       .confirm 0, .cancel 0 "change", .deadline 1 400000]).bookings.map
      (fun b => (b.roomid, b.status, b.paymentStatus, b.checkin, b.checkout)) =
      [(1, .confirmed, .paid, 1, 4), (0, .canceled, .canceled, 3, 5)] ∧
    (run exampleState
      [.create requestA 0, .bookroom requestBank 0, .extend 0 (.date 4), .assign 0 1,
       .confirm 0, .cancel 0 "change", .deadline 1 400000]).rooms.map
      (fun r => r.currentbookings) = [[], [⟨some 0, 1, 4⟩]] := by
  decide

/-! ### Non-overlap of reserved intervals: what is preserved -/

theorem not_overlaps_of_isRoomBooked {room : Room} {ci co : Int}
    (h : isRoomBooked room ci co = false) :
    ∀ a ∈ room.currentbookings, ¬ overlaps a.checkin a.checkout ci co := by
  unfold isRoomBooked at h
  rw [List.any_eq_false] at h
  intro a ha hov
  exact h a ha (overlapTest_of_overlaps ⟨hov.2, hov.1⟩)

theorem nonOverlapping_append_entry {l : List CurrentBooking} {entry : CurrentBooking}
    (hl : nonOverlapping l)
    (h : ∀ a ∈ l, ¬ overlaps a.checkin a.checkout entry.checkin entry.checkout) :
    nonOverlapping (l ++ [entry]) := by
  unfold nonOverlapping at hl ⊢
  rw [List.pairwise_append]
  refine ⟨hl, List.pairwise_singleton _ _, ?_⟩
  intro a ha b hb
  rw [List.mem_singleton] at hb
  subst hb
  exact h a ha

theorem nonOverlapping_filter {l : List CurrentBooking} (p : CurrentBooking → Bool)
    (hl : nonOverlapping l) : nonOverlapping (l.filter p) := by
  unfold nonOverlapping at hl ⊢
  exact List.Pairwise.filter p hl

theorem nonOverlapping_release {rooms : List Room} (roomId : Nat) (id : PathId)
    (h : ∀ r ∈ rooms, r.availabilityStatus = .available → nonOverlapping r.currentbookings) :
    ∀ r ∈ releaseInterval rooms roomId id, r.availabilityStatus = .available →
      nonOverlapping r.currentbookings := by
  intro r hr hav
  unfold releaseInterval at hr
  split at hr
  · exact h r hr hav
  · rename_i room hroom
    rcases List.mem_or_eq_of_mem_set hr with hr | hr
    · exact h r hr hav
    · subst hr
      exact nonOverlapping_filter _ (h room (List.getElem?_mem hroom) hav)

theorem nonOverlapping_push {rooms : List Room} (roomId : Nat) (entry : CurrentBooking)
    (h : ∀ r ∈ rooms, r.availabilityStatus = .available → nonOverlapping r.currentbookings)
    (hfree : ∀ room, rooms[roomId]? = some room → ∀ a ∈ room.currentbookings,
      ¬ overlaps a.checkin a.checkout entry.checkin entry.checkout) :
    ∀ r ∈ pushCurrentBooking rooms roomId entry, r.availabilityStatus = .available →
      nonOverlapping r.currentbookings := by
  intro r hr hav
  unfold pushCurrentBooking at hr
  split at hr
  · exact h r hr hav
  · rename_i room hroom
    rcases List.mem_or_eq_of_mem_set hr with hr | hr
    · exact h r hr hav
    · subst hr
      exact nonOverlapping_append_entry (h room (List.getElem?_mem hroom) hav)
        (hfree room hroom)

theorem nonOverlapping_persistBooking {s s' : State} {req : BookingRequest} {ci co : Int}
    {doc : Option Booking} {room : Room} (h : roomsNonOverlapping s)
    (hroom : s.rooms[req.roomid]? = some room) (hbk : isRoomBooked room ci co = false)
    (hp : persistBooking s req ci co doc = .ok s') : roomsNonOverlapping s' := by
  obtain ⟨b, -, -, hs'⟩ := persistBooking_ok_inv hp
  rw [hs']
  apply nonOverlapping_push _ _ h
  intro room' hroom' a ha
  rw [hroom] at hroom'
  cases hroom'
  exact not_overlaps_of_isRoomBooked hbk a ha

/-- The operations other than ExtendStay keep the room invariant: when every available
room has pairwise non-overlapping intervals before a creation, cancellation,
reassignment, confirmation or payment-deadline query, it has them afterwards. -/
theorem step_preserves_nonOverlapping (s : State) (op : Op)
    (hop : ∀ id newCheckout, op ≠ .extend id newCheckout) (h : roomsNonOverlapping s) :
    roomsNonOverlapping (step s op) := by
  cases op with
  | create req now =>
    show roomsNonOverlapping (createBooking s req now).1
    unfold createBooking
    rcases withTransaction_fst s (createBookingTx s req now) with h' | h'
    · rw [h']; exact h
    · obtain ⟨ci, co, room, -, -, -, hroom, -, -, hbk, hp⟩ := createBookingTx_ok_inv h'
      exact nonOverlapping_persistBooking h hroom hbk hp
  | bookroom req now =>
    show roomsNonOverlapping (bookRoom s req now).1
    unfold bookRoom
    rcases withTransaction_fst s (bookRoomTx s req now) with h' | h'
    · rw [h']; exact h
    · obtain ⟨ci, co, room, -, -, -, hroom, -, -, hbk, hp⟩ := bookRoomTx_ok_inv h'
      exact nonOverlapping_persistBooking h hroom hbk hp
  | cancel id cancelReason =>
    show roomsNonOverlapping (cancelBooking s id cancelReason).1
    unfold cancelBooking
    rcases withTransaction_fst s (cancelBookingTx s id cancelReason) with h' | h'
    · rw [h']; exact h
    · obtain ⟨b, -, -, -, hs'⟩ := cancelBookingTx_ok_inv h'
      rw [hs']
      exact nonOverlapping_release _ _ h
  | assign id newRoomId =>
    show roomsNonOverlapping (assignRoom s id newRoomId).1
    unfold assignRoom
    rcases withTransaction_fst s (assignRoomTx s id newRoomId) with h' | h'
    · rw [h']; exact h
    · cases hb : s.bookings[id.id]? with
      | none =>
        unfold assignRoomTx at h'
        rw [hb] at h'
        exact absurd h' (by simp)
      | some b =>
        obtain ⟨-, newRoom, hroom, -, -, hbk, hs'⟩ := (assignRoomTx_ok_iff _ hb).mp h'
        rw [hs']
        apply nonOverlapping_push _ _ (nonOverlapping_release _ _ h)
        intro room1 hroom1 a ha
        have hmem : a ∈ newRoom.currentbookings := by
          by_cases hrid : b.roomid = newRoomId
          · rw [← hrid] at hroom hroom1
            rw [releaseInterval_getElem?_self hroom] at hroom1
            cases hroom1
            exact (List.mem_filter.mp ha).1
          · rw [releaseInterval_getElem?_ne hrid, hroom] at hroom1
            cases hroom1
            exact ha
        exact not_overlaps_of_isRoomBooked hbk a hmem
  | extend id newCheckout => exact absurd rfl (hop id newCheckout)
  | confirm id =>
    show roomsNonOverlapping (confirmBooking s id).1
    unfold confirmBooking
    rcases withTransaction_fst s (confirmBookingTx s id) with h' | h'
    · rw [h']; exact h
    · obtain ⟨b, -, -, hs'⟩ := confirmBookingTx_ok_inv h'
      rw [hs']
      intro r hr
      rw [(accrueOnConfirm_rooms _ _ _).1] at hr
      exact h r hr
  | deadline id currentTime =>
    show roomsNonOverlapping (paymentDeadline s id currentTime).1
    rcases paymentDeadline_fst s id currentTime with h' | ⟨b, d, -, -, -, -, -, hs'⟩
    · rw [h']; exact h
    · rw [hs']
      exact nonOverlapping_release _ _ h

/-! ### ExtendStay: what the handler checks -/

/-- The extend handler accepts exactly when the booking is not canceled, the new
checkout is later, the room exists and no entry is reported by `extendConflict`, the
test for a checkin or a checkout strictly between the old and the new checkout; a
rejection changes nothing. -/
theorem extendStay_ok_iff (s : State) (id : PathId) (n : Int) (b : Booking)
    (hb : s.bookings[id.id]? = some b) :
    ((extendStay s id (.date n)).2 = .ok () ↔
      b.status ≠ .canceled ∧ b.checkout < n ∧ ∃ room, s.rooms[b.roomid]? = some room ∧
        room.currentbookings.any (extendConflict id b.checkout n) = false) ∧
    ((extendStay s id (.date n)).2 ≠ .ok () → (extendStay s id (.date n)).1 = s) := by
  unfold extendStay
  constructor
  · rw [withTransaction_snd_ok]
    constructor
    · rintro ⟨s', hs'⟩
      obtain ⟨n', b', room, hn, hb', hlive, hlt, hroom, hconf, -⟩ := extendStayTx_ok_inv hs'
      cases hn
      rw [hb] at hb'
      cases hb'
      exact ⟨hlive, hlt, room, hroom, hconf⟩
    · rintro ⟨hlive, hlt, room, hroom, hconf⟩
      unfold extendStayTx
      simp only [hb, hroom, hconf]
      rw [if_neg hlive, if_neg (by omega)]
      simp
  · intro hrej
    cases hbody : extendStayTx s id (.date n) with
    | ok s' =>
      rw [hbody] at hrej
      exact absurd rfl hrej
    | error e => rfl

/-- Every conflict that the extend handler reports is an overlap of the extended range
with the interval of another booking. -/
theorem overlaps_of_extendConflict {id : Nat} {ci oldCheckout n : Int} {e : CurrentBooking}
    (hlt : ci < oldCheckout) (he : e.checkin < e.checkout)
    (h : extendConflict id oldCheckout n e = true) :
    e.bookingId ≠ some id ∧ overlaps ci n e.checkin e.checkout := by
  unfold extendConflict at h
  split at h
  · exact absurd h (by simp)
  · rename_i hid
    simp only [Bool.or_eq_true, Bool.and_eq_true, decide_eq_true_eq] at h
    refine ⟨fun hsame => hid (sameText_canonical.mpr hsame), ?_⟩
    constructor <;> omega

/-- An interval of another booking that starts strictly after the old checkout is
reported exactly when it overlaps the extended range; the test only misses intervals
that start at (or before) the old checkout. -/
theorem extendConflict_iff_of_later {id : Nat} {ci oldCheckout n : Int} {e : CurrentBooking}
    (hlt : ci < oldCheckout) (he : e.checkin < e.checkout) (hid : e.bookingId ≠ some id)
    (hlater : oldCheckout < e.checkin) :
    extendConflict id oldCheckout n e = true ↔ overlaps ci n e.checkin e.checkout := by
  unfold extendConflict overlaps
  rw [if_neg (fun hsame => hid (sameText_canonical.mp hsame))]
  simp only [Bool.or_eq_true, Bool.and_eq_true, decide_eq_true_eq]
  constructor
  · intro h
    constructor <;> omega
  · rintro ⟨h1, h2⟩
    exact Or.inl ⟨hlater, h2⟩

/-! ### Well-formed dates in reachable states -/

theorem bookingsWellFormed_set {s s' : State} {id : Nat} {b' : Booking}
    (h : bookingsWellFormed s) (hbs : s'.bookings = s.bookings.set id b')
    (hb' : b'.checkin < b'.checkout) : bookingsWellFormed s' := by
  intro b hb
  rw [hbs] at hb
  rcases List.mem_or_eq_of_mem_set hb with hb | hb
  · exact h b hb
  · rw [hb]; exact hb'

theorem bookingsWellFormed_persistBooking {s s' : State} {req : BookingRequest}
    {ci co now : Int} {a c : Option Int} {m v : Option String}
    (h : bookingsWellFormed s) (hlt : ci < co)
    (hp : persistBooking s req ci co (newBooking req ci co a c now m v) = .ok s') :
    bookingsWellFormed s' := by
  obtain ⟨b, hdoc, -, hs'⟩ := persistBooking_ok_inv hp
  obtain ⟨-, hci, hco, -⟩ := newBooking_some_inv hdoc
  intro b1 hb1
  rw [hs'] at hb1
  rcases List.mem_append.mp hb1 with hb1 | hb1
  · exact h b1 hb1
  · rw [List.mem_singleton] at hb1
    rw [hb1, hci, hco]
    exact hlt

theorem bookingsWellFormed_step {s : State} (h : bookingsWellFormed s) (op : Op) :
    bookingsWellFormed (step s op) := by
  cases op with
  | create req now =>
    show bookingsWellFormed (createBooking s req now).1
    unfold createBooking
    rcases withTransaction_fst s (createBookingTx s req now) with h' | h'
    · rw [h']; exact h
    · obtain ⟨ci, co, room, -, -, hlt, -, -, -, -, hp⟩ := createBookingTx_ok_inv h'
      exact bookingsWellFormed_persistBooking h hlt hp
  | bookroom req now =>
    show bookingsWellFormed (bookRoom s req now).1
    unfold bookRoom
    rcases withTransaction_fst s (bookRoomTx s req now) with h' | h'
    · rw [h']; exact h
    · obtain ⟨ci, co, room, -, -, hlt, -, -, -, -, hp⟩ := bookRoomTx_ok_inv h'
      exact bookingsWellFormed_persistBooking h hlt hp
  | cancel id cancelReason =>
    show bookingsWellFormed (cancelBooking s id cancelReason).1
    unfold cancelBooking
    rcases withTransaction_fst s (cancelBookingTx s id cancelReason) with h' | h'
    · rw [h']; exact h
    · obtain ⟨b, hb, -, -, hs'⟩ := cancelBookingTx_ok_inv h'
      rw [hs']
      exact bookingsWellFormed_set h rfl (h b (List.getElem?_mem hb))
  | assign id newRoomId =>
    show bookingsWellFormed (assignRoom s id newRoomId).1
    unfold assignRoom
    rcases withTransaction_fst s (assignRoomTx s id newRoomId) with h' | h'
    · rw [h']; exact h
    · cases hb : s.bookings[id.id]? with
      | none =>
        unfold assignRoomTx at h'
        rw [hb] at h'
        exact absurd h' (by simp)
      | some b =>
        obtain ⟨-, newRoom, -, -, -, -, hs'⟩ := (assignRoomTx_ok_iff _ hb).mp h'
        rw [hs']
        exact bookingsWellFormed_set h rfl (h b (List.getElem?_mem hb))
  | extend id newCheckout =>
    show bookingsWellFormed (extendStay s id newCheckout).1
    unfold extendStay
    rcases withTransaction_fst s (extendStayTx s id newCheckout) with h' | h'
    · rw [h']; exact h
    · obtain ⟨n, b, room, -, hb, -, hlt, -, -, hs'⟩ := extendStayTx_ok_inv h'
      rw [hs']
      have hwf := h b (List.getElem?_mem hb)
      have hwf' : ({ b with checkout := n } : Booking).checkin <
          ({ b with checkout := n } : Booking).checkout := by
        show b.checkin < n
        omega
      exact bookingsWellFormed_set h rfl hwf'
  | confirm id =>
    show bookingsWellFormed (confirmBooking s id).1
    unfold confirmBooking
    rcases withTransaction_fst s (confirmBookingTx s id) with h' | h'
    · rw [h']; exact h
    · obtain ⟨b, hb, -, hs'⟩ := confirmBookingTx_ok_inv h'
      rw [hs']
      exact bookingsWellFormed_set h (accrueOnConfirm_rooms _ _ _).2
        (h b (List.getElem?_mem hb))
  | deadline id currentTime =>
    show bookingsWellFormed (paymentDeadline s id currentTime).1
    rcases paymentDeadline_fst s id currentTime with h' | ⟨b, d, hb, -, -, -, -, hs'⟩
    · rw [h']; exact h
    · rw [hs']
      exact bookingsWellFormed_set h rfl (h b (List.getElem?_mem hb))

theorem bookingsWellFormed_run (ops : List Op) :
    ∀ s : State, bookingsWellFormed s → bookingsWellFormed (run s ops) := by
  induction ops with
  | nil => intro s h; exact h
  | cons op ops ih =>
    intro s h
    exact ih (step s op) (bookingsWellFormed_step h op)

/-- In every state reached from an empty state every booking has `checkin < checkout`;
when the path parameters of the operations are written in canonical form, every stored
interval is well-formed and carries a booking identifier: the assumptions made on
stored data by the theorems on creation, cancellation and reassignment. -/
theorem run_wellFormed (s : State) (ops : List Op) (h : emptyState s) :
    bookingsWellFormed (run s ops) ∧
    ((∀ op ∈ ops, op.canonical) → ∀ r ∈ (run s ops).rooms,
      wellFormedIntervals r.currentbookings ∧ ∀ e ∈ r.currentbookings, e.bookingId ≠ none) := by
  have hb : bookingsWellFormed (run s ops) := by
    apply bookingsWellFormed_run
    intro b hb
    rw [h.1] at hb
    exact absurd hb (List.not_mem_nil b)
  obtain ⟨h1, h2⟩ := invariant_of_emptyState h
  refine ⟨hb, ?_⟩
  intro hops
  obtain ⟨g1, -⟩ := invariant_run ops s hops h1 h2
  intro r hr
  obtain ⟨rid, hrid⟩ := List.mem_iff_getElem?.mp hr
  constructor
  · intro e he
    obtain ⟨id, b, -, hbk, -, -, hci, hco⟩ := g1 rid r e hrid he
    rw [hci, hco]
    exact hb b (List.getElem?_mem hbk)
  · intro e he hnone
    obtain ⟨id, b, hid, -⟩ := g1 rid r e hrid he
    rw [hnone] at hid
    exact absurd hid (by simp)

/-- After the cancellation of booking 0 in `backToBackState` the stay 1..3 of room 0 can
be booked again, and the entry of booking 1 is still in place. -/
theorem cancel_then_rebook_example :
    (createBooking (cancelBooking backToBackState 0 "change").1 requestA 9).2 = .ok () ∧
    (createBooking (cancelBooking backToBackState 0 "change").1 requestA 9).1.rooms.map
      (fun r => r.currentbookings) = [[⟨some 1, 3, 5⟩, ⟨some 2, 1, 3⟩], []] := by
  decide

/-! ### Membership tier, terminal states and the payment deadline -/

/-- The tier derived inside `POST /api/discounts/apply` agrees with the standalone
derivation exactly below 50000 points, from 200000 to 299999 and from 1000000 on. -/
theorem applyMembershipLevel_eq_iff (p : Int) :
    applyMembershipLevel p = membershipLevel p ↔
      p < 50000 ∨ (200000 ≤ p ∧ p < 300000) ∨ 1000000 ≤ p := by
  unfold applyMembershipLevel membershipLevel
  split_ifs <;> simp <;> omega

/-- The explicit operations leave a confirmed or canceled booking as it is: confirm and
cancel are rejected without a write, and the payment-deadline query writes nothing
once the payment status is no longer pending. -/
theorem terminal_under_explicit_operations (s : State) (id : PathId) (b : Booking)
    (hb : s.bookings[id.id]? = some b) (hst : b.status = .confirmed ∨ b.status = .canceled) :
    (confirmBooking s id.id).1 = s ∧
    (∀ cancelReason, (cancelBooking s id cancelReason).1 = s) ∧
    (b.paymentStatus ≠ .pending → ∀ now, (paymentDeadline s id now).1 = s) := by
  refine ⟨?_, ?_, ?_⟩
  · unfold confirmBooking confirmBookingTx
    rcases hst with hst | hst <;> simp [hb, hst, withTransaction]
  · intro cancelReason
    unfold cancelBooking cancelBookingTx
    by_cases hr : isBlank cancelReason = true
    · simp [hr, withTransaction]
    · rcases hst with hst | hst <;> simp [hr, hb, hst, withTransaction]
  · intro hp now
    rcases paymentDeadline_fst s id now with h | ⟨b', d, hb', -, -, -, hp', -⟩
    · exact h
    · rw [hb] at hb'
      cases hb'
      exact absurd hp' hp

/-- The scenario of the payment-deadline query: a bank-transfer booking created at time
1000 and queried six minutes later is canceled and its interval released; a further
query changes nothing. -/
theorem paymentDeadline_example :
    (run exampleState [.create requestBank 1000]).bookings.map
      (fun b => (b.status, b.paymentStatus, b.paymentDeadline)) =
      [(.pending, .pending, some 301000)] ∧
    (run exampleState [.create requestBank 1000]).rooms.map (fun r => r.currentbookings) =
      [[⟨some 0, 3, 5⟩], []] ∧
    (paymentDeadline (run exampleState [.create requestBank 1000]) 0 361000).2 = .expired ∧
    (run exampleState [.create requestBank 1000, .deadline 0 361000]).bookings.map
      (fun b => (b.status, b.paymentStatus)) = [(.canceled, .canceled)] ∧
    (run exampleState [.create requestBank 1000, .deadline 0 361000]).rooms.map
      (fun r => r.currentbookings) = [[], []] ∧
    run exampleState [.create requestBank 1000, .deadline 0 361000, .deadline 0 400000] =
      run exampleState [.create requestBank 1000, .deadline 0 361000] := by
  decide

/-! ### The resolution loop of `POST /api/discounts/apply` -/

theorem withTransactionR_ok_inv {α : Type} {s : State} {body : Except Error (State × α)}
    {a : α} (h : (withTransactionR s body).2 = .ok a) :
    body = .ok ((withTransactionR s body).1, a) := by
  cases body with
  | ok p =>
    obtain ⟨s', a'⟩ := p
    simp only [withTransactionR, Except.ok.injEq] at h
    simp [withTransactionR, h]
  | error e => simp [withTransactionR] at h

theorem withTransactionR_error {α : Type} {s : State} {body : Except Error (State × α)}
    {e : Error} (h : (withTransactionR s body).2 = .error e) :
    (withTransactionR s body).1 = s := by
  cases body with
  | ok p => simp [withTransactionR] at h
  | error e => rfl

/-- The entry that the loop records for an accepted candidate. -/
theorem acceptDiscount_ok_inv {totalAmount : ℚ} {user : Option (Nat × User)} {now : Int}
    {acc r : Resolution} {cand : Nat × Discount}
    (h : acceptDiscount totalAmount user now acc cand = .ok r) :
    r.totalDiscount = acc.totalDiscount + discountAmount totalAmount cand.2 ∧
    r.appliedDiscounts = acc.appliedDiscounts ++
      [{ id := cand.1, code := cand.2.code, type := cand.2.type,
         discount := discountAmount totalAmount cand.2 }] ∧
    r.db.bookings = acc.db.bookings ∧ r.db.rooms = acc.db.rooms ∧
    r.db.users = acc.db.users ∧ r.db.transactions = acc.db.transactions := by
  unfold acceptDiscount at h
  dsimp only at h
  split at h
  · split at h
    · split at h
      · exact absurd h (by simp)
      · simp only [Except.ok.injEq] at h
        subst h
        refine ⟨rfl, rfl, ?_, ?_, ?_, ?_⟩ <;>
        · dsimp only
          split
          · unfold markUsed
            split <;> rfl
          · rfl
    · simp only [Except.ok.injEq] at h
      subst h
      exact ⟨rfl, rfl, rfl, rfl, rfl, rfl⟩
  · simp only [Except.ok.injEq] at h
    subst h
    exact ⟨rfl, rfl, rfl, rfl, rfl, rfl⟩

/-- An iteration either skips the candidate or, every check passed, accepts it. -/
theorem applyStep_ok_inv {roomid : Nat} {totalAmount : ℚ} {user : Option (Nat × User)}
    {now : Int} {acc r : Resolution} {cand : Nat × Discount}
    (h : applyStep roomid totalAmount user now acc cand = .ok r) :
    r = acc ∨
    (outsideWindow now cand.2 = false ∧ outOfScope roomid cand.2 = false ∧
      cand.2.minBookingAmount ≤ totalAmount ∧ voucherBlocked acc.db user now cand.2 = false ∧
      memberBlocked user cand.2 = false ∧ accumulatedBlocked acc.db user cand.2 = false ∧
      stackBlocked cand.2 acc.appliedDiscounts = false ∧
      acceptDiscount totalAmount user now acc cand = .ok r) := by
  unfold applyStep at h
  split_ifs at h with h1 h2 h3 h4 h5 h6 h7
  any_goals exact Or.inl (Except.ok.inj h).symm
  exact Or.inr ⟨by simpa using h1, by simpa using h2, not_lt.mp h3, by simpa using h4,
    by simpa using h5, by simpa using h6, by simpa using h7, h⟩

/-- Induction over the loop: a property of the loop variables that every iteration on a
candidate of the list preserves holds at the end when it holds at the start. -/
theorem applyLoop_induction {roomid : Nat} {totalAmount : ℚ} {user : Option (Nat × User)}
    {now : Int} (P : Resolution → Prop) :
    ∀ (cands : List (Nat × Discount)) (acc r : Resolution),
      (∀ a cand b, cand ∈ cands → P a →
        applyStep roomid totalAmount user now a cand = .ok b → P b) →
      P acc → applyLoop roomid totalAmount user now cands acc = .ok r → P r := by
  intro cands
  induction cands with
  | nil =>
    intro acc r _ hacc h
    simp only [applyLoop, Except.ok.injEq] at h
    exact h ▸ hacc
  | cons cand rest ih =>
    intro acc r hstep hacc h
    unfold applyLoop at h
    cases hs : applyStep roomid totalAmount user now acc cand with
    | error e => rw [hs] at h; exact absurd h (by simp)
    | ok acc1 =>
      rw [hs] at h
      exact ih acc1 r
        (fun a c b hc ha hb => hstep a c b (List.mem_cons_of_mem _ hc) ha hb)
        (hstep acc cand acc1 (List.mem_cons_self _ _) hacc hs) h

theorem findCandidates_getElem? {s : State} {identifiers : List Identifier}
    {cand : Nat × Discount} (h : cand ∈ findCandidates s identifiers) :
    s.discounts[cand.1]? = some cand.2 := by
  unfold findCandidates at h
  exact List.mem_enum_iff_getElem?.mp (List.mem_filter.mp h).1

/-- What the loop of `POST /api/discounts/apply` guarantees at its end: the total is the
sum of the recorded amounts, every recorded entry is the entry of a candidate, and the
bookings, rooms, users and ledger are untouched. -/
theorem applyLoop_spec {roomid : Nat} {totalAmount : ℚ} {user : Option (Nat × User)}
    {now : Int} {s : State} {cands : List (Nat × Discount)} {r : Resolution}
    (h : applyLoop roomid totalAmount user now cands
      { db := s, totalDiscount := 0, appliedDiscounts := [] } = .ok r) :
    r.totalDiscount = (r.appliedDiscounts.map (fun e => e.discount)).sum ∧
    (∀ e ∈ r.appliedDiscounts, ∃ cand ∈ cands,
      e = { id := cand.1, code := cand.2.code, type := cand.2.type,
            discount := discountAmount totalAmount cand.2 }) ∧
    r.db.bookings = s.bookings ∧ r.db.rooms = s.rooms ∧ r.db.users = s.users ∧
    r.db.transactions = s.transactions := by
  refine applyLoop_induction
    (fun r => r.totalDiscount = (r.appliedDiscounts.map (fun e => e.discount)).sum ∧
      (∀ e ∈ r.appliedDiscounts, ∃ cand ∈ cands,
        e = { id := cand.1, code := cand.2.code, type := cand.2.type,
              discount := discountAmount totalAmount cand.2 }) ∧
      r.db.bookings = s.bookings ∧ r.db.rooms = s.rooms ∧ r.db.users = s.users ∧
      r.db.transactions = s.transactions)
    cands _ r ?_ ?_ h
  · intro a cand b hc ha hb
    rcases applyStep_ok_inv hb with hb | ⟨-, -, -, -, -, -, -, hb⟩
    · rw [hb]; exact ha
    · obtain ⟨h1, h2, h3, h4, h5, h6⟩ := acceptDiscount_ok_inv hb
      obtain ⟨a1, a2, a3, a4, a5, a6⟩ := ha
      refine ⟨?_, ?_, h3.trans a3, h4.trans a4, h5.trans a5, h6.trans a6⟩
      · rw [h1, h2, List.map_append, List.sum_append, a1]
        simp
      · intro e he
        rw [h2] at he
        rcases List.mem_append.mp he with he | he
        · exact a2 e he
        · exact ⟨cand, hc, by simpa using he⟩
  · exact ⟨by simp, by simp, rfl, rfl, rfl, rfl⟩

theorem applyDiscountsTx_ok_inv {s s' : State} {req : ApplyRequest} {now : Int}
    {resp : ApplyResponse} (h : applyDiscountsTx s req now = .ok (s', resp)) :
    ∃ room checkinDate checkoutDate user booking r,
      s.rooms[req.roomid]? = some room ∧ req.checkin = .date checkinDate ∧
      req.checkout = .date checkoutDate ∧ checkinDate < checkoutDate ∧
      applyUser s req.userId = .ok user ∧ applyBooking s req.bookingId = .ok booking ∧
      applyLoop req.roomid ((room.rentperday * days checkinDate checkoutDate : Int) : ℚ)
        user now (findCandidates s req.identifiers)
        { db := s, totalDiscount := 0, appliedDiscounts := [] } = .ok r ∧
      (s', resp) =
        finishApply ((room.rentperday * days checkinDate checkoutDate : Int) : ℚ) booking r := by
  unfold applyDiscountsTx at h
  split at h
  · exact absurd h (by simp)
  · split at h
    · exact absurd h (by simp)
    · rename_i room hroom
      split at h
      · rename_i ci co hci hco
        split at h
        · exact absurd h (by simp)
        · rename_i hlt
          dsimp only at h
          split at h
          · exact absurd h (by simp)
          · split at h
            · exact absurd h (by simp)
            · rename_i user huser
              split at h
              · exact absurd h (by simp)
              · rename_i booking hbooking
                split at h
                · exact absurd h (by simp)
                · rename_i r hr
                  simp only [Except.ok.injEq] at h
                  exact ⟨room, ci, co, user, booking, r, hroom, hci, hco, by omega, huser,
                    hbooking, hr, h.symm⟩
      · exact absurd h (by simp)

/-! ### The resolution loop of `POST /api/bookings/apply-promotions` -/

/-- The entry that `apply-promotions` records for an accepted voucher, and the counter
it increments. -/
theorem acceptPromotion_ok_inv {totalAmount : ℚ} {userId : Nat} {acc r : Promotion}
    {cand : Nat × Discount} (h : acceptPromotion totalAmount userId acc cand = .ok r) :
    r.totalDiscount = acc.totalDiscount + promotionAmount totalAmount cand.2 ∧
    r.appliedVouchers = acc.appliedVouchers ++
      [{ code := promotionRef cand, discount := promotionAmount totalAmount cand.2 }] ∧
    r.db.bookings = acc.db.bookings ∧ r.db.rooms = acc.db.rooms ∧
    r.db.users = acc.db.users ∧ r.db.transactions = acc.db.transactions ∧
    r.db.userVouchers = acc.db.userVouchers := by
  unfold acceptPromotion at h
  dsimp only at h
  split at h
  · exact absurd h (by simp)
  · simp only [Except.ok.injEq] at h
    subst h
    exact ⟨rfl, rfl, rfl, rfl, rfl, rfl, rfl⟩

/-- An iteration of `apply-promotions` either skips the voucher or, every check passed,
accepts it. -/
theorem promotionStep_ok_inv {roomid : Nat} {totalAmount : ℚ} {userId : Nat} {now : Int}
    {acc r : Promotion} {cand : Nat × Discount}
    (h : promotionStep roomid totalAmount userId now acc cand = .ok r) :
    r = acc ∨
    (outsideWindow now cand.2 = false ∧ outOfScope roomid cand.2 = false ∧
      cand.2.minBookingAmount ≤ totalAmount ∧ usageCount userId cand.2 < 1 ∧
      promotionStackBlocked cand.2 acc.appliedVouchers = false ∧
      acceptPromotion totalAmount userId acc cand = .ok r) := by
  unfold promotionStep at h
  split_ifs at h with h1 h2 h3 h4 h5
  any_goals exact Or.inl (Except.ok.inj h).symm
  exact Or.inr ⟨by simpa using h1, by simpa using h2, not_lt.mp h3, not_le.mp h4,
    by simpa using h5, h⟩

/-- Induction over the loop of `apply-promotions`. -/
theorem promotionLoop_induction {roomid : Nat} {totalAmount : ℚ} {userId : Nat} {now : Int}
    (P : Promotion → Prop) :
    ∀ (cands : List (Nat × Discount)) (acc r : Promotion),
      (∀ a cand b, cand ∈ cands → P a →
        promotionStep roomid totalAmount userId now a cand = .ok b → P b) →
      P acc → promotionLoop roomid totalAmount userId now cands acc = .ok r → P r := by
  intro cands
  induction cands with
  | nil =>
    intro acc r _ hacc h
    simp only [promotionLoop, Except.ok.injEq] at h
    exact h ▸ hacc
  | cons cand rest ih =>
    intro acc r hstep hacc h
    unfold promotionLoop at h
    cases hs : promotionStep roomid totalAmount userId now acc cand with
    | error e => rw [hs] at h; exact absurd h (by simp)
    | ok acc1 =>
      rw [hs] at h
      exact ih acc1 r
        (fun a c b hc ha hb => hstep a c b (List.mem_cons_of_mem _ hc) ha hb)
        (hstep acc cand acc1 (List.mem_cons_self _ _) hacc hs) h

theorem findPromotions_getElem? {s : State} {voucherCodes : List String}
    {cand : Nat × Discount} (h : cand ∈ findPromotions s voucherCodes) :
    s.discounts[cand.1]? = some cand.2 ∧ cand.2.type = .voucher := by
  unfold findPromotions at h
  obtain ⟨h1, h2⟩ := List.mem_filter.mp h
  simp only [Bool.and_eq_true, beq_iff_eq] at h2
  exact ⟨List.mem_enum_iff_getElem?.mp h1, h2.1.2⟩

/-- What the loop of `apply-promotions` guarantees at its end. -/
theorem promotionLoop_spec {roomid : Nat} {totalAmount : ℚ} {userId : Nat} {now : Int}
    {s : State} {cands : List (Nat × Discount)} {r : Promotion}
    (h : promotionLoop roomid totalAmount userId now cands
      { db := s, totalDiscount := 0, appliedVouchers := [] } = .ok r) :
    r.totalDiscount = (r.appliedVouchers.map (fun e => e.discount)).sum ∧
    (∀ e ∈ r.appliedVouchers, ∃ cand ∈ cands,
      e = { code := promotionRef cand, discount := promotionAmount totalAmount cand.2 }) ∧
    r.db.bookings = s.bookings ∧ r.db.rooms = s.rooms ∧ r.db.users = s.users ∧
    r.db.transactions = s.transactions ∧ r.db.userVouchers = s.userVouchers := by
  refine promotionLoop_induction
    (fun r => r.totalDiscount = (r.appliedVouchers.map (fun e => e.discount)).sum ∧
      (∀ e ∈ r.appliedVouchers, ∃ cand ∈ cands,
        e = { code := promotionRef cand, discount := promotionAmount totalAmount cand.2 }) ∧
      r.db.bookings = s.bookings ∧ r.db.rooms = s.rooms ∧ r.db.users = s.users ∧
      r.db.transactions = s.transactions ∧ r.db.userVouchers = s.userVouchers)
    cands _ r ?_ ?_ h
  · intro a cand b hc ha hb
    rcases promotionStep_ok_inv hb with hb | ⟨-, -, -, -, -, hb⟩
    · rw [hb]; exact ha
    · obtain ⟨h1, h2, h3, h4, h5, h6, h7⟩ := acceptPromotion_ok_inv hb
      obtain ⟨a1, a2, a3, a4, a5, a6, a7⟩ := ha
      refine ⟨?_, ?_, h3.trans a3, h4.trans a4, h5.trans a5, h6.trans a6, h7.trans a7⟩
      · rw [h1, h2, List.map_append, List.sum_append, a1]
        simp
      · intro e he
        rw [h2] at he
        rcases List.mem_append.mp he with he | he
        · exact a2 e he
        · exact ⟨cand, hc, by simpa using he⟩
  · exact ⟨by simp, by simp, rfl, rfl, rfl, rfl, rfl⟩

theorem applyPromotionsTx_ok_inv {s s' : State} {req : PromotionRequest} {now : Int}
    {resp : PromotionResponse} (h : applyPromotionsTx s req now = .ok (s', resp)) :
    ∃ booking userId room checkinDate checkoutDate r,
      s.bookings[req.bookingId]? = some booking ∧
      s.users.findIdx? (fun u => u.email == toLowerCase booking.email) = some userId ∧
      s.rooms[req.roomid]? = some room ∧ req.checkin = .date checkinDate ∧
      req.checkout = .date checkoutDate ∧ checkinDate < checkoutDate ∧
      promotionLoop req.roomid ((room.rentperday * days checkinDate checkoutDate : Int) : ℚ)
        userId now (findPromotions s req.voucherCodes)
        { db := s, totalDiscount := 0, appliedVouchers := [] } = .ok r ∧
      s' = { r.db with
             bookings := r.db.bookings.set req.bookingId
               { booking with
                 voucherDiscount := r.totalDiscount
                 appliedVouchers := r.appliedVouchers } } ∧
      resp = { totalAmount :=
                 max 0 (((room.rentperday * days checkinDate checkoutDate : Int) : ℚ) -
                   r.totalDiscount)
               appliedVouchers := r.appliedVouchers } := by
  unfold applyPromotionsTx at h
  split at h
  · exact absurd h (by simp)
  · rename_i booking hbooking
    split at h
    · exact absurd h (by simp)
    · split at h
      · exact absurd h (by simp)
      · rename_i userId huser
        split at h
        · rename_i ci co hci hco
          split at h
          · exact absurd h (by simp)
          · rename_i hlt
            split at h
            · exact absurd h (by simp)
            · rename_i room hroom
              dsimp only at h
              split at h
              · exact absurd h (by simp)
              · split at h
                · exact absurd h (by simp)
                · rename_i r hr
                  simp only [Except.ok.injEq, Prod.mk.injEq] at h
                  exact ⟨booking, userId, room, ci, co, r, hbooking, huser, hroom, hci, hco,
                    by omega, hr, h.1.symm, h.2.symm⟩
        · exact absurd h (by simp)

/-! ### The amount of an accepted discount -/

theorem discountAmount_rule (bookingAmount : ℚ) (d : Discount) :
    amountRule bookingAmount d (discountAmount bookingAmount d) := by
  unfold amountRule discountAmount
  refine ⟨?_, ?_, ?_⟩
  · intro ht c hc hc0
    simp only [ht, hc]
    split_ifs with h
    · exact (min_eq_right (le_of_lt h.2)).symm
    · have h' : bookingAmount * d.discountValue / 100 ≤ c :=
        not_lt.mp (fun hlt => h ⟨hc0, hlt⟩)
      exact (min_eq_left h').symm
  · intro ht hc
    rcases hc with hc | hc <;> simp [ht, hc]
  · intro ht
    simp [ht]

theorem promotionAmount_eq (bookingAmount : ℚ) (d : Discount) :
    promotionAmount bookingAmount d = discountAmount bookingAmount d := rfl

theorem findPromotions_code {s : State} {voucherCodes : List String}
    {cand : Nat × Discount} (h : cand ∈ findPromotions s voucherCodes) :
    ∃ c, cand.2.code = some c ∧ c ∈ voucherCodes := by
  unfold findPromotions at h
  obtain ⟨-, h2⟩ := List.mem_filter.mp h
  simp only [Bool.and_eq_true, List.any_eq_true, beq_iff_eq] at h2
  obtain ⟨c, hc, hcode⟩ := h2.1.1
  exact ⟨c, hcode, hc⟩

/-! ### Personal voucher records in `POST /api/discounts/apply` -/

theorem findUserVoucher_some {s : State} {userId : Nat} {code : Option String} {now : Int}
    {i : Nat} (h : findUserVoucher s userId code now = some i) :
    ∃ v, s.userVouchers[i]? = some v ∧ v.userId = userId ∧ some v.voucherCode = code ∧
      v.isUsed = false ∧ v.expiryDate ≥ now := by
  unfold findUserVoucher at h
  obtain ⟨hlt, hp, -⟩ := List.findIdx?_eq_some_iff_getElem.mp h
  simp only [Bool.and_eq_true, beq_iff_eq, Bool.not_eq_true', decide_eq_true_eq] at hp
  exact ⟨s.userVouchers[i], List.getElem?_eq_getElem hlt, hp.1.1.1, hp.1.1.2, hp.1.2, hp.2⟩

/-- The personal voucher records after an accepted candidate: for a voucher and an
identified user the record found by the check is marked used, otherwise the records are
untouched. -/
theorem acceptDiscount_userVouchers {totalAmount : ℚ} {user : Option (Nat × User)}
    {now : Int} {acc r : Resolution} {cand : Nat × Discount}
    (h : acceptDiscount totalAmount user now acc cand = .ok r) :
    (∀ userId u i v, user = some (userId, u) → cand.2.type = .voucher →
      findUserVoucher acc.db userId cand.2.code now = some i →
      acc.db.userVouchers[i]? = some v →
      r.db.userVouchers = acc.db.userVouchers.set i { v with isUsed := true }) ∧
    (user = none ∨ cand.2.type ≠ .voucher → r.db.userVouchers = acc.db.userVouchers) := by
  unfold acceptDiscount at h
  dsimp only at h
  split at h
  · rename_i uid u0
    split at h
    · rename_i hty
      split at h
      · exact absurd h (by simp)
      · simp only [Except.ok.injEq] at h
        subst h
        constructor
        · intro userId u i v hu _ hf hv
          simp only [Option.some.injEq, Prod.mk.injEq] at hu
          obtain ⟨rfl, rfl⟩ := hu
          simp only [hf, markUsed, hv]
        · rintro (hu | hne)
          · exact absurd hu (by simp)
          · exact absurd hty hne
    · rename_i hty
      simp only [Except.ok.injEq] at h
      subst h
      exact ⟨fun _ _ _ _ _ hv => absurd hv hty, fun _ => rfl⟩
  · simp only [Except.ok.injEq] at h
    subst h
    exact ⟨fun _ _ _ _ hu => absurd hu (by simp), fun _ => rfl⟩

/-- What the loop guarantees about personal voucher records for an identified user:
every stored record is as it was or marked used, and each recorded voucher entry comes
with a record of the user for its code that was unused and unexpired at the start and is
marked used at the end. -/
theorem applyLoop_userVouchers {roomid : Nat} {totalAmount : ℚ} {userId : Nat} {u : User}
    {now : Int} {s : State} {cands : List (Nat × Discount)} {r : Resolution}
    (h : applyLoop roomid totalAmount (some (userId, u)) now cands
      { db := s, totalDiscount := 0, appliedDiscounts := [] } = .ok r) :
    ∀ e ∈ r.appliedDiscounts, e.type = .voucher →
      ∃ (i : Nat) (v : UserVoucher), s.userVouchers[i]? = some v ∧ v.userId = userId ∧
        some v.voucherCode = e.code ∧ v.isUsed = false ∧ v.expiryDate ≥ now ∧
        r.db.userVouchers[i]? = some { v with isUsed := true } := by
  have key := applyLoop_induction
    (fun r =>
      (∀ (i : Nat) (v' : UserVoucher), r.db.userVouchers[i]? = some v' →
        ∃ v : UserVoucher, s.userVouchers[i]? = some v ∧ (v' = v ∨ v' = { v with isUsed := true })) ∧
      ∀ e ∈ r.appliedDiscounts, e.type = .voucher →
        ∃ (i : Nat) (v : UserVoucher), s.userVouchers[i]? = some v ∧ v.userId = userId ∧
          some v.voucherCode = e.code ∧ v.isUsed = false ∧ v.expiryDate ≥ now ∧
          r.db.userVouchers[i]? = some { v with isUsed := true })
    cands _ r ?_ ?_ h
  · exact key.2
  · intro a cand b _ ha hb
    rcases applyStep_ok_inv hb with hb | ⟨-, -, -, hvb, -, -, -, hb⟩
    · rw [hb]; exact ha
    · obtain ⟨-, happ, -⟩ := acceptDiscount_ok_inv hb
      obtain ⟨hmark, hsame⟩ := acceptDiscount_userVouchers hb
      obtain ⟨a1, a2⟩ := ha
      by_cases hty : cand.2.type = .voucher
      · have hfind : ∃ i, findUserVoucher a.db userId cand.2.code now = some i := by
          unfold voucherBlocked at hvb
          simp only [hty, beq_self_eq_true, Bool.true_and, Option.isNone_eq_false_iff] at hvb
          exact Option.isSome_iff_exists.mp hvb
        obtain ⟨i, hfind⟩ := hfind
        obtain ⟨v', hv', hu', hc', hused', hexp'⟩ := findUserVoucher_some hfind
        obtain ⟨v, hv, hvv⟩ := a1 i v' hv'
        have hvv' : v' = v := by
          rcases hvv with hvv | hvv
          · exact hvv
          · rw [hvv] at hused'
            exact absurd hused' (by simp)
        subst hvv'
        have hdb := hmark userId u i v' rfl hty hfind hv'
        have hlen := getElem?_lt_length hv'
        constructor
        · intro j w hw
          rw [hdb] at hw
          by_cases hij : i = j
          · subst hij
            rw [List.getElem?_set_self hlen] at hw
            exact ⟨v', hv, Or.inr (Option.some.inj hw).symm⟩
          · rw [List.getElem?_set_ne hij] at hw
            exact a1 j w hw
        · intro e he hev
          rw [happ] at he
          rcases List.mem_append.mp he with he | he
          · obtain ⟨j, w, hw, h1, h2, h3, h4, h5⟩ := a2 e he hev
            refine ⟨j, w, hw, h1, h2, h3, h4, ?_⟩
            rw [hdb]
            by_cases hij : i = j
            · subst hij
              rw [hv] at hw
              cases hw
              exact List.getElem?_set_self hlen
            · rw [List.getElem?_set_ne hij]
              exact h5
          · simp only [List.mem_singleton] at he
            subst he
            refine ⟨i, v', hv, hu', hc', hused', hexp', ?_⟩
            rw [hdb]
            exact List.getElem?_set_self hlen
      · have hdb := hsame (Or.inr hty)
        constructor
        · intro j w hw
          rw [hdb] at hw
          exact a1 j w hw
        · intro e he hev
          rw [happ] at he
          rcases List.mem_append.mp he with he | he
          · rw [hdb]
            exact a2 e he hev
          · simp only [List.mem_singleton] at he
            subst he
            exact absurd hev hty
  · constructor
    · intro i v' hv'
      exact ⟨v', hv', Or.inl rfl⟩
    · intro e he
      exact absurd he (List.not_mem_nil e)

/-! ### Accrual -/

theorem days_eq_ceil (checkinDate checkoutDate : Int) :
    days checkinDate checkoutDate =
      Int.ceil (((checkoutDate - checkinDate : Int) : ℚ) / 86400000) := by
  unfold days
  rw [← neg_neg (Int.ceil _), ← Int.floor_neg, ← neg_div, ← Int.cast_neg, neg_sub]
  have h := Rat.floor_intCast_div_natCast (checkinDate - checkoutDate) 86400000
  norm_num at h ⊢
  rw [h]

theorem accrualAmount_eq (room : Room) (b : Booking) :
    ((room.rentperday * days b.checkin b.checkout : Int) : ℚ) - b.voucherDiscount =
      accrualAmount room b := by
  unfold accrualAmount
  rw [days_eq_ceil]
  push_cast
  rfl

theorem any_bookingId_eq_false {l : List Transaction} {id : Nat}
    (h : ∀ t ∈ l, t.bookingId ≠ some id) : l.any (fun t => t.bookingId == some id) = false := by
  rw [List.any_eq_false]
  intro t ht
  simpa using h t ht

/-! ### Redeem -/

/-- The body of Redeem returns exactly when the four checks pass, and then with the
debit, the ledger entry and the personal voucher written. -/
theorem redeemTx_ok_iff {s : State} {userId rewardId : Nat} {user : User} {reward : Reward}
    (hu : s.users[userId]? = some user) (hr : s.rewards[rewardId]? = some reward)
    (s' : State) :
    redeemTx s userId rewardId = .ok s' ↔
      redeemLevel user.points = reward.membershipLevel ∧
      reward.pointsRequired ≤ user.points ∧
      s.userVouchers.any
        (fun v => v.userId == userId && v.voucherCode == reward.voucherCode) = false ∧
      ∃ discount,
        s.discounts.find? (fun d => d.code == some reward.voucherCode && d.type == .voucher) =
          some discount ∧
        s' = { s with
               users := s.users.set userId
                 { user with points := user.points - reward.pointsRequired }
               transactions := s.transactions ++
                 [{ userId := userId, bookingId := none, amount := none,
                    points := -reward.pointsRequired, type := .reward_redemption,
                    status := .pending }]
               userVouchers := s.userVouchers ++
                 [{ userId := userId, voucherCode := reward.voucherCode, isUsed := false,
                    expiryDate := discount.endDate }] } := by
  unfold redeemTx
  simp only [hr, hu]
  constructor
  · intro h
    split_ifs at h with h1 h2 h3
    split at h
    · exact absurd h (by simp)
    · rename_i discount hd
      simp only [Except.ok.injEq] at h
      exact ⟨not_not.mp h1, not_lt.mp h2, by simpa using h3, discount, hd, h.symm⟩
  · rintro ⟨h1, h2, h3, discount, hd, hs'⟩
    rw [if_neg (not_not.mpr h1), if_neg (not_lt.mpr h2), if_neg (by simp [h3])]
    simp only [hd, hs']

theorem find?_voucher_isSome {discounts : List Discount} {code : String} :
    (∃ d, discounts.find? (fun d => d.code == some code && d.type == .voucher) = some d) ↔
      ∃ d ∈ discounts, d.code = some code ∧ d.type = .voucher := by
  constructor
  · rintro ⟨d, hd⟩
    have hp := List.find?_some hd
    simp only [Bool.and_eq_true, beq_iff_eq] at hp
    exact ⟨d, List.mem_of_find?_eq_some hd, hp⟩
  · rintro ⟨d, hmem, hc, ht⟩
    cases hf : discounts.find? (fun d => d.code == some code && d.type == .voucher) with
    | some d' => exact ⟨d', rfl⟩
    | none =>
      rw [List.find?_eq_none] at hf
      exact absurd (by simp [hc, ht]) (hf d hmem)

/-! ### Order of the stored discounts -/

/-- The candidates reach the loop in the order of the collection: two databases that
store the vouchers `A` (not stackable) and `C` (stackable) in opposite orders answer
the same anonymous request with different applied lists and net amounts. -/
theorem applyDiscounts_order_example :
    ((applyDiscounts
        { discountState with discounts := [voucher "A" 100000 false, voucher "C" 20000 true] }
        { applyRequest [.code "A", .code "C"] with userId := none } 500).2.map
      (fun resp => (resp.totalAmount, resp.appliedDiscounts.map (fun e => e.code)))) =
      .ok (1880000, [some "A", some "C"]) ∧
    ((applyDiscounts
        { discountState with discounts := [voucher "C" 20000 true, voucher "A" 100000 false] }
        { applyRequest [.code "A", .code "C"] with userId := none } 500).2.map
      (fun resp => (resp.totalAmount, resp.appliedDiscounts.map (fun e => e.code)))) =
      .ok (1980000, [some "C"]) := by
  decide!

/-! ### The handlers with a canonical path parameter -/

/-- Cancellation with the path parameter written in canonical form: the booking is
canceled with payment canceled and the given reason; in its room (whose intervals all
carry a booking identifier) the reserved list is the previous list without the
intervals of that booking, the others unchanged and in order; and a sanitized request
for the same room and dates is then accepted by both creation handlers when the dates
conflict with no interval of another booking. -/
theorem cancelBooking_releases (s : State) (id : Nat) (cancelReason : String) (b : Booking)
    (room : Room) (hb : s.bookings[id]? = some b) (hroom : s.rooms[b.roomid]? = some room)
    (hids : ∀ e ∈ room.currentbookings, e.bookingId ≠ none)
    (hok : (cancelBooking s id cancelReason).2 = .ok ()) :
    (cancelBooking s id cancelReason).1.bookings =
      s.bookings.set id
        { b with
          status := .canceled, paymentStatus := .canceled,
          cancelReason := some cancelReason } ∧
    (cancelBooking s id cancelReason).1.rooms =
      s.rooms.set b.roomid
        { room with
          currentbookings := room.currentbookings.filter (fun e => e.bookingId ≠ some id) } ∧
    (∀ (req : BookingRequest) (now a c : Int), sanitized req a c → req.roomid = b.roomid →
      req.checkin = .date b.checkin → req.checkout = .date b.checkout →
      b.checkin < b.checkout → room.availabilityStatus = .available →
      a + c ≤ room.maxcount → wellFormedIntervals room.currentbookings →
      (∀ e ∈ room.currentbookings, e.bookingId ≠ some id →
        ¬ overlaps b.checkin b.checkout e.checkin e.checkout) →
      (createBooking (cancelBooking s id cancelReason).1 req now).2 = .ok () ∧
      (bookRoom (cancelBooking s id cancelReason).1 req now).2 = .ok ()) := by
  unfold cancelBooking at hok ⊢
  obtain ⟨s', hs'⟩ := withTransaction_snd_ok.mp hok
  obtain ⟨b0, hb0, -, -, heq⟩ := cancelBookingTx_ok_inv hs'
  rw [hb] at hb0
  cases hb0
  rw [hs', withTransaction_ok]
  rw [releaseInterval_of_some hroom, filter_keepOther id hids] at heq
  subst heq
  refine ⟨rfl, rfl, ?_⟩
  intro req now a c hreq hrid hci hco hlt hav hcap hwf hfree
  have hlen : b.roomid < s.rooms.length := by
    rcases Nat.lt_or_ge b.roomid s.rooms.length with h | h
    · exact h
    · rw [List.getElem?_eq_none h] at hroom
      exact absurd hroom (by simp)
  let s1 : State :=
    { s with
      bookings := s.bookings.set id
        { b with
          status := .canceled, paymentStatus := .canceled,
          cancelReason := some cancelReason }
      rooms := s.rooms.set b.roomid
        { room with
          currentbookings := room.currentbookings.filter (fun e => e.bookingId ≠ some id) } }
  have hroom1 : s1.rooms[req.roomid]? =
      some { room with
             currentbookings := room.currentbookings.filter (fun e => e.bookingId ≠ some id) } := by
    rw [hrid]
    show (s.rooms.set b.roomid _)[b.roomid]? = _
    rw [List.getElem?_set_self hlen]
  have hbk : isRoomBooked
      { room with
        currentbookings := room.currentbookings.filter (fun e => e.bookingId ≠ some id) }
      b.checkin b.checkout = false := by
    unfold isRoomBooked
    rw [List.any_eq_false]
    intro e he ht
    rw [List.mem_filter] at he
    obtain ⟨he1, he2⟩ := he
    exact hfree e he1 (by simpa using he2) (overlaps_of_overlapTest hlt (hwf e he1) ht)
  obtain ⟨b1, -, hok1⟩ := createBookingTx_ok s1 now hreq hci hco hlt hroom1 hav
    hcap hbk
  obtain ⟨b2, -, hok2⟩ := bookRoomTx_ok s1 now hreq hci hco hlt hroom1 hav
    hcap hbk
  constructor
  · unfold createBooking
    show (withTransaction s1 (createBookingTx s1 req now)).2 = .ok ()
    rw [hok1]
    rfl
  · unfold bookRoom
    show (withTransaction s1 (bookRoomTx s1 req now)).2 = .ok ()
    rw [hok2]
    rfl

/-- Example: booking 0 of `backToBackState` is canceled with reason "change" through
the canonical form of its identifier. -/
theorem cancelBooking_releases_witness :
    (cancelBooking backToBackState 0 "change").1.bookings =
      backToBackState.bookings.set 0
        { bookingA with
          status := .canceled, paymentStatus := .canceled, cancelReason := some "change" } ∧
    (cancelBooking backToBackState 0 "change").1.rooms =
      backToBackState.rooms.set bookingA.roomid
        { roomWithAB with
          currentbookings := roomWithAB.currentbookings.filter (fun e => e.bookingId ≠ some 0) } ∧
    (∀ (req : BookingRequest) (now a c : Int), sanitized req a c →
      req.roomid = bookingA.roomid →
      req.checkin = .date bookingA.checkin → req.checkout = .date bookingA.checkout →
      bookingA.checkin < bookingA.checkout → roomWithAB.availabilityStatus = .available →
      a + c ≤ roomWithAB.maxcount → wellFormedIntervals roomWithAB.currentbookings →
      (∀ e ∈ roomWithAB.currentbookings, e.bookingId ≠ some 0 →
        ¬ overlaps bookingA.checkin bookingA.checkout e.checkin e.checkout) →
      (createBooking (cancelBooking backToBackState 0 "change").1 req now).2 = .ok () ∧
      (bookRoom (cancelBooking backToBackState 0 "change").1 req now).2 = .ok ()) :=
  cancelBooking_releases backToBackState 0 "change" bookingA roomWithAB (by decide) (by decide)
    (by decide) (by decide)

/-- Reassignment with the path parameter written in canonical form, for an existing
booking with well-formed dates whose interval is recorded in its room and a new room
with well-formed intervals: it succeeds exactly when the booking is not canceled and
the new room exists, is available, has the booking's room type and holds no interval
overlapping the booking's dates. On success the old room holds no interval of the
booking, the new room's list is its previous list followed by one interval with the
booking's identifier and dates, and the booking differs only in its room reference; on
rejection the database is unchanged. -/
theorem assignRoom_spec (s : State) (id newRoomId : Nat) (b : Booking)
    (hb : s.bookings[id]? = some b) (hlt : b.checkin < b.checkout)
    (hown : ∀ r, s.rooms[b.roomid]? = some r →
      (⟨some id, b.checkin, b.checkout⟩ : CurrentBooking) ∈ r.currentbookings)
    (hwf : ∀ r, s.rooms[newRoomId]? = some r → wellFormedIntervals r.currentbookings) :
    ((assignRoom s id newRoomId).2 = .ok () ↔
      b.status ≠ .canceled ∧ ∃ newRoom, s.rooms[newRoomId]? = some newRoom ∧
        newRoom.availabilityStatus = .available ∧ newRoom.type = b.roomType ∧
        ∀ e ∈ newRoom.currentbookings,
          ¬ overlaps b.checkin b.checkout e.checkin e.checkout) ∧
    ((assignRoom s id newRoomId).2 = .ok () →
      (∀ r, (assignRoom s id newRoomId).1.rooms[b.roomid]? = some r →
        ∀ e ∈ r.currentbookings, e.bookingId ≠ some id) ∧
      (∀ newRoom, s.rooms[newRoomId]? = some newRoom →
        (assignRoom s id newRoomId).1.rooms[newRoomId]? =
          some { newRoom with
                 currentbookings :=
                   newRoom.currentbookings ++ [⟨some id, b.checkin, b.checkout⟩] }) ∧
      (assignRoom s id newRoomId).1.bookings =
        s.bookings.set id { b with roomid := newRoomId }) ∧
    ((assignRoom s id newRoomId).2 ≠ .ok () → (assignRoom s id newRoomId).1 = s) := by
  unfold assignRoom
  refine ⟨?_, ?_, ?_⟩
  · rw [withTransaction_snd_ok]
    constructor
    · rintro ⟨s', hs'⟩
      obtain ⟨hc, newRoom, hroom, hav, hty, hbk, -⟩ := (assignRoomTx_ok_iff s' hb).mp hs'
      exact ⟨hc, newRoom, hroom, hav, hty,
        (isRoomBooked_eq_false_iff hlt (hwf newRoom hroom)).mp hbk⟩
    · rintro ⟨hc, newRoom, hroom, hav, hty, hfree⟩
      exact ⟨_, (assignRoomTx_ok_iff _ hb).mpr ⟨hc, newRoom, hroom, hav, hty,
        (isRoomBooked_eq_false_iff hlt (hwf newRoom hroom)).mpr hfree, rfl⟩⟩
  · intro hok
    obtain ⟨s', hs'⟩ := withTransaction_snd_ok.mp hok
    obtain ⟨hc, newRoom, hroom, hav, hty, hbk, heq⟩ := (assignRoomTx_ok_iff s' hb).mp hs'
    have hne : b.roomid ≠ newRoomId := by
      intro h
      have hmem := hown newRoom (by rw [h]; exact hroom)
      have : isRoomBooked newRoom b.checkin b.checkout = true := by
        unfold isRoomBooked
        rw [List.any_eq_true]
        exact ⟨_, hmem, overlapTest_self _ _⟩
      rw [this] at hbk
      exact absurd hbk (by simp)
    rw [hs', withTransaction_ok]
    subst heq
    refine ⟨?_, ?_, rfl⟩
    · intro r hr e he
      have hr' : (releaseInterval s.rooms b.roomid id)[b.roomid]? = some r := by
        rw [← hr]
        exact (pushCurrentBooking_getElem?_ne (Ne.symm hne)).symm
      cases hold : s.rooms[b.roomid]? with
      | none =>
        have : (releaseInterval s.rooms b.roomid id) = s.rooms := by
          unfold releaseInterval; rw [hold]
        rw [this, hold] at hr'
        exact absurd hr' (by simp)
      | some oldRoom =>
        rw [releaseInterval_getElem?_self hold] at hr'
        cases hr'
        exact keepOther_bookingId (List.mem_filter.mp he).2
    · intro newRoom' hroom'
      rw [hroom] at hroom'
      cases hroom'
      have h1 : (releaseInterval s.rooms b.roomid id)[newRoomId]? = some newRoom := by
        rw [releaseInterval_getElem?_ne hne]
        exact hroom
      exact pushCurrentBooking_getElem?_self h1 _
  · intro hrej
    cases hbody : assignRoomTx s id newRoomId with
    | ok s' =>
      rw [hbody] at hrej
      exact absurd rfl hrej
    | error e => rfl

/-- Example: booking 0 of `backToBackState` moves from room 0 to the free room 1. -/
theorem assignRoom_spec_witness :
    ((assignRoom backToBackState 0 1).2 = .ok () ↔
      bookingA.status ≠ .canceled ∧ ∃ newRoom, backToBackState.rooms[1]? = some newRoom ∧
        newRoom.availabilityStatus = .available ∧ newRoom.type = bookingA.roomType ∧
        ∀ e ∈ newRoom.currentbookings,
          ¬ overlaps bookingA.checkin bookingA.checkout e.checkin e.checkout) ∧
    ((assignRoom backToBackState 0 1).2 = .ok () →
      (∀ r, (assignRoom backToBackState 0 1).1.rooms[bookingA.roomid]? = some r →
        ∀ e ∈ r.currentbookings, e.bookingId ≠ some 0) ∧
      (∀ newRoom, backToBackState.rooms[1]? = some newRoom →
        (assignRoom backToBackState 0 1).1.rooms[1]? =
          some { newRoom with
                 currentbookings :=
                   newRoom.currentbookings ++ [⟨some 0, bookingA.checkin, bookingA.checkout⟩] }) ∧
      (assignRoom backToBackState 0 1).1.bookings =
        backToBackState.bookings.set 0 { bookingA with roomid := 1 }) ∧
    ((assignRoom backToBackState 0 1).2 ≠ .ok () → (assignRoom backToBackState 0 1).1 = backToBackState) :=
  assignRoom_spec backToBackState 0 1 bookingA (by decide) (by decide)
    (by
      intro r hr
      have h : backToBackState.rooms[bookingA.roomid]? = some roomWithAB := by decide
      rw [h] at hr
      cases hr
      decide)
    (by
      intro r hr
      have h : backToBackState.rooms[1]? = some exampleRoom := by decide
      rw [h] at hr
      cases hr
      decide)

/-- Booking/room consistency when every path parameter is written in canonical form:
in every state reached from an empty state by creations through either handler,
cancellations, reassignments, extensions, confirmations and payment-deadline queries,
every booking that is not canceled has exactly one interval in the room it references,
with its identifier and its current checkin and checkout, and no canceled booking has
an interval in any room. -/
theorem run_consistent (s : State) (ops : List Op) (h : emptyState s)
    (hops : ∀ op ∈ ops, op.canonical) : consistent (run s ops) := by
  obtain ⟨h1, h2⟩ := invariant_of_emptyState h
  obtain ⟨g1, g2⟩ := invariant_run ops s hops h1 h2
  exact consistent_of_invariant g1 g2

/-- Example: two bookings, an extension, a reassignment, a confirmation, a cancellation
and a deadline query from `exampleState`, all with canonical identifiers. -/
theorem run_consistent_witness :
    consistent
      (run exampleState
        [.create requestA 0, .bookroom requestBank 0, .extend 0 (.date 4), .assign 0 1,
         .confirm 0, .cancel 0 "change", .deadline 1 400000]) :=
  run_consistent exampleState _ (by decide) (by decide)

/-- In an answer of `POST /api/discounts/apply` to a request that names a user, every
applied voucher entry comes with a personal voucher record of that user for the code of
the entry which was unused and not expired before the request, and which is marked
used after it. -/
theorem voucher_needs_personal_record (s : State) (req : ApplyRequest) (now : Int)
    (resp : ApplyResponse) (userId : Nat)
    (hok : (applyDiscounts s req now).2 = .ok resp) (huser : req.userId = some userId) :
    ∀ e ∈ resp.appliedDiscounts, e.type = .voucher →
      ∃ (i : Nat) (v : UserVoucher), s.userVouchers[i]? = some v ∧ v.userId = userId ∧
        some v.voucherCode = e.code ∧ v.isUsed = false ∧ v.expiryDate ≥ now ∧
        (applyDiscounts s req now).1.userVouchers[i]? = some { v with isUsed := true } := by
  unfold applyDiscounts at hok ⊢
  have htx := withTransactionR_ok_inv hok
  obtain ⟨room, ci, co, user, booking, r, -, -, -, -, hu, -, hloop, hfin⟩ :=
    applyDiscountsTx_ok_inv htx
  unfold applyUser at hu
  rw [huser] at hu
  dsimp only at hu
  split at hu
  · exact absurd hu (by simp)
  · rename_i u _
    simp only [Except.ok.injEq] at hu
    subst hu
    have hspec := applyLoop_userVouchers hloop
    unfold finishApply at hfin
    simp only [Prod.mk.injEq] at hfin
    obtain ⟨hs', hresp⟩ := hfin
    rw [hresp, hs']
    have hdb : ∀ db : State,
        (match booking with
          | some (bookingId, b) =>
            { db with
              bookings := db.bookings.set bookingId
                { b with
                  voucherDiscount := r.totalDiscount
                  appliedVouchers := r.appliedDiscounts.map
                    (fun d => { code := voucherRef d, discount := d.discount }) } }
          | none => db).userVouchers = db.userVouchers := by
      intro db
      cases booking with
      | none => rfl
      | some p => rfl
    intro e he hev
    obtain ⟨i, v, h1, h2, h3, h4, h5, h6⟩ := hspec e he hev
    exact ⟨i, v, h1, h2, h3, h4, h5, by rw [hdb]; exact h6⟩

/-- Example: user 0 applies the code `SALE10` in `discountState`. -/
theorem voucher_needs_personal_record_witness :
    ∃ (i : Nat) (v : UserVoucher), discountState.userVouchers[i]? = some v ∧
      v.userId = 0 ∧ some v.voucherCode = some "SALE10" ∧ v.isUsed = false ∧
      v.expiryDate ≥ 500 ∧
      (applyDiscounts discountState (applyRequest [.code "SALE10"]) 500).1.userVouchers[i]? =
        some { v with isUsed := true } :=
  voucher_needs_personal_record discountState (applyRequest [.code "SALE10"]) 500
    responseSale10 0 (by decide!) rfl
    { id := 0, code := some "SALE10", type := .voucher, discount := 150000 }
    (List.mem_singleton.mpr rfl) rfl

/-- The payment-deadline query with the path parameter written in canonical form, for a
bank-transfer booking with a payment deadline: the query at time `now` changes the
database exactly when `deadline <= now` and the payment is pending; the booking is then
canceled with payment canceled, the reserved list of its room loses the intervals of
the booking, nothing else changes, and every later query leaves the database as it
is. -/
theorem paymentDeadline_lazy (s : State) (id : Nat) (now : Int) (b : Booking)
    (deadline : Int) (hb : s.bookings[id]? = some b)
    (hm : b.paymentMethod = "bank_transfer") (hd : b.paymentDeadline = some deadline) :
    ((paymentDeadline s id now).1 ≠ s ↔ deadline ≤ now ∧ b.paymentStatus = .pending) ∧
    (deadline ≤ now ∧ b.paymentStatus = .pending →
      (paymentDeadline s id now).1 =
        { s with
          bookings := s.bookings.set id
            { b with status := .canceled, paymentStatus := .canceled }
          rooms := releaseInterval s.rooms b.roomid id } ∧
      (∀ room, s.rooms[b.roomid]? = some room →
        (∀ e ∈ room.currentbookings, e.bookingId ≠ none) →
        (paymentDeadline s id now).1.rooms =
          s.rooms.set b.roomid
            { room with
              currentbookings :=
                room.currentbookings.filter (fun e => e.bookingId ≠ some id) }) ∧
      ∀ later, (paymentDeadline (paymentDeadline s id now).1 id later).1 =
        (paymentDeadline s id now).1) := by
  have hexp : deadline ≤ now ∧ b.paymentStatus = .pending →
      (paymentDeadline s id now).1 =
        { s with
          bookings := s.bookings.set id
            { b with status := .canceled, paymentStatus := .canceled }
          rooms := releaseInterval s.rooms b.roomid id } := by
    intro h
    unfold paymentDeadline
    simp only [hb, hm, hd]
    have h' : deadline - now ≤ 0 ∧ b.paymentStatus = .pending := ⟨by omega, h.2⟩
    simp [h']
  have hlen := getElem?_lt_length hb
  refine ⟨⟨?_, ?_⟩, ?_⟩
  · intro hne
    rcases paymentDeadline_fst s id now with h | ⟨b', d, hb', -, hd', hle, hp, -⟩
    · exact absurd h hne
    · rw [hb] at hb'
      cases hb'
      rw [hd] at hd'
      cases hd'
      exact ⟨by omega, hp⟩
  · intro h heq
    have h1 := congrArg (fun t => t.bookings[id]?) ((hexp h).symm.trans heq)
    simp only [List.getElem?_set_self hlen, hb, Option.some.injEq] at h1
    have h2 := congrArg (fun t => t.paymentStatus) h1
    simp only [h.2] at h2
    exact absurd h2 (by decide)
  · intro h
    refine ⟨hexp h, ?_, ?_⟩
    · intro room hroom hids
      rw [hexp h]
      show releaseInterval s.rooms b.roomid id = _
      rw [releaseInterval_of_some hroom, filter_keepOther id hids]
    · intro later
      rcases paymentDeadline_fst (paymentDeadline s id now).1 id later with
        h' | ⟨b', d, hb', -, -, -, hp, -⟩
      · exact h'
      · rw [hexp h] at hb'
        simp only [List.getElem?_set_self hlen, Option.some.injEq] at hb'
        rw [← hb'] at hp
        exact PaymentStatus.noConfusion hp

/-- Example: the bank-transfer booking created at time 1000 (deadline 301000) and
queried six minutes after its creation. -/
theorem paymentDeadline_lazy_witness :
    ((paymentDeadline (run exampleState [.create requestBank 1000]) 0 361000).1 ≠
        run exampleState [.create requestBank 1000] ↔
      (301000 : Int) ≤ 361000 ∧ bookingBank.paymentStatus = .pending) ∧
    ((301000 : Int) ≤ 361000 ∧ bookingBank.paymentStatus = .pending →
      (paymentDeadline (run exampleState [.create requestBank 1000]) 0 361000).1 =
        { run exampleState [.create requestBank 1000] with
          bookings := (run exampleState [.create requestBank 1000]).bookings.set 0
            { bookingBank with status := .canceled, paymentStatus := .canceled }
          rooms := releaseInterval (run exampleState [.create requestBank 1000]).rooms
            bookingBank.roomid 0 } ∧
      (∀ room, (run exampleState [.create requestBank 1000]).rooms[bookingBank.roomid]? =
          some room →
        (∀ e ∈ room.currentbookings, e.bookingId ≠ none) →
        (paymentDeadline (run exampleState [.create requestBank 1000]) 0 361000).1.rooms =
          (run exampleState [.create requestBank 1000]).rooms.set bookingBank.roomid
            { room with
              currentbookings :=
                room.currentbookings.filter (fun e => e.bookingId ≠ some 0) }) ∧
      ∀ later,
        (paymentDeadline
          (paymentDeadline (run exampleState [.create requestBank 1000]) 0 361000).1 0
          later).1 =
        (paymentDeadline (run exampleState [.create requestBank 1000]) 0 361000).1) :=
  paymentDeadline_lazy (run exampleState [.create requestBank 1000]) 0 361000 bookingBank
    301000 (by decide) (by decide) (by decide)

/-! ### The claims -/

/-- C1: for well-formed candidate and stored intervals the three-clause test of
`isRoomBooked` is true exactly when the intervals overlap in the half-open sense; a
candidate that starts at the stored checkout, or ends at the stored checkin, is not
reported as overlapping. -/
theorem overlapTest_iff_overlaps (checkin checkout existingCheckin existingCheckout : Int)
    (hc : checkin < checkout) (he : existingCheckin < existingCheckout) :
    (overlapTest checkin checkout existingCheckin existingCheckout = true ↔
      overlaps checkin checkout existingCheckin existingCheckout) ∧
    (checkin = existingCheckout →
      overlapTest checkin checkout existingCheckin existingCheckout = false) ∧
    (checkout = existingCheckin →
      overlapTest checkin checkout existingCheckin existingCheckout = false) := by
  refine ⟨?_, ?_, ?_⟩
  · simp only [overlapTest, overlaps, Bool.or_eq_true, Bool.and_eq_true, decide_eq_true_eq]
    constructor
    · rintro ((⟨h1, h2⟩ | ⟨h1, h2⟩) | ⟨h1, h2⟩) <;> constructor <;> omega
    · rintro ⟨h1, h2⟩
      by_cases h3 : existingCheckin ≤ checkin
      · exact Or.inl (Or.inl ⟨h3, h1⟩)
      · by_cases h4 : checkout ≤ existingCheckout
        · exact Or.inl (Or.inr ⟨h2, h4⟩)
        · exact Or.inr ⟨by omega, by omega⟩
  · intro h
    simp only [overlapTest, Bool.or_eq_false_iff, Bool.and_eq_false_iff, decide_eq_false_iff_not]
    omega
  · intro h
    simp only [overlapTest, Bool.or_eq_false_iff, Bool.and_eq_false_iff, decide_eq_false_iff_not]
    omega

/-- Witness for C1: the stay 3..5 against the stored stay 1..3. -/
theorem overlapTest_iff_overlaps_witness :
    (overlapTest 3 5 1 3 = true ↔ overlaps 3 5 1 3) ∧
    ((3 : Int) = 3 → overlapTest 3 5 1 3 = false) ∧
    ((5 : Int) = 1 → overlapTest 3 5 1 3 = false) :=
  overlapTest_iff_overlaps 3 5 1 3 (by decide) (by decide)

/-- C2 (the code departs from the claim): from a database whose rooms hold no interval,
two back-to-back stays are booked in room 0 and the first is then extended into the
second; the extension is accepted and the available room 0 ends with the overlapping
intervals 1..4 and 3..5. -/
theorem extendStay_breaks_nonOverlapping :
    (∀ r ∈ exampleState.rooms,
      wellFormedIntervals r.currentbookings ∧ nonOverlapping r.currentbookings) ∧
    roomsNonOverlapping backToBackState ∧
    (run exampleState [.create requestA 0, .create requestB 0, .extend 0 (.date 4)]).rooms.map
      (fun r => (r.availabilityStatus, r.currentbookings)) =
      [(.available, [⟨some 0, 1, 4⟩, ⟨some 1, 3, 5⟩]), (.available, [])] ∧
    ¬ roomsNonOverlapping
      (run exampleState [.create requestA 0, .create requestB 0, .extend 0 (.date 4)]) := by
  decide

/-- C3 (the code departs from the claim): in `backToBackState` booking 0 holds 1..3 and
booking 1 holds 3..5 in the same room; extending booking 0 to checkout 4 is accepted
although the interval of booking 1 overlaps the extended range 1..4. -/
theorem extendStay_accepts_overlapping_extension :
    backToBackState.rooms.map (fun r => r.currentbookings) =
      [[⟨some 0, 1, 3⟩, ⟨some 1, 3, 5⟩], []] ∧
    backToBackState.bookings.map (fun b => (b.roomid, b.status, b.checkin, b.checkout)) =
      [(0, .pending, 1, 3), (0, .pending, 3, 5)] ∧
    overlaps 1 4 3 5 ∧
    (extendStay backToBackState 0 (.date 4)).2 = .ok () ∧
    (extendStay backToBackState 0 (.date 4)).1.bookings.map
      (fun b => (b.roomid, b.status, b.checkin, b.checkout)) =
      [(0, .pending, 1, 4), (0, .pending, 3, 5)] := by
  decide

/-- C4: a sanitized creation request for an existing, available room, with a party
within `maxcount`, `checkin < checkout` and an interval that overlaps none of the
room's (well-formed) reserved intervals, is accepted by `POST /` and by
`POST /bookroom`; the booking inserted is pending with payment pending, its payment
deadline is `now + 5 minutes` for a bank transfer and absent otherwise, and the room's
reserved list is the previous list followed by one interval with the new booking's
identifier and the requested dates. -/
theorem createBooking_succeeds (s : State) (req : BookingRequest) (now ci co a c : Int)
    (room : Room) (hreq : sanitized req a c) (hci : req.checkin = .date ci)
    (hco : req.checkout = .date co) (hroom : s.rooms[req.roomid]? = some room)
    (hav : room.availabilityStatus = .available) (hcap : a + c ≤ room.maxcount)
    (hlt : ci < co) (hwf : wellFormedIntervals room.currentbookings)
    (hfree : ∀ e ∈ room.currentbookings, ¬ overlaps ci co e.checkin e.checkout) :
    ∀ handler ∈ [createBooking, bookRoom],
      (handler s req now).2 = .ok () ∧
      (∃ b, (handler s req now).1.bookings = s.bookings ++ [b] ∧
        b.status = .pending ∧ b.paymentStatus = .pending ∧
        b.paymentDeadline =
          (if req.paymentMethod = "bank_transfer" then some (now + 5 * 60 * 1000)
           else none) ∧
        b.roomid = req.roomid ∧ b.checkin = ci ∧ b.checkout = co ∧
        b.adults = a ∧ b.children = c) ∧
      (handler s req now).1.rooms =
        s.rooms.set req.roomid
          { room with
            currentbookings :=
              room.currentbookings ++ [⟨some s.bookings.length, ci, co⟩] } := by
  have hbk : isRoomBooked room ci co = false := (isRoomBooked_eq_false_iff hlt hwf).mpr hfree
  intro handler hh
  simp only [List.mem_cons, List.mem_singleton, List.not_mem_nil, or_false] at hh
  rcases hh with rfl | rfl
  · obtain ⟨b, hb, hok⟩ := createBookingTx_ok s now hreq hci hco hlt hroom hav
      hcap hbk
    obtain ⟨b', hb', -, hrid, hst, hps, hpd, h1, h2, h3, h4⟩ :=
      newBooking_valid hreq ci co now none none
    rw [hb] at hb'
    cases hb'
    unfold createBooking
    rw [hok, withTransaction_ok, pushCurrentBooking_of_some hroom]
    exact ⟨rfl, ⟨b, rfl, hst, hps, hpd, hrid, h1, h2, h3, h4⟩, rfl⟩
  · obtain ⟨b, hb, hok⟩ := bookRoomTx_ok s now hreq hci hco hlt hroom hav
      hcap hbk
    obtain ⟨b', hb', -, hrid, hst, hps, hpd, h1, h2, h3, h4⟩ :=
      newBooking_valid hreq ci co now
        (if req.paymentMethod = "mobile_payment" then req.orderId else none)
        (if req.paymentMethod = "vnpay" then req.orderId else none)
    rw [hb] at hb'
    cases hb'
    unfold bookRoom
    rw [hok, withTransaction_ok, pushCurrentBooking_of_some hroom]
    exact ⟨rfl, ⟨b, rfl, hst, hps, hpd, hrid, h1, h2, h3, h4⟩, rfl⟩

/-- Witness for C4: with the stay 1..3 reserved in room 0, the bank-transfer request for
3..5 is accepted at time 1000 by `POST /` and by `POST /bookroom`. -/
theorem createBooking_succeeds_witness :
    (((createBooking (run exampleState [.create requestA 0]) requestBank 1000).2 = .ok () ∧
      (∃ b, (createBooking (run exampleState [.create requestA 0]) requestBank 1000).1.bookings =
          (run exampleState [.create requestA 0]).bookings ++ [b] ∧
        b.status = .pending ∧ b.paymentStatus = .pending ∧
        b.paymentDeadline =
          (if requestBank.paymentMethod = "bank_transfer" then some (1000 + 5 * 60 * 1000)
           else none) ∧
        b.roomid = requestBank.roomid ∧ b.checkin = 3 ∧ b.checkout = 5 ∧
        b.adults = 1 ∧ b.children = 0) ∧
      (createBooking (run exampleState [.create requestA 0]) requestBank 1000).1.rooms =
        (run exampleState [.create requestA 0]).rooms.set requestBank.roomid
          { roomWithA with
            currentbookings :=
              roomWithA.currentbookings ++
                [⟨some (run exampleState [.create requestA 0]).bookings.length, 3, 5⟩] })) ∧
    (((bookRoom (run exampleState [.create requestA 0]) requestBank 1000).2 = .ok () ∧
      (∃ b, (bookRoom (run exampleState [.create requestA 0]) requestBank 1000).1.bookings =
          (run exampleState [.create requestA 0]).bookings ++ [b] ∧
        b.status = .pending ∧ b.paymentStatus = .pending ∧
        b.paymentDeadline =
          (if requestBank.paymentMethod = "bank_transfer" then some (1000 + 5 * 60 * 1000)
           else none) ∧
        b.roomid = requestBank.roomid ∧ b.checkin = 3 ∧ b.checkout = 5 ∧
        b.adults = 1 ∧ b.children = 0) ∧
      (bookRoom (run exampleState [.create requestA 0]) requestBank 1000).1.rooms =
        (run exampleState [.create requestA 0]).rooms.set requestBank.roomid
          { roomWithA with
            currentbookings :=
              roomWithA.currentbookings ++
                [⟨some (run exampleState [.create requestA 0]).bookings.length, 3, 5⟩] })) :=
  ⟨createBooking_succeeds (run exampleState [.create requestA 0]) requestBank 1000 3 5 1 0
      roomWithA (by unfold sanitized; decide) (by decide) (by decide) (by decide) (by decide)
      (by decide) (by decide) (by decide) (by decide) createBooking (List.mem_cons_self _ _),
    createBooking_succeeds (run exampleState [.create requestA 0]) requestBank 1000 3 5 1 0
      roomWithA (by unfold sanitized; decide) (by decide) (by decide) (by decide) (by decide)
      (by decide) (by decide) (by decide) (by decide) bookRoom
      (List.mem_cons_of_mem _ (List.mem_cons_self _ _))⟩

/-- C5: a creation request is rejected and the database is left as it was whenever the
room does not exist, the room is not available, `checkin >= checkout`, or the requested
interval overlaps a reserved interval of the room; this holds for `POST /` and for
`POST /bookroom`. -/
theorem createBooking_rejected (s : State) (req : BookingRequest) (now : Int)
    (h : s.rooms[req.roomid]? = none ∨
      (∃ room, s.rooms[req.roomid]? = some room ∧ room.availabilityStatus ≠ .available) ∨
      (∃ ci co, req.checkin = .date ci ∧ req.checkout = .date co ∧ ci ≥ co) ∨
      (∃ room e ci co, s.rooms[req.roomid]? = some room ∧ e ∈ room.currentbookings ∧
        req.checkin = .date ci ∧ req.checkout = .date co ∧
        overlaps ci co e.checkin e.checkout)) :
    ((createBooking s req now).1 = s ∧ ∃ e, (createBooking s req now).2 = .error e) ∧
    ((bookRoom s req now).1 = s ∧ ∃ e, (bookRoom s req now).2 = .error e) := by
  have key : ∀ ci co room, req.checkin = .date ci → req.checkout = .date co → ci < co →
      s.rooms[req.roomid]? = some room → room.availabilityStatus = .available →
      isRoomBooked room ci co = false → False := by
    intro ci co room hci hco hlt hroom hav hbk
    rcases h with h | ⟨r, hr, hna⟩ | ⟨ci', co', hci', hco', hge⟩ | ⟨r, e, ci', co', hr, he, hci', hco', hov⟩
    · rw [h] at hroom; exact absurd hroom (by simp)
    · rw [hr] at hroom
      cases hroom
      exact hna hav
    · rw [hci] at hci'; rw [hco] at hco'
      cases hci'; cases hco'
      omega
    · rw [hci] at hci'; rw [hco] at hco'; rw [hr] at hroom
      cases hci'; cases hco'; cases hroom
      rw [isRoomBooked_of_overlaps he hov] at hbk
      exact absurd hbk (by simp)
  constructor
  · apply withTransaction_rejected
    intro s' hok
    obtain ⟨ci, co, room, hci, hco, hlt, hroom, hav, -, hbk, -⟩ := createBookingTx_ok_inv hok
    exact key ci co room hci hco hlt hroom hav hbk
  · apply withTransaction_rejected
    intro s' hok
    obtain ⟨ci, co, room, hci, hco, hlt, hroom, hav, -, hbk, -⟩ := bookRoomTx_ok_inv hok
    exact key ci co room hci hco hlt hroom hav hbk

/-- Witness for C5: once the stay 1..3 is booked in room 0, the same request is
rejected by both handlers. -/
theorem createBooking_rejected_witness :
    (((createBooking (run exampleState [.create requestA 0]) requestA 7).1 =
        run exampleState [.create requestA 0] ∧
      ∃ e, (createBooking (run exampleState [.create requestA 0]) requestA 7).2 = .error e) ∧
     ((bookRoom (run exampleState [.create requestA 0]) requestA 7).1 =
        run exampleState [.create requestA 0] ∧
      ∃ e, (bookRoom (run exampleState [.create requestA 0]) requestA 7).2 = .error e)) :=
  createBooking_rejected (run exampleState [.create requestA 0]) requestA 7
    (Or.inr (Or.inr (Or.inr
      ⟨{ exampleRoom with currentbookings := [⟨some 0, 1, 3⟩] }, ⟨some 0, 1, 3⟩, 1, 3,
        by decide, by decide, by decide, by decide, by decide⟩)))

/-- C6 (the code departs from the claim): `POST /` accepts five adults without a
`children` field for a room whose `maxcount` is 2, and stores a party of five. -/
theorem createBooking_accepts_over_capacity :
    (createBooking exampleState requestFiveAdults 0).2 = .ok () ∧
    (createBooking exampleState requestFiveAdults 0).1.bookings.map
      (fun b => (b.roomid, b.adults, b.children)) = [(0, 5, 0)] ∧
    exampleState.rooms.map (fun r => r.maxcount) = [2, 2] := by
  decide

/-- C7: with a non-blank reason and an existing booking, cancellation succeeds exactly
when the booking is pending; a confirmed or canceled booking is rejected and the whole
database (the booking's status, payment status and cancel reason, and every room) is
left unchanged. -/
theorem cancelBooking_iff_pending (s : State) (id : PathId) (cancelReason : String)
    (b : Booking) (hb : s.bookings[id.id]? = some b) (hr : isBlank cancelReason = false) :
    ((cancelBooking s id cancelReason).2 = .ok () ↔ b.status = .pending) ∧
    (b.status = .confirmed ∨ b.status = .canceled →
      (cancelBooking s id cancelReason).1 = s ∧
      ∃ e, (cancelBooking s id cancelReason).2 = .error e) := by
  unfold cancelBooking cancelBookingTx
  simp only [hr, hb, Bool.false_eq_true, if_false]
  cases hst : b.status <;> simp [withTransaction]

/-- Witness for C7: the pending booking 0 of `backToBackState`, reason "change". -/
theorem cancelBooking_iff_pending_witness :
    ((cancelBooking backToBackState 0 "change").2 = .ok () ↔
      bookingA.status = .pending) ∧
    (bookingA.status = .confirmed ∨
      bookingA.status = .canceled →
      (cancelBooking backToBackState 0 "change").1 = backToBackState ∧
      ∃ e, (cancelBooking backToBackState 0 "change").2 = .error e) :=
  cancelBooking_iff_pending backToBackState 0 "change" bookingA (by decide) (by decide)

/-- C8 (the code departs from the claim): the cancel handler compares the printed
identifier of each interval with the text of the path parameter. Booking 0 of
`backToBackState` is canceled through a valid identifier that is not written in the
lower-case form: the cancellation succeeds, the booking is canceled with the reason,
and room 0 still holds the interval 1..3 of the booking, so that a new request for
these dates is rejected as a conflict. -/
theorem cancelBooking_keeps_interval :
    backToBackState.rooms.map (fun r => r.currentbookings) =
      [[⟨some 0, 1, 3⟩, ⟨some 1, 3, 5⟩], []] ∧
    (cancelBooking backToBackState { id := 0, canonical := false } "change").2 = .ok () ∧
    (cancelBooking backToBackState { id := 0, canonical := false } "change").1.bookings.map
      (fun b => (b.status, b.paymentStatus, b.cancelReason)) =
      [(.canceled, .canceled, some "change"), (.pending, .pending, none)] ∧
    (cancelBooking backToBackState { id := 0, canonical := false } "change").1.rooms.map
      (fun r => r.currentbookings) = [[⟨some 0, 1, 3⟩, ⟨some 1, 3, 5⟩], []] ∧
    (createBooking
      (cancelBooking backToBackState { id := 0, canonical := false } "change").1
      requestA 9).2 = .error .slotConflict := by
  decide

/-- C9 (the code departs from the claim): the assign-room handler filters the old room
with the same comparison of texts. Booking 0 of `backToBackState` is moved to room 1
through a valid identifier that is not written in the lower-case form: the
reassignment succeeds, the booking references room 1, room 1 holds its interval, and
room 0 still holds the interval 1..3 of the booking. -/
theorem assignRoom_keeps_old_interval :
    (assignRoom backToBackState { id := 0, canonical := false } 1).2 = .ok () ∧
    (assignRoom backToBackState { id := 0, canonical := false } 1).1.bookings.map
      (fun b => (b.roomid, b.status, b.checkin, b.checkout)) =
      [(1, .pending, 1, 3), (0, .pending, 3, 5)] ∧
    (assignRoom backToBackState { id := 0, canonical := false } 1).1.rooms.map
      (fun r => r.currentbookings) =
      [[⟨some 0, 1, 3⟩, ⟨some 1, 3, 5⟩], [⟨some 0, 1, 3⟩]] := by
  decide

/-- C10 (the code departs from the claim): from `exampleState`, which holds no booking
and no interval, a booking is created and then canceled through a valid identifier
that is not written in the lower-case form; the canceled booking keeps its interval in
room 0 and the state is not consistent. Extending the booking through such an
identifier instead leaves the interval with the old checkout. -/
theorem run_breaks_consistency :
    emptyState exampleState ∧
    (run exampleState
      [.create requestA 0, .cancel { id := 0, canonical := false } "change"]).bookings.map
      (fun b => (b.roomid, b.status)) = [(0, .canceled)] ∧
    (run exampleState
      [.create requestA 0, .cancel { id := 0, canonical := false } "change"]).rooms.map
      (fun r => r.currentbookings) = [[⟨some 0, 1, 3⟩], []] ∧
    ¬ consistent
      (run exampleState
        [.create requestA 0, .cancel { id := 0, canonical := false } "change"]) ∧
    (run exampleState
      [.create requestA 0, .extend { id := 0, canonical := false } (.date 4)]).bookings.map
      (fun b => (b.status, b.checkin, b.checkout)) = [(.pending, 1, 4)] ∧
    (run exampleState
      [.create requestA 0, .extend { id := 0, canonical := false } (.date 4)]).rooms.map
      (fun r => r.currentbookings) = [[⟨some 0, 1, 3⟩], []] := by
  refine ⟨by decide, by decide, by decide, ?_, by decide, by decide⟩
  intro hcons
  have h := hcons.2 0 canceledA (by decide) rfl roomWithA (by decide)
  exact absurd h (by decide)

/-- C11: whenever `POST /api/discounts/apply` or `POST /api/bookings/apply-promotions`
answers, the net amount it returns is `max 0 (bookingAmount - sum)`, where
`bookingAmount` is the nightly rate times the number of nights and `sum` is the sum of
the amounts in the returned applied list; the net amount is not negative; and the
booking of the request is stored with `voucherDiscount = sum` and with the same
amounts in `appliedVouchers`. -/
theorem resolver_netAmount (s : State) (now : Int) :
    (∀ (req : ApplyRequest) (resp : ApplyResponse) (room : Room) (checkin checkout : Int),
      (applyDiscounts s req now).2 = .ok resp → s.rooms[req.roomid]? = some room →
      req.checkin = .date checkin → req.checkout = .date checkout →
      resp.totalAmount =
        max 0 (((room.rentperday * days checkin checkout : Int) : ℚ) -
          (resp.appliedDiscounts.map (fun e => e.discount)).sum) ∧
      0 ≤ resp.totalAmount ∧
      ∀ bookingId, req.bookingId = some bookingId →
        ∃ b, (applyDiscounts s req now).1.bookings[bookingId]? = some b ∧
          b.voucherDiscount = (resp.appliedDiscounts.map (fun e => e.discount)).sum ∧
          b.appliedVouchers.map (fun v => v.discount) =
            resp.appliedDiscounts.map (fun e => e.discount)) ∧
    (∀ (req : PromotionRequest) (resp : PromotionResponse) (room : Room)
        (checkin checkout : Int),
      (applyPromotions s req now).2 = .ok resp → s.rooms[req.roomid]? = some room →
      req.checkin = .date checkin → req.checkout = .date checkout →
      resp.totalAmount =
        max 0 (((room.rentperday * days checkin checkout : Int) : ℚ) -
          (resp.appliedVouchers.map (fun v => v.discount)).sum) ∧
      0 ≤ resp.totalAmount ∧
      ∃ b, (applyPromotions s req now).1.bookings[req.bookingId]? = some b ∧
        b.voucherDiscount = (resp.appliedVouchers.map (fun v => v.discount)).sum ∧
        b.appliedVouchers = resp.appliedVouchers) := by
  constructor
  · intro req resp room ci co hok hroom hci hco
    unfold applyDiscounts at hok ⊢
    have htx := withTransactionR_ok_inv hok
    obtain ⟨room', ci', co', user, booking, r, hroom', hci', hco', -, -, hbooking, hloop, hfin⟩ :=
      applyDiscountsTx_ok_inv htx
    rw [hroom] at hroom'; rw [hci] at hci'; rw [hco] at hco'
    cases hroom'; cases hci'; cases hco'
    obtain ⟨hsum, -, hbk, -⟩ := applyLoop_spec hloop
    unfold finishApply at hfin
    simp only [Prod.mk.injEq] at hfin
    obtain ⟨hs', hresp⟩ := hfin
    rw [hresp]
    dsimp only
    rw [← hsum]
    refine ⟨rfl, le_max_left _ _, ?_⟩
    intro bid hbid
    rw [hs']
    unfold applyBooking at hbooking
    rw [hbid] at hbooking
    dsimp only at hbooking
    split at hbooking
    · exact absurd hbooking (by simp)
    · rename_i b hb
      split at hbooking
      · exact absurd hbooking (by simp)
      · simp only [Except.ok.injEq] at hbooking
        subst hbooking
        dsimp only
        have hlen : bid < r.db.bookings.length := by
          rw [hbk]; exact getElem?_lt_length hb
        rw [List.getElem?_set_self hlen]
        exact ⟨_, rfl, rfl, by simp [List.map_map, Function.comp_def]⟩
  · intro req resp room ci co hok hroom hci hco
    unfold applyPromotions at hok ⊢
    have htx := withTransactionR_ok_inv hok
    obtain ⟨booking, userId, room', ci', co', r, hb, -, hroom', hci', hco', -, hloop, hs', hresp⟩ :=
      applyPromotionsTx_ok_inv htx
    rw [hroom] at hroom'; rw [hci] at hci'; rw [hco] at hco'
    cases hroom'; cases hci'; cases hco'
    obtain ⟨hsum, -, hbk, -⟩ := promotionLoop_spec hloop
    rw [hresp, hs']
    dsimp only
    rw [← hsum]
    refine ⟨rfl, le_max_left _ _, ?_⟩
    have hlen : req.bookingId < r.db.bookings.length := by
      rw [hbk]; exact getElem?_lt_length hb
    rw [List.getElem?_set_self hlen]
    exact ⟨_, rfl, rfl, rfl⟩

/-- Witness for C11: the code `SALE10` applied to the stay of two nights of
`discountState`, through both endpoints. -/
theorem resolver_netAmount_witness :
    (responseSale10.totalAmount =
        max 0 (((roomTwoNights.rentperday * days 0 172800000 : Int) : ℚ) -
          (responseSale10.appliedDiscounts.map (fun e => e.discount)).sum) ∧
      0 ≤ responseSale10.totalAmount ∧
      ∀ bookingId, (applyRequest [.code "SALE10"]).bookingId = some bookingId →
        ∃ b, (applyDiscounts discountState (applyRequest [.code "SALE10"]) 500).1.bookings[
            bookingId]? = some b ∧
          b.voucherDiscount = (responseSale10.appliedDiscounts.map (fun e => e.discount)).sum ∧
          b.appliedVouchers.map (fun v => v.discount) =
            responseSale10.appliedDiscounts.map (fun e => e.discount)) ∧
    (promotionSale10.totalAmount =
        max 0 (((roomTwoNights.rentperday * days 0 172800000 : Int) : ℚ) -
          (promotionSale10.appliedVouchers.map (fun v => v.discount)).sum) ∧
      0 ≤ promotionSale10.totalAmount ∧
      ∃ b, (applyPromotions discountState promotionRequest 500).1.bookings[
          promotionRequest.bookingId]? = some b ∧
        b.voucherDiscount = (promotionSale10.appliedVouchers.map (fun v => v.discount)).sum ∧
        b.appliedVouchers = promotionSale10.appliedVouchers) :=
  ⟨(resolver_netAmount discountState 500).1 (applyRequest [.code "SALE10"]) responseSale10
      roomTwoNights 0 172800000 (by decide!) (by decide!) rfl rfl,
    (resolver_netAmount discountState 500).2 promotionRequest promotionSale10
      roomTwoNights 0 172800000 (by decide!) (by decide!) rfl rfl⟩

/-- Counterexample for C12: the festival discount 6 of `discountState` is a percentage
of 10 with the stored cap 0; on the booking amount 2000000 the resolution applies
200000, whereas `min (2000000 * 10 / 100) 0` is 0. -/
theorem cap_zero_is_no_cap :
    discountState.discounts[6]? = some festivalCapZero ∧
    festivalCapZero.discountType = .percentage ∧ festivalCapZero.discountValue = 10 ∧
    festivalCapZero.maxDiscount = some 0 ∧
    ((roomTwoNights.rentperday * days 0 172800000 : Int) : ℚ) = 2000000 ∧
    (applyDiscounts discountState (applyRequest [.id 6]) 500).2 =
      .ok { totalAmount := 1800000,
            appliedDiscounts :=
              [{ id := 6, code := none, type := .festival, discount := 200000 }] } ∧
    min ((2000000 : ℚ) * 10 / 100) 0 = 0 := by
  decide!

/-- C12 (amended): in every answer of `POST /api/discounts/apply` and of
`POST /api/bookings/apply-promotions`, each applied entry belongs to a stored discount
and its amount follows `amountRule`: for a percentage `v` with a stored cap `c` other
than 0 it is `min (bookingAmount * v / 100) c`, for a percentage with no stored cap or
with the cap 0 it is `bookingAmount * v / 100`, and for a fixed discount it is the
discount value. -/
theorem applied_amount_rule (s : State) (now : Int) :
    (∀ (req : ApplyRequest) (resp : ApplyResponse) (room : Room) (checkin checkout : Int),
      (applyDiscounts s req now).2 = .ok resp → s.rooms[req.roomid]? = some room →
      req.checkin = .date checkin → req.checkout = .date checkout →
      ∀ e ∈ resp.appliedDiscounts, ∃ d, s.discounts[e.id]? = some d ∧
        amountRule ((room.rentperday * days checkin checkout : Int) : ℚ) d e.discount) ∧
    (∀ (req : PromotionRequest) (resp : PromotionResponse) (room : Room)
        (checkin checkout : Int),
      (applyPromotions s req now).2 = .ok resp → s.rooms[req.roomid]? = some room →
      req.checkin = .date checkin → req.checkout = .date checkout →
      ∀ e ∈ resp.appliedVouchers, ∃ d ∈ s.discounts, some e.code = d.code.map .code ∧
        amountRule ((room.rentperday * days checkin checkout : Int) : ℚ) d e.discount) := by
  constructor
  · intro req resp room ci co hok hroom hci hco e he
    unfold applyDiscounts at hok
    have htx := withTransactionR_ok_inv hok
    obtain ⟨room', ci', co', user, booking, r, hroom', hci', hco', -, -, -, hloop, hfin⟩ :=
      applyDiscountsTx_ok_inv htx
    rw [hroom] at hroom'; rw [hci] at hci'; rw [hco] at hco'
    cases hroom'; cases hci'; cases hco'
    obtain ⟨-, hent, -⟩ := applyLoop_spec hloop
    unfold finishApply at hfin
    simp only [Prod.mk.injEq] at hfin
    rw [hfin.2] at he
    obtain ⟨cand, hc, rfl⟩ := hent e he
    exact ⟨cand.2, findCandidates_getElem? hc, discountAmount_rule _ _⟩
  · intro req resp room ci co hok hroom hci hco e he
    unfold applyPromotions at hok
    have htx := withTransactionR_ok_inv hok
    obtain ⟨booking, userId, room', ci', co', r, -, -, hroom', hci', hco', -, hloop, -, hresp⟩ :=
      applyPromotionsTx_ok_inv htx
    rw [hroom] at hroom'; rw [hci] at hci'; rw [hco] at hco'
    cases hroom'; cases hci'; cases hco'
    obtain ⟨-, hent, -⟩ := promotionLoop_spec hloop
    rw [hresp] at he
    obtain ⟨cand, hc, rfl⟩ := hent e he
    refine ⟨cand.2, List.getElem?_mem (findPromotions_getElem? hc).1, ?_,
      discountAmount_rule _ _⟩
    obtain ⟨c, hcode, -⟩ := findPromotions_code hc
    simp [promotionRef, hcode]

/-- Witness for C12: the rate 1000000 per night, two nights, the voucher `SALE10` of 10
percent capped at 150000: the discount is 150000 and the net amount 1850000. -/
theorem applied_amount_rule_witness :
    (∀ e ∈ responseSale10.appliedDiscounts, ∃ d, discountState.discounts[e.id]? = some d ∧
      amountRule ((roomTwoNights.rentperday * days 0 172800000 : Int) : ℚ) d e.discount) ∧
    (∀ e ∈ promotionSale10.appliedVouchers, ∃ d ∈ discountState.discounts,
      some e.code = d.code.map .code ∧
      amountRule ((roomTwoNights.rentperday * days 0 172800000 : Int) : ℚ) d e.discount) ∧
    roomTwoNights.rentperday = 1000000 ∧ days 0 172800000 = 2 ∧
    discountState.discounts[0]? = some voucherSale10 ∧
    voucherSale10.discountType = .percentage ∧ voucherSale10.discountValue = 10 ∧
    voucherSale10.maxDiscount = some 150000 ∧
    (applyDiscounts discountState (applyRequest [.code "SALE10"]) 500).2 =
      .ok { totalAmount := 1850000,
            appliedDiscounts :=
              [{ id := 0, code := some "SALE10", type := .voucher, discount := 150000 }] } :=
  ⟨(applied_amount_rule discountState 500).1 (applyRequest [.code "SALE10"]) responseSale10
      roomTwoNights 0 172800000 (by decide!) (by decide!) rfl rfl,
    (applied_amount_rule discountState 500).2 promotionRequest promotionSale10
      roomTwoNights 0 172800000 (by decide!) (by decide!) rfl rfl,
    by decide!⟩

/-- C13: an iteration whose other checks all pass accepts the candidate exactly when
the candidate is stackable or the applied list is still empty, and otherwise leaves
the loop variables as they are; accepting appends the entry of the candidate to the
applied list. This holds for the loop of `POST /api/discounts/apply` and for the loop
of `POST /api/bookings/apply-promotions`. -/
theorem stacking_rule (roomid : Nat) (totalAmount : ℚ) (now : Int) (cand : Nat × Discount) :
    (∀ (user : Option (Nat × User)) (acc : Resolution),
      otherChecksPass roomid totalAmount user now acc.db cand.2 →
      applyStep roomid totalAmount user now acc cand =
        (if cand.2.isStackable = true ∨ acc.appliedDiscounts = [] then
          acceptDiscount totalAmount user now acc cand
         else .ok acc) ∧
      ∀ r, acceptDiscount totalAmount user now acc cand = .ok r →
        r.appliedDiscounts = acc.appliedDiscounts ++
          [{ id := cand.1, code := cand.2.code, type := cand.2.type,
             discount := discountAmount totalAmount cand.2 }]) ∧
    (∀ (userId : Nat) (acc : Promotion),
      otherPromotionChecksPass roomid totalAmount userId now cand.2 →
      promotionStep roomid totalAmount userId now acc cand =
        (if cand.2.isStackable = true ∨ acc.appliedVouchers = [] then
          acceptPromotion totalAmount userId acc cand
         else .ok acc) ∧
      ∀ r, acceptPromotion totalAmount userId acc cand = .ok r →
        r.appliedVouchers = acc.appliedVouchers ++
          [{ code := promotionRef cand, discount := promotionAmount totalAmount cand.2 }]) := by
  constructor
  · intro user acc ⟨h1, h2, h3, h4, h5, h6⟩
    refine ⟨?_, fun r hr => (acceptDiscount_ok_inv hr).2.1⟩
    unfold applyStep
    simp only [h1, h2, h4, h5, h6, not_lt.mpr h3, Bool.false_eq_true, if_false]
    cases hst : cand.2.isStackable <;> cases hl : acc.appliedDiscounts <;>
      simp [stackBlocked, hst, hl]
  · intro userId acc ⟨h1, h2, h3, h4⟩
    refine ⟨?_, fun r hr => (acceptPromotion_ok_inv hr).2.1⟩
    unfold promotionStep
    simp only [h1, h2, not_lt.mpr h3, not_le.mpr h4, Bool.false_eq_true, if_false]
    cases hst : cand.2.isStackable <;> cases hl : acc.appliedVouchers <;>
      simp [promotionStackBlocked, hst, hl]

/-- Witness for C13: the candidates A (not stackable), B (not stackable) and C
(stackable) of `discountState`, in that order: B is skipped once A is recorded, and the
applied list of the whole resolution is A followed by C, on both endpoints. -/
theorem stacking_rule_witness :
    (applyStep 0 2000000 (some (0, userAn)) 500 afterA (2, festival 50000 false) =
        (if (festival 50000 false).isStackable = true ∨ afterA.appliedDiscounts = [] then
          acceptDiscount 2000000 (some (0, userAn)) 500 afterA (2, festival 50000 false)
         else .ok afterA) ∧
      ∀ r, acceptDiscount 2000000 (some (0, userAn)) 500 afterA (2, festival 50000 false) =
          .ok r →
        r.appliedDiscounts = afterA.appliedDiscounts ++
          [{ id := 2, code := (festival 50000 false).code, type := (festival 50000 false).type,
             discount := discountAmount 2000000 (festival 50000 false) }]) ∧
    (promotionStep 0 2000000 0 500 promotionAfterA (8, voucher "B" 50000 false) =
        (if (voucher "B" 50000 false).isStackable = true ∨
            promotionAfterA.appliedVouchers = [] then
          acceptPromotion 2000000 0 promotionAfterA (8, voucher "B" 50000 false)
         else .ok promotionAfterA) ∧
      ∀ r, acceptPromotion 2000000 0 promotionAfterA (8, voucher "B" 50000 false) = .ok r →
        r.appliedVouchers = promotionAfterA.appliedVouchers ++
          [{ code := promotionRef (8, voucher "B" 50000 false),
             discount := promotionAmount 2000000 (voucher "B" 50000 false) }]) ∧
    (applyDiscounts discountState (applyRequest [.id 1, .id 2, .id 3]) 500).2 =
      .ok { totalAmount := 1880000,
            appliedDiscounts :=
              [{ id := 1, code := none, type := .festival, discount := 100000 },
               { id := 3, code := none, type := .festival, discount := 20000 }] } ∧
    (applyPromotions discountState { promotionRequest with voucherCodes := ["A", "B", "C"] }
        500).2 =
      .ok { totalAmount := 1880000,
            appliedVouchers :=
              [{ code := .code "A", discount := 100000 },
               { code := .code "C", discount := 20000 }] } :=
  ⟨(stacking_rule 0 2000000 500 (2, festival 50000 false)).1 (some (0, userAn)) afterA
      (by decide!),
    (stacking_rule 0 2000000 500 (8, voucher "B" 50000 false)).2 0 promotionAfterA
      (by decide!),
    by decide!⟩

/-- C14 (the code departs from the claim): `POST /api/discounts/apply` never reads the
usage counter. User 0 applies the voucher `SALE10` through `apply-promotions`, which
sets the counter to 1 and leaves the personal voucher record unused; the same voucher
is then accepted for the same user by `POST /api/discounts/apply`, and the counter
becomes 2. -/
theorem voucher_accepted_twice :
    discountState.discounts.map (usageCount 0) = [0, 0, 0, 0, 0, 0, 0, 0, 0, 0] ∧
    (applyPromotions discountState promotionRequest 500).2 = .ok promotionSale10 ∧
    (applyPromotions discountState promotionRequest 500).1.discounts.map (usageCount 0) =
      [1, 0, 0, 0, 0, 0, 0, 0, 0, 0] ∧
    (applyDiscounts (applyPromotions discountState promotionRequest 500).1
      (applyRequest [.code "SALE10"]) 600).2 = .ok responseSale10 ∧
    (applyDiscounts (applyPromotions discountState promotionRequest 500).1
      (applyRequest [.code "SALE10"]) 600).1.discounts.map (usageCount 0) =
      [2, 0, 0, 0, 0, 0, 0, 0, 0, 0] := by
  decide!

/-- C15 (the code departs from the claim): `apply-promotions` never reads the personal
voucher records. In a database without any record the voucher `SALE10` is accepted for
user 0 by `apply-promotions`, and by `POST /api/discounts/apply` for a request that
names no user; and `apply-promotions` leaves the record that user 0 holds in
`discountState` unused. -/
theorem voucher_accepted_without_record :
    noVoucherState.userVouchers = [] ∧
    (applyPromotions noVoucherState promotionRequest 500).2 = .ok promotionSale10 ∧
    (applyDiscounts noVoucherState { applyRequest [.code "SALE10"] with userId := none }
      500).2 = .ok responseSale10 ∧
    discountState.userVouchers.map (fun v => (v.userId, v.voucherCode, v.isUsed)) =
      [(0, "SALE10", false)] ∧
    (applyPromotions discountState promotionRequest 500).1.userVouchers =
      discountState.userVouchers := by
  decide!

/-- C16: the tier of the membership level endpoint is Diamond from 400000 points,
Platinum from 300000, Gold from 200000, Silver from 100000 and Bronze below; the
benefits endpoint, the member-discount listing, the reward listing and Redeem compute
the same tier; and the tier never decreases when the points increase. -/
theorem membershipLevel_spec (p : Int) :
    (membershipLevel p = .Diamond ↔ 400000 ≤ p) ∧
    (membershipLevel p = .Platinum ↔ 300000 ≤ p ∧ p < 400000) ∧
    (membershipLevel p = .Gold ↔ 200000 ≤ p ∧ p < 300000) ∧
    (membershipLevel p = .Silver ↔ 100000 ≤ p ∧ p < 200000) ∧
    (membershipLevel p = .Bronze ↔ p < 100000) ∧
    benefitsLevel p = membershipLevel p ∧ memberDiscountLevel p = membershipLevel p ∧
    rewardListLevel p = membershipLevel p ∧ redeemLevel p = membershipLevel p ∧
    ∀ q, p ≤ q → (membershipLevel p).rank ≤ (membershipLevel q).rank := by
  refine ⟨?_, ?_, ?_, ?_, ?_, rfl, rfl, rfl, rfl, ?_⟩
  · unfold membershipLevel; split_ifs <;> simp <;> omega
  · unfold membershipLevel; split_ifs <;> simp <;> omega
  · unfold membershipLevel; split_ifs <;> simp <;> omega
  · unfold membershipLevel; split_ifs <;> simp <;> omega
  · unfold membershipLevel; split_ifs <;> simp <;> omega
  · intro q hq
    unfold membershipLevel
    split_ifs <;> simp [MembershipLevel.rank] <;> omega

/-- C17 (the code departs from the claim): `POST /api/discounts/apply` derives the tier
with the thresholds 1000000, 500000, 100000 and 50000. A user with 100000 points is
Silver for the standalone derivation and Gold inside the resolution: of the member
discounts 4 (Silver) and 5 (Gold) the resolution accepts the Gold one only. -/
theorem applyDiscounts_member_tier :
    (exampleState.users.map (fun u => u.points)) = [0] ∧
    discountState.users.map (fun u => u.points) = [100000] ∧
    membershipLevel 100000 = .Silver ∧
    applyMembershipLevel 100000 = .Gold ∧
    (applyDiscounts discountState (applyRequest [.id 4, .id 5]) 500).2 =
      .ok { totalAmount := 1900000,
            appliedDiscounts := [{ id := 5, code := none, type := .member, discount := 100000 }] } := by
  decide!

/-- C18: for an existing booking the confirm action succeeds exactly when the booking is
pending; it then stores `status = confirmed` and `paymentStatus = paid` on that booking
and leaves the rooms as they were; on a confirmed or canceled booking it is rejected
and the whole database (bookings, user points, ledger) is unchanged. -/
theorem confirmBooking_iff_pending (s : State) (id : Nat) (b : Booking)
    (hb : s.bookings[id]? = some b) :
    ((confirmBooking s id).2 = .ok () ↔ b.status = .pending) ∧
    (b.status = .pending →
      (confirmBooking s id).1.bookings =
        s.bookings.set id { b with status := .confirmed, paymentStatus := .paid } ∧
      (confirmBooking s id).1.rooms = s.rooms) ∧
    (b.status = .confirmed ∨ b.status = .canceled →
      (confirmBooking s id).1 = s ∧ ∃ e, (confirmBooking s id).2 = .error e) := by
  unfold confirmBooking confirmBookingTx
  simp only [hb]
  refine ⟨?_, ?_, ?_⟩
  · cases hst : b.status <;> simp [withTransaction]
  · intro hst
    simp only [hst]
    simp only [withTransaction, reduceCtorEq, if_false]
    exact ⟨(accrueOnConfirm_rooms _ _ _).2, (accrueOnConfirm_rooms _ _ _).1⟩
  · intro hst
    rcases hst with hst | hst <;> simp [hst, withTransaction]

/-- Witness for C18: the pending booking 0 of `backToBackState`. -/
theorem confirmBooking_iff_pending_witness :
    ((confirmBooking backToBackState 0).2 = .ok () ↔ bookingA.status = .pending) ∧
    (bookingA.status = .pending →
      (confirmBooking backToBackState 0).1.bookings =
        backToBackState.bookings.set 0
          { bookingA with status := .confirmed, paymentStatus := .paid } ∧
      (confirmBooking backToBackState 0).1.rooms = backToBackState.rooms) ∧
    (bookingA.status = .confirmed ∨ bookingA.status = .canceled →
      (confirmBooking backToBackState 0).1 = backToBackState ∧
      ∃ e, (confirmBooking backToBackState 0).2 = .error e) :=
  confirmBooking_iff_pending backToBackState 0 bookingA (by decide)

/-- C19 (the code departs from the claim): the gateway callbacks do not look at the
status. A canceled booking becomes confirmed and paid on a successful VNPay return and
on a successful MoMo verification, and a confirmed, paid booking gets
`paymentStatus = canceled` on a failed VNPay return. -/
theorem gateway_reopens_terminal_booking :
    (run exampleState [.bookroom requestVnpay 0, .cancel 0 "change"]).bookings.map
      (fun b => (b.status, b.paymentStatus, b.vnpOrderId)) =
      [(.canceled, .canceled, some "ORD1")] ∧
    (vnpayReturn (run exampleState [.bookroom requestVnpay 0, .cancel 0 "change"])
      "ORD1" true "00").1.bookings.map (fun b => (b.status, b.paymentStatus)) =
      [(.confirmed, .paid)] ∧
    (run exampleState [.bookroom requestVnpay 0, .confirm 0]).bookings.map
      (fun b => (b.status, b.paymentStatus)) = [(.confirmed, .paid)] ∧
    (vnpayReturn (run exampleState [.bookroom requestVnpay 0, .confirm 0])
      "ORD1" true "24").1.bookings.map (fun b => (b.status, b.paymentStatus)) =
      [(.confirmed, .canceled)] ∧
    (run exampleState [.bookroom requestMomo 0, .cancel 0 "change"]).bookings.map
      (fun b => (b.status, b.paymentStatus, b.momoOrderId)) =
      [(.canceled, .canceled, some "M1")] ∧
    (momoVerifyPayment (run exampleState [.bookroom requestMomo 0, .cancel 0 "change"])
      0 "M1" true).1.bookings.map (fun b => (b.status, b.paymentStatus)) =
      [(.confirmed, .paid)] := by
  decide

/-- C20 (the code departs from the claim): the payment-deadline handler filters the room
with the same comparison of texts. The bank-transfer booking created at time 1000 is
queried six minutes later through a valid identifier that is not written in the
lower-case form: the answer is `expired`, the booking is canceled with payment
canceled, and room 0 still holds the interval 3..5 of the booking. -/
theorem paymentDeadline_keeps_interval :
    (run exampleState [.create requestBank 1000]).bookings.map
      (fun b => (b.status, b.paymentStatus, b.paymentMethod, b.paymentDeadline)) =
      [(.pending, .pending, "bank_transfer", some 301000)] ∧
    (paymentDeadline (run exampleState [.create requestBank 1000])
      { id := 0, canonical := false } 361000).2 = .expired ∧
    (paymentDeadline (run exampleState [.create requestBank 1000])
      { id := 0, canonical := false } 361000).1.bookings.map
      (fun b => (b.status, b.paymentStatus)) = [(.canceled, .canceled)] ∧
    (paymentDeadline (run exampleState [.create requestBank 1000])
      { id := 0, canonical := false } 361000).1.rooms.map
      (fun r => r.currentbookings) = [[⟨some 0, 3, 5⟩], []] := by
  decide

/-- C21: for a booking whose email belongs to a user and whose room exists, each accrual
path appends the earn entry of the specification, with
`amount = rentperday * nights - voucherDiscount` (`nights` the ceiling of the stay in
whole days) and `points = floor (amount / 100)`, and adds exactly these points to the
user: the confirm action on a pending booking without a ledger entry, a successful MoMo
verification, and the checkout of a confirmed, paid booking without a ledger entry. -/
theorem accrual_entry (s : State) (id userId : Nat) (b : Booking) (user : User) (room : Room)
    (hb : s.bookings[id]? = some b)
    (hu : s.users.findIdx? (fun u => u.email == toLowerCase b.email) = some userId)
    (huser : s.users[userId]? = some user) (hroom : s.rooms[b.roomid]? = some room) :
    (b.status = .pending → (∀ t ∈ s.transactions, t.bookingId ≠ some id) →
      (confirmBooking s id).1.transactions = s.transactions ++ [earnEntry userId id room b] ∧
      (confirmBooking s id).1.users =
        s.users.set userId
          { user with points := user.points + Int.floor (accrualAmount room b / 100) }) ∧
    (∀ order, b.momoOrderId = some order →
      (momoVerifyPayment s id order true).1.transactions =
        s.transactions ++ [earnEntry userId id room b] ∧
      (momoVerifyPayment s id order true).1.users =
        s.users.set userId
          { user with points := user.points + Int.floor (accrualAmount room b / 100) }) ∧
    (∀ requester privileged, b.status = .confirmed → b.paymentStatus = .paid →
      (∀ t ∈ s.transactions, t.bookingId ≠ some id) →
      requester = userId ∨ privileged = true →
      (checkout s id requester privileged).1.transactions =
        s.transactions ++ [earnEntry userId id room b] ∧
      (checkout s id requester privileged).1.users =
        s.users.set userId
          { user with points := user.points + Int.floor (accrualAmount room b / 100) }) := by
  refine ⟨?_, ?_, ?_⟩
  · intro hst hnone
    have hany := any_bookingId_eq_false hnone
    unfold confirmBooking confirmBookingTx
    simp only [hb, hst, reduceCtorEq, if_false, withTransaction]
    unfold accrueOnConfirm
    simp only [hu, huser, hroom, hany, Bool.false_eq_true, if_false, accrualAmount_eq room b]
    exact ⟨rfl, rfl⟩
  · intro order horder
    unfold momoVerifyPayment
    simp only [hb, horder, ne_eq, not_true_eq_false, if_false, if_true]
    unfold accrueOnMomo
    simp only [hu, huser, hroom, accrualAmount_eq room b]
    exact ⟨rfl, rfl⟩
  · intro requester privileged hst hpaid hnone hreq
    have hany := any_bookingId_eq_false hnone
    have hforb : ¬ (requester ≠ userId ∧ privileged = false) := by
      rintro ⟨h1, h2⟩
      rcases hreq with h | h
      · exact h1 h
      · rw [h] at h2; exact absurd h2 (by simp)
    unfold checkout checkoutTx
    simp only [hany, hb, hst, hpaid, hu, huser, hroom, hforb, Bool.false_eq_true, if_false,
      ne_eq, not_true_eq_false, or_self, withTransaction, accrualAmount_eq room b]
    exact ⟨rfl, rfl⟩

/-- Witness for C21: confirming the stay of two nights at 1000000 a night records the
amount 2000000 and 20000 points; a MoMo verification and a checkout of a stay of one
night record 1000000 and 10000 points. -/
theorem accrual_entry_witness :
    ((confirmBooking twoNightsState 0).1.transactions =
        twoNightsState.transactions ++ [earnEntry 0 0 roomTwoNights bookingTwoNights] ∧
      (confirmBooking twoNightsState 0).1.users =
        twoNightsState.users.set 0
          { email := "an@example.com",
            points := 0 + Int.floor (accrualAmount roomTwoNights bookingTwoNights / 100) }) ∧
    (confirmBooking twoNightsState 0).1.transactions =
      [{ userId := 0, bookingId := some 0, amount := some 2000000, points := 20000,
         type := .earn, status := .completed }] ∧
    (confirmBooking twoNightsState 0).1.users = [{ email := "an@example.com", points := 20000 }] ∧
    (momoVerifyPayment (run exampleState [.bookroom requestMomo 0]) 0 "M1" true).1.transactions =
      [{ userId := 0, bookingId := some 0, amount := some 1000000, points := 10000,
         type := .earn, status := .completed }] ∧
    (checkout (vnpayReturn (run exampleState [.bookroom requestVnpay 0]) "ORD1" true "00").1
      0 0 false).1.transactions =
      [{ userId := 0, bookingId := some 0, amount := some 1000000, points := 10000,
         type := .earn, status := .completed }] :=
  ⟨(accrual_entry twoNightsState 0 0 bookingTwoNights { email := "an@example.com", points := 0 }
      roomTwoNights (by decide) (by decide) (by decide) (by decide)).1 rfl (by decide),
    by decide!⟩

/-- C22 (the code departs from the claim): the MoMo verification does not look for an
earlier ledger entry. A booking is confirmed, which records one earn entry of 10000
points; a successful MoMo verification of the same booking then records a second earn
entry for it and the user holds 20000 points. -/
theorem momo_accrues_again :
    (run exampleState [.bookroom requestMomo 0, .confirm 0]).transactions.map
      (fun t => (t.bookingId, t.type, t.points)) = [(some 0, .earn, 10000)] ∧
    (run exampleState [.bookroom requestMomo 0, .confirm 0]).users.map (fun u => u.points) =
      [10000] ∧
    (momoVerifyPayment (run exampleState [.bookroom requestMomo 0, .confirm 0])
      0 "M1" true).1.transactions.map (fun t => (t.bookingId, t.type, t.points)) =
      [(some 0, .earn, 10000), (some 0, .earn, 10000)] ∧
    (momoVerifyPayment (run exampleState [.bookroom requestMomo 0, .confirm 0])
      0 "M1" true).1.users.map (fun u => u.points) = [20000] := by
  decide!

/-- C23 (the code departs from the claim): a successful VNPay return makes the pending
booking of a registered user confirmed and paid, and writes neither a ledger entry nor
points, whereas the confirm action on the same booking records the earn entry. -/
theorem vnpay_return_skips_accrual :
    (run exampleState [.bookroom requestVnpay 0]).bookings.map
      (fun b => (b.status, b.paymentStatus, b.email)) =
      [(.pending, .pending, "an@example.com")] ∧
    (run exampleState [.bookroom requestVnpay 0]).users =
      [{ email := "an@example.com", points := 0 }] ∧
    (vnpayReturn (run exampleState [.bookroom requestVnpay 0]) "ORD1" true "00").2 = .success ∧
    (vnpayReturn (run exampleState [.bookroom requestVnpay 0]) "ORD1" true "00").1.bookings.map
      (fun b => (b.status, b.paymentStatus)) = [(.confirmed, .paid)] ∧
    (vnpayReturn (run exampleState [.bookroom requestVnpay 0]) "ORD1" true "00").1.transactions =
      [] ∧
    (vnpayReturn (run exampleState [.bookroom requestVnpay 0]) "ORD1" true "00").1.users =
      [{ email := "an@example.com", points := 0 }] ∧
    (confirmBooking (run exampleState [.bookroom requestVnpay 0]) 0).1.transactions.map
      (fun t => (t.bookingId, t.type, t.points)) = [(some 0, .earn, 10000)] := by
  decide!

/-- C24: for an existing user and reward, Redeem succeeds exactly when the tier derived
from the user's points is the tier of the reward, the points reach `pointsRequired`, the
user holds no personal voucher for the code of the reward, and a voucher discount with
that code is stored. On success the points decrease by `pointsRequired` and stay
non-negative, one `reward_redemption` entry with the points `-pointsRequired` is
appended, one unused personal voucher expiring at the end date of the discount is
created, nothing else changes, and a second Redeem is rejected; a rejected Redeem
leaves the database as it is. -/
theorem redeem_spec (s : State) (userId rewardId : Nat) (user : User) (reward : Reward)
    (hu : s.users[userId]? = some user) (hr : s.rewards[rewardId]? = some reward) :
    ((redeem s userId rewardId).2 = .ok () ↔
      membershipLevel user.points = reward.membershipLevel ∧
      reward.pointsRequired ≤ user.points ∧
      (∀ v ∈ s.userVouchers, ¬ (v.userId = userId ∧ v.voucherCode = reward.voucherCode)) ∧
      ∃ d ∈ s.discounts, d.code = some reward.voucherCode ∧ d.type = .voucher) ∧
    ((redeem s userId rewardId).2 = .ok () →
      0 ≤ user.points - reward.pointsRequired ∧
      (∃ discount,
        s.discounts.find? (fun d => d.code == some reward.voucherCode && d.type == .voucher) =
          some discount ∧
        (redeem s userId rewardId).1 =
          { s with
            users := s.users.set userId
              { user with points := user.points - reward.pointsRequired }
            transactions := s.transactions ++
              [{ userId := userId, bookingId := none, amount := none,
                 points := -reward.pointsRequired, type := .reward_redemption,
                 status := .pending }]
            userVouchers := s.userVouchers ++
              [{ userId := userId, voucherCode := reward.voucherCode, isUsed := false,
                 expiryDate := discount.endDate }] }) ∧
      ∃ e, (redeem (redeem s userId rewardId).1 userId rewardId).2 = .error e) ∧
    ((redeem s userId rewardId).2 ≠ .ok () → (redeem s userId rewardId).1 = s) := by
  have hany : s.userVouchers.any
      (fun v => v.userId == userId && v.voucherCode == reward.voucherCode) = false ↔
      ∀ v ∈ s.userVouchers, ¬ (v.userId = userId ∧ v.voucherCode = reward.voucherCode) := by
    rw [List.any_eq_false]
    constructor
    · intro h v hv
      simpa using h v hv
    · intro h v hv
      simpa using h v hv
  refine ⟨?_, ?_, ?_⟩
  · unfold redeem
    rw [withTransaction_snd_ok]
    constructor
    · rintro ⟨s', hs'⟩
      obtain ⟨h1, h2, h3, d, hd, -⟩ := (redeemTx_ok_iff hu hr s').mp hs'
      exact ⟨h1, h2, hany.mp h3, find?_voucher_isSome.mp ⟨d, hd⟩⟩
    · rintro ⟨h1, h2, h3, h4⟩
      obtain ⟨d, hd⟩ := find?_voucher_isSome.mpr h4
      exact ⟨_, (redeemTx_ok_iff hu hr _).mpr ⟨h1, h2, hany.mpr h3, d, hd, rfl⟩⟩
  · intro hok
    unfold redeem at hok ⊢
    obtain ⟨s', hs'⟩ := withTransaction_snd_ok.mp hok
    obtain ⟨h1, h2, h3, d, hd, hst⟩ := (redeemTx_ok_iff hu hr s').mp hs'
    rw [hs', withTransaction_ok]
    refine ⟨by omega, ⟨d, hd, hst⟩, ?_⟩
    have hlen := getElem?_lt_length hu
    have hu' : s'.users[userId]? =
        some { user with points := user.points - reward.pointsRequired } := by
      rw [hst]
      exact List.getElem?_set_self hlen
    have hr' : s'.rewards[rewardId]? = some reward := by rw [hst]; exact hr
    cases hsecond : redeemTx s' userId rewardId with
    | error e => exact ⟨e, rfl⟩
    | ok s'' =>
      obtain ⟨-, -, h3', -⟩ := (redeemTx_ok_iff hu' hr' s'').mp hsecond
      rw [hst, List.any_eq_false] at h3'
      have := h3' { userId := userId, voucherCode := reward.voucherCode, isUsed := false,
                    expiryDate := d.endDate } (by simp)
      simp at this
  · intro hrej
    unfold redeem at hrej ⊢
    cases hbody : redeemTx s userId rewardId with
    | ok s' =>
      rw [hbody] at hrej
      exact absurd rfl hrej
    | error e => rfl

/-- Witness for C24: user 0 of `rewardState`, Silver with 100000 points, redeems the
reward of 50000 points for the voucher `A`, and cannot redeem it again. -/
theorem redeem_spec_witness :
    ((redeem rewardState 0 0).2 = .ok () ∧
      (redeem rewardState 0 0).1.users = [{ email := "an@example.com", points := 50000 }] ∧
      (redeem rewardState 0 0).1.transactions =
        rewardState.transactions ++
          [{ userId := 0, bookingId := none, amount := none, points := -50000,
             type := .reward_redemption, status := .pending }] ∧
      (redeem rewardState 0 0).1.userVouchers =
        rewardState.userVouchers ++
          [{ userId := 0, voucherCode := "A", isUsed := false, expiryDate := 1000 }]) ∧
    ∃ e, (redeem (redeem rewardState 0 0).1 0 0).2 = .error e :=
  ⟨by decide!,
    ((redeem_spec rewardState 0 0 userAn
      { membershipLevel := .Silver, pointsRequired := 50000, voucherCode := "A" }
      (by decide) (by decide)).2.1 (by decide!)).2.2⟩

/-- C25 (the code departs from the claim): the accrual subtracts the stored voucher
discount without a lower bound. A fixed discount of 3000000 applied to the booking of
2000000 gives the net amount 0 but stores `voucherDiscount = 3000000`; confirming the
booking then records the amount -1000000 and -10000 points, and the user, who had 0
points, holds -10000. -/
theorem accrual_makes_points_negative :
    overDiscountState.users.map (fun u => u.points) = [0] ∧
    (applyDiscounts overDiscountState (applyRequest [.id 0]) 500).2 =
      .ok { totalAmount := 0,
            appliedDiscounts :=
              [{ id := 0, code := none, type := .festival, discount := 3000000 }] } ∧
    (applyDiscounts overDiscountState (applyRequest [.id 0]) 500).1.bookings.map
      (fun b => (b.status, b.voucherDiscount)) = [(.pending, 3000000)] ∧
    (confirmBooking (applyDiscounts overDiscountState (applyRequest [.id 0]) 500).1
      0).1.transactions =
      [{ userId := 0, bookingId := some 0, amount := some (-1000000), points := -10000,
         type := .earn, status := .completed }] ∧
    (confirmBooking (applyDiscounts overDiscountState (applyRequest [.id 0]) 500).1
      0).1.users.map (fun u => u.points) = [-10000] := by
  decide!

/-- Counterexample for C26: a festival discount passes the pre-save hook with none of
`code`, `membershipLevel` and `minSpending` populated. -/
theorem festival_has_no_type_field :
    discountPreSave (festival 100000 false) = .ok (festival 100000 false) ∧
    (festival 100000 false).type = .festival ∧
    (festival 100000 false).code = none ∧
    (festival 100000 false).membershipLevel = none ∧
    (festival 100000 false).minSpending = none := by
  decide!

/-- C26 (amended): a discount that passes the pre-save hook is stored with its type
unchanged and with at most one of `code`, `membershipLevel` and `minSpending`
populated: a non-empty `code` only for a voucher, `membershipLevel` only for a member
discount, `minSpending` only for an accumulated discount, and none for a festival
discount. -/
theorem discountPreSave_fields (d saved : Discount) (h : discountPreSave d = .ok saved) :
    saved.type = d.type ∧
    (saved.type = .voucher →
      (∃ c, saved.code = some c ∧ c ≠ "") ∧ saved.membershipLevel = none ∧
        saved.minSpending = none) ∧
    (saved.type = .member →
      saved.code = none ∧ (∃ level, saved.membershipLevel = some level) ∧
        saved.minSpending = none) ∧
    (saved.type = .accumulated →
      saved.code = none ∧ saved.membershipLevel = none ∧
        ∃ amount, saved.minSpending = some amount) ∧
    (saved.type = .festival →
      saved.code = none ∧ saved.membershipLevel = none ∧ saved.minSpending = none) := by
  unfold discountPreSave at h
  cases hty : d.type <;> simp [hty] at h <;> split_ifs at h <;>
    simp only [Except.ok.injEq, reduceCtorEq] at h <;> subst h <;> simp_all
  · rename_i hc _
    cases hcode : d.code with
    | none => exact absurd hcode hc.1
    | some c => exact ⟨c, rfl, fun h0 => hc.2 (by rw [hcode, h0])⟩
  · rename_i hl _
    exact Option.ne_none_iff_exists'.mp hl
  · rename_i hm _
    exact Option.ne_none_iff_exists'.mp hm

/-- Witness for C26: the voucher `SALE10` passes the hook unchanged. -/
theorem discountPreSave_fields_witness :
    voucherSale10.type = voucherSale10.type ∧
    (voucherSale10.type = .voucher →
      (∃ c, voucherSale10.code = some c ∧ c ≠ "") ∧ voucherSale10.membershipLevel = none ∧
        voucherSale10.minSpending = none) ∧
    (voucherSale10.type = .member →
      voucherSale10.code = none ∧ (∃ level, voucherSale10.membershipLevel = some level) ∧
        voucherSale10.minSpending = none) ∧
    (voucherSale10.type = .accumulated →
      voucherSale10.code = none ∧ voucherSale10.membershipLevel = none ∧
        ∃ amount, voucherSale10.minSpending = some amount) ∧
    (voucherSale10.type = .festival →
      voucherSale10.code = none ∧ voucherSale10.membershipLevel = none ∧
        voucherSale10.minSpending = none) :=
  discountPreSave_fields voucherSale10 voucherSale10 (by decide!)

/-- C28 (the code departs from the claim): a validly signed VNPay return with the
response code 24 for a pending booking sets `paymentStatus = canceled` only; the booking
keeps `status = pending` and its interval stays reserved in the room. -/
theorem vnpay_failure_keeps_pending :
    (run exampleState [.bookroom requestVnpay 0]).bookings.map
      (fun b => (b.status, b.paymentStatus)) = [(.pending, .pending)] ∧
    (vnpayReturn (run exampleState [.bookroom requestVnpay 0]) "ORD1" true "24").2 = .failed ∧
    (vnpayReturn (run exampleState [.bookroom requestVnpay 0]) "ORD1" true "24").1.bookings.map
      (fun b => (b.status, b.paymentStatus)) = [(.pending, .canceled)] ∧
    (vnpayReturn (run exampleState [.bookroom requestVnpay 0]) "ORD1" true "24").1.rooms.map
      (fun r => r.currentbookings) = [[⟨some 0, 1, 3⟩], []] := by
  decide

/-- C29: the loop of the resolver depends on the order of the candidates. For the
booking amount 2000000 and user 0 of `discountState`, the candidates A (100000, not
stackable) and C (20000, stackable) give the applied list A, C in the order A, C and
the applied list C alone in the order C, A, and the net amounts differ. -/
theorem resolver_depends_on_order :
    ∃ (totalAmount : ℚ) (user : Option (Nat × User)) (cands₁ cands₂ : List (Nat × Discount))
      (r₁ r₂ : Resolution),
      cands₁.Perm cands₂ ∧
      applyLoop 0 totalAmount user 500 cands₁
        { db := discountState, totalDiscount := 0, appliedDiscounts := [] } = .ok r₁ ∧
      applyLoop 0 totalAmount user 500 cands₂
        { db := discountState, totalDiscount := 0, appliedDiscounts := [] } = .ok r₂ ∧
      r₁.appliedDiscounts ≠ r₂.appliedDiscounts ∧
      (finishApply totalAmount none r₁).2.totalAmount ≠
        (finishApply totalAmount none r₂).2.totalAmount := by
  refine ⟨2000000, some (0, userAn), [(1, festival 100000 false), (3, festival 20000 true)],
    [(3, festival 20000 true), (1, festival 100000 false)],
    { db := discountState, totalDiscount := 120000,
      appliedDiscounts :=
        [{ id := 1, code := none, type := .festival, discount := 100000 },
         { id := 3, code := none, type := .festival, discount := 20000 }] },
    { db := discountState, totalDiscount := 20000,
      appliedDiscounts := [{ id := 3, code := none, type := .festival, discount := 20000 }] },
    List.Perm.swap _ _ _, ?_⟩
  decide!

/-- C30 (the code departs from the claim): the checkout accrual multiplies the amount by
0.01. For the amount 1000000 it records 10000 points, whereas one point for every
100000 would be 10 points. -/
theorem checkout_points_per_hundred :
    (vnpayReturn (run exampleState [.bookroom requestVnpay 0]) "ORD1" true "00").1.bookings.map
      (fun b => (b.status, b.paymentStatus)) = [(.confirmed, .paid)] ∧
    (checkout (vnpayReturn (run exampleState [.bookroom requestVnpay 0]) "ORD1" true "00").1
      0 0 false).2 = .ok () ∧
    (checkout (vnpayReturn (run exampleState [.bookroom requestVnpay 0]) "ORD1" true "00").1
      0 0 false).1.transactions =
      [{ userId := 0, bookingId := some 0, amount := some 1000000, points := 10000,
         type := .earn, status := .completed }] ∧
    Int.floor ((1000000 : ℚ) / 100000) = 10 := by
  decide!

end HotelBooking
